import Mathlib

/-!
# IBM 3705 Type-2 communication scanner and SDLC line handler

A shallow embedding of `src/I3705/i3705_scan_T2.c` (the scanner loop of
`CS2_thread`, `Get_ICW`, `Init_ICW`) and of `src/I3705/i3705_sdlc.c`
(`SendSDLC`, `ReadSDLC` and one iteration of the `SDLC_thread` loop).

Conventions of the embedding.

* The C globals are the fields of `State`.  A per-line array `x[MAX_LINE]` is a
  function `Nat → _` of the line index.
* `uint8_t`/`uint16_t` values are natural numbers.  The scanner only ever
  applies `|=` and `&=` with byte constants to them, which cannot overflow.
* `int` values (buffer pointers, lengths, file descriptors, return codes) are
  integers.
* The two-dimensional byte arrays `BLU_req_buf[MAX_LINE][BUFFER_SIZE]` and
  `BLU_rsp_buf[MAX_LINE][BUFFER_SIZE]` are flat memories `Int → Nat`: the C
  expression `BLU_req_buf[line][k]` addresses cell `line * BUFFER_SIZE + k`.
* Trace output (`fprintf` to `S_trace`, `printf`) has no effect on the state
  and is left out.
* What the other actors do (the CCU clearing `svc_req_L2`, the results of
  `send`, `ioctl`, `read`, `epoll_wait`, `accept`) is passed in as parameters.
-/

namespace I3705

/-! ## Constants -/

/-- ICW table size: `#define MAX_LINE 4`. -/
def MAX_LINE : Nat := 4

/-- Line send/receive buffer size: `#define BUFFER_SIZE 16384`. -/
def BUFFER_SIZE : Nat := 16384

/-- Maximum of lines in `i3705_sdlc.c`: `#define MAX_LINES 4`. -/
def MAX_LINES : Nat := 4

/-- Line buffer size in `i3705_sdlc.c`: `#define BUFLEN_LINE 16384`. -/
def BUFLEN_LINE : Nat := 16384

/-- Connection state of `i3705_sdlc.c`: `#define DISC 2` (3274 is disconnected). -/
def DISC : Int := 2

/-- Connection state of `i3705_sdlc.c`: `#define CONN 3` (3274 is connected). -/
def CONN : Int := 3

/-- Modelled from the spec: the header that defines `RESET`, `TX` and `RX` for
the scanner (`i3705_sdlc.h`) is missing from the sources; the spec gives
`line_stat` as one of RESET, TX, RX, three distinct values. -/
inductive LneStat where
  | RESET
  | TX
  | RX
  deriving DecidableEq

/-- Modelled from the spec: the header that defines `EMPTY` and `FILLED`
(`i3705_defs.h`) is missing from the sources; the spec gives the buffer state
flags and `pdf_reg` as one of EMPTY, FILLED, two distinct values. -/
inductive BufStat where
  | EMPTY
  | FILLED
  deriving DecidableEq

export LneStat (RESET TX RX)
export BufStat (EMPTY FILLED)

/-- Modelled from the spec: `ON` is defined in the missing `i3705_defs.h`; a
flag is a boolean and `ON` is its true (non-zero) value, as the test
`if (CS2_req_L2_int)` requires. -/
abbrev ON : Bool := true

/-- Modelled from the spec: `OFF` is defined in the missing `i3705_defs.h`; it
is the false (zero) value of a flag. -/
abbrev OFF : Bool := false

/-! ## State -/

/-- The record `struct SDLCLine` of `i3705_sdlc.c` (the two scratch buffers
`SDLC_rbuf`, `SDLC_tbuf` are never used by the code and are left out). -/
structure SDLCLine where
  line_fd : Int
  line_num : Int
  line_stat : Int
  d3274_fd : Int
  epoll_fd : Int

/-- The global variables of the scanner and of the SDLC line handler. -/
structure State where
  /-- `extern int8 svc_req_L2`: SVC L2 request flag. -/
  svc_req_L2 : Bool
  /-- `extern int32 lvl`: the current interrupt level of the CCU. -/
  lvl : Int
  /-- `int8 Eflg_rvcd`: Eflag received. -/
  Eflg_rvcd : Bool
  /-- `int abar_int`: ABAR of line interrupt. -/
  abar_int : Int
  icw_scf : Nat → Nat
  icw_pdf : Nat → Nat
  icw_lcd : Nat → Nat
  icw_pcf : Nat → Nat
  icw_sdf : Nat → Nat
  icw_Rflags : Nat → Nat
  icw_pcf_prev : Nat → Nat
  icw_lne_stat : Nat → LneStat
  icw_pcf_nxt : Nat → Nat
  icw_pdf_reg : Nat → BufStat
  /-- `int8 CS2_req_L2_int = OFF`. -/
  CS2_req_L2_int : Bool
  BLU_req_buf : Int → Nat
  BLU_req_ptr : Nat → Int
  BLU_req_len : Nat → Int
  BLU_req_stat : Nat → BufStat
  BLU_rsp_buf : Int → Nat
  BLU_rsp_ptr : Nat → Int
  BLU_rsp_len : Nat → Int
  BLU_rsp_stat : Nat → BufStat
  PIU_rsp_ptr : Nat → Int
  PIU_rsp_len : Nat → Int
  /-- `struct SDLCLine *sdlcline[MAX_LINES]`. -/
  sdlcline : Nat → SDLCLine
  /-- `extern int32 Eregs_Inp[]`: the external registers read by the CCU.  The
  values stored by the scanner are non-negative and below `2^16`. -/
  Eregs_Inp : Nat → Nat

/-- Assignment to one element of an array: `f[i] = v`. -/
def upd {ι α : Type} [DecidableEq ι] (f : ι → α) (i : ι) (v : α) : ι → α :=
  fun j => if j = i then v else f j

/-- The flat cell addressed by `buf[line][k]` in a `[MAX_LINE][BUFFER_SIZE]` array. -/
def idx (line : Nat) (k : Int) : Int := (line : Int) * (BUFFER_SIZE : Int) + k

/-! ## The scanner: one pass of the `for` loop body of `CS2_thread` -/

/-- Lines 236-245: turn DCD on, then take over a PCF written by the NCP. -/
def phaseA (line : Nat) (s : State) : State :=
  let s1 : State := { s with icw_scf := upd s.icw_scf line (s.icw_scf line ||| 0x08) }
  if s1.icw_pcf line ≠ s1.icw_pcf_nxt line then
    let s2 : State :=
      if s1.icw_pcf_nxt line = 0x0 then
        { s1 with icw_lne_stat := upd s1.icw_lne_stat line RESET }
      else s1
    let s3 : State := { s2 with icw_pcf_prev := upd s2.icw_pcf_prev line (s2.icw_pcf line) }
    { s3 with icw_pcf := upd s3.icw_pcf line (s3.icw_pcf_nxt line) }
  else s1

/-- The test `(svc_req_L2 == ON) || (lvl == 2)`: is an L2 interrupt active? -/
def L2_active (s : State) : Bool := s.svc_req_L2 == ON || s.lvl == 2

/-- `case 0x0`: NO-OP. -/
def case_0 (line : Nat) (s : State) : State :=
  { s with
    icw_scf := upd s.icw_scf line (s.icw_scf line &&& 0x4A)
    BLU_req_stat := upd s.BLU_req_stat line EMPTY
    BLU_rsp_stat := upd s.BLU_rsp_stat line EMPTY }

/-- `case 0x1`, `case 0x2`, `case 0x3` (three identical bodies): on first entry
set the service flag, go to PCF 0 and request an L2 interrupt. -/
def case_1 (line : Nat) (s : State) : State :=
  if s.icw_pcf_prev line ≠ s.icw_pcf line then
    { s with
      icw_scf := upd s.icw_scf line (s.icw_scf line ||| 0x40)
      icw_pcf_nxt := upd s.icw_pcf_nxt line 0x0
      CS2_req_L2_int := ON }
  else s

/-- `case 0x4` and `case 0x5`: monitor the 7E flag. -/
def case_4 (line : Nat) (s : State) : State :=
  let Bptr : Int := 0
  let s1 : State := { s with BLU_rsp_ptr := upd s.BLU_rsp_ptr line Bptr }
  if s1.icw_lne_stat line = RESET then s1
  else if s1.icw_lne_stat line = TX then s1
  else if s1.icw_lcd line = 0x8 ∨ s1.icw_lcd line = 0x9 then
    let s2 : State := { s1 with icw_scf := upd s1.icw_scf line (s1.icw_scf line &&& 0xFB) }
    if s2.BLU_rsp_stat line = FILLED ∧ s2.BLU_rsp_buf (idx line Bptr) = 0x7E then
      { s2 with
        icw_scf := upd s2.icw_scf line (s2.icw_scf line ||| 0x04)
        icw_lcd := upd s2.icw_lcd line 0x9
        icw_pcf_nxt := upd s2.icw_pcf_nxt line 0x6
        CS2_req_L2_int := ON }
    else s2
  else s1

/-- `case 0x6`: receive info, inhibit data interrupt. -/
def case_6 (line : Nat) (s : State) : State :=
  let Bptr : Int := s.BLU_rsp_ptr line
  if L2_active s then s
  else
    let s1 : State := { s with icw_pdf := upd s.icw_pdf line (s.BLU_rsp_buf (idx line Bptr)) }
    let Bptr1 : Int := Bptr + 1
    let s2 : State := { s1 with BLU_rsp_ptr := upd s1.BLU_rsp_ptr line Bptr1 }
    if s2.icw_pdf line = 0x7E then s2
    else
      { s2 with
        icw_scf := upd s2.icw_scf line ((s2.icw_scf line ||| 0x40) &&& 0xFB)
        icw_pdf_reg := upd s2.icw_pdf_reg line FILLED
        icw_pcf_nxt := upd s2.icw_pcf_nxt line 0x7
        CS2_req_L2_int := ON }

/-- `case 0x7`: receive info, allow data interrupt. -/
def case_7 (line : Nat) (s : State) : State :=
  let Bptr : Int := s.BLU_rsp_ptr line
  if L2_active s then s
  else if s.icw_lcd line = 0x9 then
    if s.icw_pdf_reg line = EMPTY then
      let s1 : State :=
        { s with
          Eflg_rvcd :=
            if s.BLU_rsp_buf (idx line (Bptr - 2)) = 0x47 ∧
               s.BLU_rsp_buf (idx line (Bptr - 1)) = 0x0F ∧
               s.BLU_rsp_buf (idx line (Bptr - 0)) = 0x7E then ON else OFF }
      let s2 : State := { s1 with icw_pdf := upd s1.icw_pdf line (s1.BLU_rsp_buf (idx line Bptr)) }
      let Bptr1 : Int := Bptr + 1
      let s3 : State := { s2 with BLU_rsp_ptr := upd s2.BLU_rsp_ptr line Bptr1 }
      if s3.Eflg_rvcd = ON then
        { s3 with
          BLU_rsp_stat := upd s3.BLU_rsp_stat line EMPTY
          icw_lne_stat := upd s3.icw_lne_stat line TX
          icw_scf := upd s3.icw_scf line (s3.icw_scf line ||| 0x44)
          icw_pcf_nxt := upd s3.icw_pcf_nxt line 0x6
          CS2_req_L2_int := ON }
      else
        { s3 with
          icw_pdf_reg := upd s3.icw_pdf_reg line FILLED
          icw_scf := upd s3.icw_scf line (s3.icw_scf line ||| 0x40)
          icw_pcf_nxt := upd s3.icw_pcf_nxt line 0x7
          CS2_req_L2_int := ON }
    else s
  else s

/-- `case 0x8`: transmit initial, turn RTS on. -/
def case_8 (line : Nat) (s : State) : State :=
  if L2_active s then s
  else if s.icw_lcd line = 0x9 then
    { s with
      icw_scf := upd s.icw_scf line (s.icw_scf line &&& 0xFB)
      icw_pcf_nxt := upd s.icw_pcf_nxt line 0x9 }
  else s

/-- `case 0x9`: transmit normal. -/
def case_9 (line : Nat) (s : State) : State :=
  let Bptr : Int := s.BLU_req_ptr line
  if L2_active s then s
  else if s.icw_lcd line = 0x9 then
    if s.icw_pdf_reg line = FILLED then
      let s1 : State := { s with BLU_req_buf := upd s.BLU_req_buf (idx line Bptr) (s.icw_pdf line) }
      let Bptr1 : Int := Bptr + 1
      let s2 : State :=
        { s1 with
          icw_pdf_reg := upd s1.icw_pdf_reg line EMPTY
          icw_scf := upd s1.icw_scf line (s1.icw_scf line ||| 0x40)
          icw_pcf_nxt := upd s1.icw_pcf_nxt line 0x9
          CS2_req_L2_int := ON }
      { s2 with BLU_req_ptr := upd s2.BLU_req_ptr line Bptr1 }
    else { s with BLU_req_ptr := upd s.BLU_req_ptr line Bptr }
  else s

/-- `case 0xA`: transmit normal with new sync; nothing is done on either side
of the L2 test. -/
def case_A (_line : Nat) (s : State) : State :=
  if L2_active s then s else s

/-- `case 0xC`: transmit turnaround, turn RTS off. -/
def case_C (line : Nat) (s : State) : State :=
  if s.icw_lcd line = 0x9 then
    if s.icw_pcf_prev line ≠ s.icw_pcf line then
      let Bptr : Int := s.BLU_req_ptr line
      let s1 : State := { s with BLU_req_len := upd s.BLU_req_len line Bptr }
      let s2 : State := { s1 with BLU_req_stat := upd s1.BLU_req_stat line FILLED }
      let s3 : State := { s2 with BLU_req_ptr := upd s2.BLU_req_ptr line 0 }
      { s3 with
        icw_lne_stat := upd s3.icw_lne_stat line RX
        icw_scf := upd s3.icw_scf line (s3.icw_scf line ||| 0x40)
        icw_pcf_nxt := upd s3.icw_pcf_nxt line 0x5
        CS2_req_L2_int := ON }
    else s
  else s

/-- `case 0xD`: transmit turnaround, keep RTS on; only a trace line. -/
def case_D (_line : Nat) (s : State) : State := s

/-- `case 0xF`: disable line. -/
def case_F (line : Nat) (s : State) : State :=
  { s with
    icw_scf := upd s.icw_scf line (s.icw_scf line ||| 0x40)
    icw_pcf_nxt := upd s.icw_pcf_nxt line 0x0
    CS2_req_L2_int := ON }

/-- Lines 247-496: `switch (icw_pcf[line])`.  The switch has no `default`. -/
def phaseB (line : Nat) (s : State) : State :=
  if s.icw_pcf line = 0x0 then case_0 line s
  else if s.icw_pcf line = 0x1 then case_1 line s
  else if s.icw_pcf line = 0x2 then case_1 line s
  else if s.icw_pcf line = 0x3 then case_1 line s
  else if s.icw_pcf line = 0x4 then case_4 line s
  else if s.icw_pcf line = 0x5 then case_4 line s
  else if s.icw_pcf line = 0x6 then case_6 line s
  else if s.icw_pcf line = 0x7 then case_7 line s
  else if s.icw_pcf line = 0x8 then case_8 line s
  else if s.icw_pcf line = 0x9 then case_9 line s
  else if s.icw_pcf line = 0xA then case_A line s
  else if s.icw_pcf line = 0xB then s
  else if s.icw_pcf line = 0xC then case_C line s
  else if s.icw_pcf line = 0xD then case_D line s
  else if s.icw_pcf line = 0xE then s
  else if s.icw_pcf line = 0xF then case_F line s
  else s

/-- Lines 505-507: `while (svc_req_L2 == ON) usleep(1000);`.  The flag is
cleared by the CCU only: `ccu k` tells whether the CCU finishes its L2
processing during the `k`-th sleep of the scanner.  `fuel` bounds the number
of sleeps; the result is the value of the flag when the loop is left, or
`none` when the loop is still running after `fuel` sleeps. -/
def waitL2 (ccu : Nat → Bool) : Nat → Nat → Bool → Option Bool
  | 0, _, svc => if svc = ON then none else some svc
  | fuel + 1, k, svc =>
    if svc = ON then waitL2 ccu fuel (k + 1) (if ccu k then OFF else svc) else some svc

/-- Lines 509-516: report the line and issue the level 2 interrupt. -/
def raiseL2 (line : Nat) (s : State) : State :=
  { s with
    abar_int := (line : Int) + 0x020
    svc_req_L2 := ON
    CS2_req_L2_int := OFF }

/-- Lines 518-521: save the current PCF and move to the next one. -/
def commit (line : Nat) (s : State) : State :=
  let s1 : State := { s with icw_pcf_prev := upd s.icw_pcf_prev line (s.icw_pcf line) }
  if s1.icw_pcf line ≠ s1.icw_pcf_nxt line then
    { s1 with icw_pcf := upd s1.icw_pcf line (s1.icw_pcf_nxt line) }
  else s1

/-- Lines 500-521: post-processing of a line cycle. -/
def phaseC (ccu : Nat → Bool) (fuel : Nat) (line : Nat) (s : State) : Option State :=
  if s.CS2_req_L2_int = ON then
    match waitL2 ccu fuel 0 s.svc_req_L2 with
    | none => none
    | some v => some (commit line (raiseL2 line { s with svc_req_L2 := v }))
  else some (commit line s)

/-- One pass of the body of `for (line = 0; line < MAX_LINE; line++)`. -/
def scanLine (ccu : Nat → Bool) (fuel : Nat) (line : Nat) (s : State) : Option State :=
  phaseC ccu fuel line (phaseB line (phaseA line s))

/-- Whether the scan of `line` started in `s` reaches the post-processing with
an L2 interrupt requested (`if (CS2_req_L2_int)` at line 500). -/
def L2_requested (line : Nat) (s : State) : Bool :=
  (phaseB line (phaseA line s)).CS2_req_L2_int

/-- The result of a scan of `line` whose wait for the CCU has ended. -/
def scanned (line : Nat) (s : State) : State :=
  let sB := phaseB line (phaseA line s)
  if sB.CS2_req_L2_int = ON then commit line (raiseL2 line sB) else commit line sB

/-- The CCU ends the scanner's wait: the flag is off already, or the CCU
clears it during one of the first `fuel` sleeps. -/
def ccuClears (ccu : Nat → Bool) (fuel : Nat) (s : State) : Prop :=
  s.svc_req_L2 = OFF ∨ ∃ n, n < fuel ∧ ccu n = true

/-- Body of the loop of `Init_ICW` for line `j`. -/
def Init_ICW_line (j : Nat) (s : State) : State :=
  { s with
    icw_scf := upd s.icw_scf j 0
    icw_pdf := upd s.icw_pdf j 0
    icw_lcd := upd s.icw_lcd j 0
    icw_pcf := upd s.icw_pcf j 0xE
    icw_sdf := upd s.icw_sdf j 0
    icw_Rflags := upd s.icw_Rflags j 0
    icw_pcf_prev := upd s.icw_pcf_prev j 0x0
    icw_lne_stat := upd s.icw_lne_stat j RESET
    icw_pcf_nxt := upd s.icw_pcf_nxt j 0x0
    icw_pdf_reg := upd s.icw_pdf_reg j EMPTY
    BLU_req_ptr := upd s.BLU_req_ptr j 0
    BLU_req_len := upd s.BLU_req_len j 0
    BLU_req_stat := upd s.BLU_req_stat j EMPTY
    BLU_rsp_ptr := upd s.BLU_rsp_ptr j 0
    BLU_rsp_len := upd s.BLU_rsp_len j 0
    BLU_rsp_stat := upd s.BLU_rsp_stat j EMPTY
    PIU_rsp_ptr := upd s.PIU_rsp_ptr j 0
    PIU_rsp_len := upd s.PIU_rsp_len j 0 }

/-- `Init_ICW(max)`: `for (int j = 0; j < max; j++)`, lines in ascending order. -/
def Init_ICW : Nat → State → State
  | 0, s => s
  | max + 1, s => Init_ICW_line max (Init_ICW max s)

/-- `Get_ICW(line)`: copy the ICW of the line to the input registers `0x44` to
`0x47`. -/
def Get_ICW (line : Nat) (s : State) : State :=
  let s1 : State :=
    { s with Eregs_Inp := upd s.Eregs_Inp 0x44 ((s.icw_scf line <<< 8) ||| s.icw_pdf line) }
  let s2 : State :=
    { s1 with
      Eregs_Inp := upd s1.Eregs_Inp 0x45
        (((s1.icw_lcd line <<< 12) ||| (s1.icw_pcf line <<< 8)) ||| s1.icw_sdf line) }
  let s3 : State := { s2 with Eregs_Inp := upd s2.Eregs_Inp 0x46 0xF0A5 }
  { s3 with Eregs_Inp := upd s3.Eregs_Inp 0x47 (s3.icw_Rflags line) }

/-! ## The SDLC line handler: `i3705_sdlc.c` -/

/-- The arguments of the call
`send(sdlcline[j]->d3274_fd, &BLU_req_buf[j][Fptr], BLU_req_len[j]-Fptr, 0)`. -/
structure SendCall where
  fd : Int
  Fptr : Int
  len : Int

/-- The bytes a `send` call is handed: `len` bytes of the request buffer of
line `j`, starting at offset `Fptr`. -/
def sendBytes (s : State) (j : Nat) (c : SendCall) : List Nat :=
  (List.range c.len.toNat).map (fun (t : Nat) => s.BLU_req_buf (idx j (c.Fptr + (t : Int))))

/-- What the operating system answers to the calls of one pass of the
`SDLC_thread` loop. -/
structure Sys where
  /-- Return value of `send`. -/
  send_rc : Int
  /-- Value of the local `rc` of `ReadSDLC`, which is not initialised when
  no peer descriptor is open. -/
  rc_uninit : Int
  /-- Return value of `ioctl(fd, FIONREAD, &rcv_cnt)`. -/
  ioctl_rc : Int
  /-- The number of pending bytes `ioctl` stores in `rcv_cnt`. -/
  rcv_cnt : Int
  /-- Result of `read`: `none` for the error return `-1`, otherwise the bytes
  read (at most `BUFLEN_LINE` of them are taken). -/
  read_res : Option (List Nat)
  /-- Return value of `epoll_wait`. -/
  event_count : Int
  /-- Return value of the `i`-th `accept`. -/
  accept_fd : Nat → Int

/-- Assignment `sdlcline[j]->d3274_fd = fd`. -/
def set_d3274_fd (j : Nat) (fd : Int) (s : State) : State :=
  { s with sdlcline := upd s.sdlcline j { s.sdlcline j with d3274_fd := fd } }

/-- Assignment `sdlcline[j]->line_stat = st`. -/
def set_line_stat (j : Nat) (st : Int) (s : State) : State :=
  { s with sdlcline := upd s.sdlcline j { s.sdlcline j with line_stat := st } }

/-- `SendSDLC(j)`: the return code, the state afterwards, and the `send` call
that was made, if any. -/
def SendSDLC (e : Sys) (j : Nat) (s : State) : Int × State × Option SendCall :=
  let Fptr : Int :=
    if s.BLU_req_buf (idx j 0) = 0x00 ∨ s.BLU_req_buf (idx j 0) = 0xAA then 1 else 0
  if (s.sdlcline j).d3274_fd < 1 then (-1, s, none)
  else
    let call : SendCall := ⟨(s.sdlcline j).d3274_fd, Fptr, s.BLU_req_len j - Fptr⟩
    let rc : Int := e.send_rc
    if rc < 0 then (-1, set_d3274_fd j 0 s, some call)
    else (0, s, some call)

/-- The effect of `read(fd, &buf[base], n)` on the memory: the bytes read are
stored from cell `base` on. -/
def writeBytes (buf : Int → Nat) (base : Int) (data : List Nat) : Int → Nat :=
  fun k => if base ≤ k ∧ k < base + (data.length : Int) then data.getD (k - base).toNat 0 else buf k

/-- `ReadSDLC(j)`: the return code and the state afterwards. -/
def ReadSDLC (e : Sys) (j : Nat) (s : State) : Int × State :=
  let Fptr : Int := 0
  let fd : Int := (s.sdlcline j).d3274_fd
  let rc : Int := if fd > 0 then e.ioctl_rc else e.rc_uninit
  let rcv_cnt : Int := if fd > 0 then e.rcv_cnt else 0
  if rc < 0 then (-1, set_d3274_fd j 0 s)
  else if rcv_cnt > 0 then
    match e.read_res with
    | none =>
      let s1 : State := { s with BLU_rsp_len := upd s.BLU_rsp_len j (-1) }
      (s1.BLU_rsp_len j, s1)
    | some data =>
      let d := data.take BUFLEN_LINE
      let s1 : State :=
        { s with
          BLU_rsp_buf := writeBytes s.BLU_rsp_buf (idx j Fptr) d
          BLU_rsp_len := upd s.BLU_rsp_len j (d.length : Int) }
      (s1.BLU_rsp_len j, s1)
  else (0, s)

/-- The loop `for (int i = 0; i < event_count; i++)` around `accept`; the
first argument counts the passes that remain. -/
def accept_loop (e : Sys) (j : Nat) : Nat → Nat → State → State
  | 0, _, s => s
  | n + 1, i, s =>
    let s1 := set_d3274_fd j (e.accept_fd i) s
    let s2 := if (s1.sdlcline j).d3274_fd < 1 then s1 else set_line_stat j CONN s1
    accept_loop e j n (i + 1) s2

/-- One pass of the body of `for (j = 0; j < MAX_LINES; j++)` in
`SDLC_thread`: the state afterwards and the `send` call made, if any. -/
def SDLC_line (e : Sys) (j : Nat) (s : State) : State × Option SendCall :=
  if (s.sdlcline j).line_stat = CONN ∧ s.BLU_req_stat j = FILLED then
    match SendSDLC e j s with
    | (rc, s1, call) =>
      if rc < 0 then (set_line_stat j DISC s1, call)
      else if rc = 0 then
        let s2 : State := { s1 with BLU_req_len := upd s1.BLU_req_len j 0 }
        let s3 : State := { s2 with BLU_req_stat := upd s2.BLU_req_stat j EMPTY }
        (set_line_stat j CONN s3, call)
      else (s1, call)
  else if (s.sdlcline j).line_stat = CONN ∧ s.BLU_rsp_stat j = EMPTY then
    match ReadSDLC e j s with
    | (rc, s1) =>
      if rc < 0 then (set_line_stat j DISC s1, none)
      else if rc = 0 then ({ s1 with BLU_rsp_stat := upd s1.BLU_rsp_stat j EMPTY }, none)
      else
        let s2 : State := { s1 with BLU_rsp_len := upd s1.BLU_rsp_len j rc }
        let s3 : State := { s2 with BLU_rsp_stat := upd s2.BLU_rsp_stat j FILLED }
        (set_line_stat j CONN s3, none)
  else if (s.sdlcline j).line_stat = DISC then
    (accept_loop e j e.event_count.toNat 0 s, none)
  else (s, none)

/-! ## The other actors: NCP and CCU -/

/-- Modelled from the spec: `Put_ICW`, through which the NCP writes the ICW, is
declared but missing from the sources; "on NCP writes, the inverse
decomposition populates `pcf_next`".  The NCP writes the PCF value `v`. -/
def ncp_pcf (line : Nat) (v : Nat) (s : State) : State :=
  { s with icw_pcf_nxt := upd s.icw_pcf_nxt line v }

/-- Modelled from the spec: `Put_ICW` is missing from the sources.  The NCP
selects the line code definer `v`. -/
def ncp_lcd (line : Nat) (v : Nat) (s : State) : State :=
  { s with icw_lcd := upd s.icw_lcd line v }

/-- Modelled from the spec: `Put_ICW` is missing from the sources; "on TX: NCP
writes FILLED".  The NCP supplies the outbound byte `b`. -/
def ncp_pdf (line : Nat) (b : Nat) (s : State) : State :=
  { s with
    icw_pdf := upd s.icw_pdf line b
    icw_pdf_reg := upd s.icw_pdf_reg line FILLED }

/-- Modelled from the spec: the NCP side is missing from the sources; "on RX:
scanner writes FILLED, NCP drains to EMPTY".  The NCP has read the byte. -/
def ncp_read (line : Nat) (s : State) : State :=
  { s with icw_pdf_reg := upd s.icw_pdf_reg line EMPTY }

/-- Modelled from the spec: the CCU is missing from the sources; "the CCU
clears `svc_req_L2` when L2 processing finishes".  The CCU has finished its
L2 processing and runs at level `lv`. -/
def ccu_done (lv : Int) (s : State) : State :=
  { s with svc_req_L2 := OFF, lvl := lv }

/-- The scan of `line` started in `s` returns: it requests no L2 interrupt,
or the CCU ends its wait. -/
def scanEnds (ccu : Nat → Bool) (fuel : Nat) (line : Nat) (s : State) : Prop :=
  L2_requested line s = false ∨ ccuClears ccu fuel s

/-- The NCP supplies the bytes of `feed` to the line, one before each scan:
for an entry `(b, lv)` the CCU has finished its L2 processing and runs at
level `lv`, the NCP sets `pdf = b` and `pdf_reg = FILLED`, and the line is
scanned once. -/
def txFeed (ccu : Nat → Bool) (fuel : Nat) (line : Nat) : List (Nat × Int) → State → Option State
  | [], s => some s
  | (b, lv) :: rest, s =>
    match scanLine ccu fuel line (ncp_pdf line b (ccu_done lv s)) with
    | none => none
    | some s1 => txFeed ccu fuel line rest s1

/-- Scans of one line, each preceded by an action of the other actors (NCP,
CCU): the list of the states after each scan. -/
def runScans (ccu : Nat → Bool) (fuel : Nat) (line : Nat) :
    List (State → State) → State → Option (List State)
  | [], _ => some []
  | act :: rest, s =>
    match scanLine ccu fuel line (act s) with
    | none => none
    | some s1 =>
      match runScans ccu fuel line rest s1 with
      | none => none
      | some l => some (s1 :: l)

/-- Scenario S1, the actions before each of the nine scans of line 0: the NCP
selects SDLC and writes PCF 1; the scanner goes to PCF 0 by itself; the NCP
writes PCF 8; the scanner goes to PCF 9 by itself and the NCP supplies the
bytes `7E C1 93 00 00`, one before each scan; the NCP writes PCF `0xC`.  From
the second scan on the CCU has finished its L2 processing and runs at level
`lv`. -/
def actsS1 (lv : Int) : List (State → State) :=
  [fun s => ncp_pcf 0 0x1 (ncp_lcd 0 0x9 s),
   fun s => ccu_done lv s,
   fun s => ncp_pcf 0 0x8 (ccu_done lv s),
   fun s => ncp_pdf 0 0x7E (ccu_done lv s),
   fun s => ncp_pdf 0 0xC1 (ccu_done lv s),
   fun s => ncp_pdf 0 0x93 (ccu_done lv s),
   fun s => ncp_pdf 0 0x00 (ccu_done lv s),
   fun s => ncp_pdf 0 0x00 (ccu_done lv s),
   fun s => ncp_pcf 0 0xC (ccu_done lv s)]

/-- The transmit side of a line as the scenarios follow it: SDLC selected, the
PCF settled on `pcf`, the handler that ran last `prev`, the request pointer,
the L2 flag, and no L2 request left over. -/
def TxAt (line : Nat) (s : State) (pcf prev : Nat) (ptr : Int) (svc : Bool) : Prop :=
  s.icw_lcd line = 0x9 ∧ s.icw_pcf line = pcf ∧ s.icw_pcf_nxt line = pcf ∧
  s.icw_pcf_prev line = prev ∧ s.BLU_req_ptr line = ptr ∧ s.svc_req_L2 = svc ∧
  s.CS2_req_L2_int = OFF

/-- What a scan of the transmit side leaves alone: the connection records and
the request buffer outside the cell `cell`. -/
def TxFrame (s s' : State) (cell : Option (Int × Nat)) : Prop :=
  s'.sdlcline = s.sdlcline ∧
  s'.BLU_req_buf =
    match cell with
    | none => s.BLU_req_buf
    | some (k, b) => upd s.BLU_req_buf k b

/-- Scenario S2, the actions before each of the seven scans of the line: the
CCU has finished its L2 processing and runs at level `lv`, and the NCP has
read the byte delivered (`pdf_reg` back to EMPTY). -/
def actsS2 (line : Nat) (lv : Int) : List (State → State) :=
  List.replicate 7 (fun s => ncp_read line (ccu_done lv s))

/-- The bytes delivered to the NCP along a run in which the NCP reads every
byte before the next scan: the scans that leave `pdf_reg = FILLED`, each with
the PCF whose handler ran (`pcf_prev` after the scan) and the byte in `pdf`. -/
def delivered (line : Nat) (tr : List State) : List (Nat × Nat) :=
  (tr.filter (fun r => decide (r.icw_pdf_reg line = FILLED))).map
    (fun r => (r.icw_pcf_prev line, r.icw_pdf line))

/-- The receive side of a line as scenario S2 follows it: `lcd = 0x9`, the PCF
settled on `pcf`, the handler that ran last `prev`, the response pointer, the
line receiving with a FILLED response buffer, no L2 request left over. -/
def RxAt (line : Nat) (s : State) (pcf prev : Nat) (ptr : Int) : Prop :=
  s.icw_lcd line = 0x9 ∧ s.icw_pcf line = pcf ∧ s.icw_pcf_nxt line = pcf ∧
  s.icw_pcf_prev line = prev ∧ s.BLU_rsp_ptr line = ptr ∧ s.icw_lne_stat line = RX ∧
  s.BLU_rsp_stat line = FILLED ∧ s.CS2_req_L2_int = OFF

/-- The states `s` and `t` agree on line `j`: on its ICW fields, on the
scanner's additional fields for it, and on its two BLU buffers (the cells
`0 ≤ k < BUFFER_SIZE` of its rows) with their pointers, lengths and state
flags. -/
def sameLine (j : Nat) (s t : State) : Prop :=
  s.icw_scf j = t.icw_scf j ∧ s.icw_pdf j = t.icw_pdf j ∧ s.icw_lcd j = t.icw_lcd j ∧
  s.icw_pcf j = t.icw_pcf j ∧ s.icw_sdf j = t.icw_sdf j ∧ s.icw_Rflags j = t.icw_Rflags j ∧
  s.icw_pcf_prev j = t.icw_pcf_prev j ∧ s.icw_pcf_nxt j = t.icw_pcf_nxt j ∧
  s.icw_lne_stat j = t.icw_lne_stat j ∧ s.icw_pdf_reg j = t.icw_pdf_reg j ∧
  s.BLU_req_ptr j = t.BLU_req_ptr j ∧ s.BLU_req_len j = t.BLU_req_len j ∧
  s.BLU_req_stat j = t.BLU_req_stat j ∧
  s.BLU_rsp_ptr j = t.BLU_rsp_ptr j ∧ s.BLU_rsp_len j = t.BLU_rsp_len j ∧
  s.BLU_rsp_stat j = t.BLU_rsp_stat j ∧
  (∀ k : Int, 0 ≤ k → k < (BUFFER_SIZE : Int) →
    s.BLU_req_buf (idx j k) = t.BLU_req_buf (idx j k)) ∧
  (∀ k : Int, 0 ≤ k → k < (BUFFER_SIZE : Int) →
    s.BLU_rsp_buf (idx j k) = t.BLU_rsp_buf (idx j k))

/-- The buffer cells that a scan of line `i` started in `s` may address lie in
the rows of line `i`: the request pointer is inside the buffer when PCF 9 is
handled, the response pointer is inside when PCF 6 is handled, and inside with
two cells before it when PCF 7 is handled.  (The PCF handled is `pcf_nxt`.) -/
def rowsOnly (i : Nat) (s : State) : Prop :=
  (s.icw_pcf_nxt i = 0x9 → 0 ≤ s.BLU_req_ptr i ∧ s.BLU_req_ptr i < (BUFFER_SIZE : Int)) ∧
  (s.icw_pcf_nxt i = 0x6 → 0 ≤ s.BLU_rsp_ptr i ∧ s.BLU_rsp_ptr i < (BUFFER_SIZE : Int)) ∧
  (s.icw_pcf_nxt i = 0x7 → 2 ≤ s.BLU_rsp_ptr i ∧ s.BLU_rsp_ptr i < (BUFFER_SIZE : Int))

/-- The states `s` and `t` agree on line `i` and on what a scan reads besides
the line: `svc_req_L2`, `lvl` and the scanner's request flag. -/
def scanEq (i : Nat) (s t : State) : Prop :=
  sameLine i s t ∧ s.svc_req_L2 = t.svc_req_L2 ∧ s.lvl = t.lvl ∧
  s.CS2_req_L2_int = t.CS2_req_L2_int

/-! ## SDLC frame header: `i327x_sdlc.h` -/

/-- `#define BFlag 0`. -/
def BFlag : Nat := 0

/-- `#define FAddr 1`. -/
def FAddr : Nat := 1

/-- `#define FCntl 2`. -/
def FCntl : Nat := 2

/-- `#define Nr ((BLU_req_buf[FCntl] >> 5) & 0x7)`. -/
def Nr (BLU_req_buf : Nat → Nat) : Nat := (BLU_req_buf FCntl >>> 5) &&& 0x7

/-- `#define Ns ((BLU_req_buf[FCntl] >> 1) & 0x7)`. -/
def Ns (BLU_req_buf : Nat → Nat) : Nat := (BLU_req_buf FCntl >>> 1) &&& 0x7

/-- `#define PF ((BLU_req_buf[FCntl] >> 4) & 0x1)`. -/
def PF (BLU_req_buf : Nat → Nat) : Nat := (BLU_req_buf FCntl >>> 4) &&& 0x1

/-- `#define Ft (BLU_req_buf[FCntl] & 0x01)`. -/
def Ft (BLU_req_buf : Nat → Nat) : Nat := BLU_req_buf FCntl &&& 0x01

/-- Scans of one line whose waits for the CCU end, each preceded by an action
of the other actors (NCP, CCU): the list of the pairs (state before the scan,
state after the scan). -/
def runTrace (line : Nat) : List (State → State) → State → List (State × State)
  | [], _ => []
  | act :: rest, s =>
    (act s, scanned line (act s)) :: runTrace line rest (scanned line (act s))

/-- The receive side of a line between the detection of the opening flag and
the next NCP write: the PCF to handle is 6 with the response pointer still 0
and the flag in `rsp[0]`, or 6 with the response pointer at least 1, or 7 with
the response pointer at least 2. -/
def rxInv (line : Nat) (s : State) : Prop :=
  (s.icw_pcf_nxt line = 0x6 ∧
    ((s.BLU_rsp_ptr line = 0 ∧ s.BLU_rsp_buf (idx line 0) = 0x7E) ∨ 1 ≤ s.BLU_rsp_ptr line)) ∨
  (s.icw_pcf_nxt line = 0x7 ∧ 2 ≤ s.BLU_rsp_ptr line)

/-- An action of the other actors that writes no PCF of the line and leaves
its response pointer and the response memory alone. -/
def rxEnv (line : Nat) (a : State → State) : Prop :=
  ∀ x : State, (a x).icw_pcf_nxt line = x.icw_pcf_nxt line ∧
    (a x).BLU_rsp_ptr line = x.BLU_rsp_ptr line ∧ (a x).BLU_rsp_buf = x.BLU_rsp_buf

/-- The scan of the line started in `s` appends a byte to the request buffer:
the PCF to handle is 9, `lcd = 0x9`, `pdf_reg = FILLED`, no L2 is pending and
the CCU level is not 2. -/
def stores9 (line : Nat) (s : State) : Prop :=
  s.icw_pcf_nxt line = 0x9 ∧ s.icw_lcd line = 0x9 ∧ s.icw_pdf_reg line = FILLED ∧
  s.svc_req_L2 = OFF ∧ s.lvl ≠ 2

/-! ## Concrete states -/

/-- A memory image before `Init_ICW` has run: flags off, all cells zero, the
lines of the SDLC handler connected to descriptor 5. -/
def mem0 : State where
  svc_req_L2 := OFF
  lvl := 0
  Eflg_rvcd := OFF
  abar_int := 0
  icw_scf := fun _ => 0
  icw_pdf := fun _ => 0
  icw_lcd := fun _ => 0
  icw_pcf := fun _ => 0
  icw_sdf := fun _ => 0
  icw_Rflags := fun _ => 0
  icw_pcf_prev := fun _ => 0
  icw_lne_stat := fun _ => RX
  icw_pcf_nxt := fun _ => 0
  icw_pdf_reg := fun _ => EMPTY
  CS2_req_L2_int := OFF
  BLU_req_buf := fun _ => 0
  BLU_req_ptr := fun _ => 0
  BLU_req_len := fun _ => 0
  BLU_req_stat := fun _ => EMPTY
  BLU_rsp_buf := fun _ => 0
  BLU_rsp_ptr := fun _ => 0
  BLU_rsp_len := fun _ => 0
  BLU_rsp_stat := fun _ => EMPTY
  PIU_rsp_ptr := fun _ => 0
  PIU_rsp_len := fun _ => 0
  sdlcline := fun j => ⟨3, (j : Int), CONN, 5, 4⟩
  Eregs_Inp := fun _ => 0

/-- The state after `Init_ICW(MAX_LINE)`. -/
def init0 : State := Init_ICW MAX_LINE mem0

/-- A CCU that finishes its L2 processing during every sleep of the scanner. -/
def ccuPrompt : Nat → Bool := fun _ => true

/-- A CCU that never finishes its L2 processing. -/
def ccuStuck : Nat → Bool := fun _ => false

/-- Line 0 after initialisation, the NCP having selected SDLC and written PCF `0xC`. -/
def exC : State := ncp_pcf 0 0xC (ncp_lcd 0 0x9 init0)

/-- Line 1 in PCF 7 with the end of a frame `47 0F 7E` at response pointer 5. -/
def ex7 : State :=
  { init0 with
    icw_pcf := upd init0.icw_pcf 1 0x7
    icw_pcf_nxt := upd init0.icw_pcf_nxt 1 0x7
    icw_pcf_prev := upd init0.icw_pcf_prev 1 0x7
    icw_lcd := upd init0.icw_lcd 1 0x9
    icw_lne_stat := upd init0.icw_lne_stat 1 RX
    BLU_rsp_stat := upd init0.BLU_rsp_stat 1 FILLED
    BLU_rsp_ptr := upd init0.BLU_rsp_ptr 1 5
    BLU_rsp_len := upd init0.BLU_rsp_len 1 6
    BLU_rsp_buf := writeBytes init0.BLU_rsp_buf (idx 1 0) [0x7E, 0xC1, 0x73, 0x47, 0x0F, 0x7E] }

/-- A state reached from `exC`: the scan of PCF `0xC` turns line 0 to RX and
PCF 5; the NCP then writes PCF `0xF`, whose scan brings the line to PCF 0
with the line state still RX; the CCU finishes its L2 processing and the NCP
writes PCF 0 again. -/
def exPcf0 : State :=
  ncp_pcf 0 0x0 (ccu_done 0 (scanned 0 (ncp_pcf 0 0xF (ccu_done 0 (scanned 0 exC)))))

/-- A CCU that finishes its L2 processing during the third sleep of the scanner. -/
def ccuLate : Nat → Bool := fun k => k == 2

/-- As `exC`, with an L2 interrupt of an earlier scan still pending. -/
def exCpending : State := { exC with svc_req_L2 := ON }

/-- Line 0 after initialisation, SDLC selected, in PCF 9 with an empty request buffer. -/
def ex9 : State := ncp_pcf 0 0x9 (ncp_lcd 0 0x9 init0)

/-- An operating system whose calls all succeed and that has nothing to deliver. -/
def sysOk : Sys where
  send_rc := 0
  rc_uninit := 0
  ioctl_rc := 0
  rcv_cnt := 0
  read_res := none
  event_count := 0
  accept_fd := fun _ => 0

/-- Line 1 in PCF 5, receiving, with the frame `7E C1 73 47 0F 7E` in its
response buffer. -/
def exRx : State :=
  { init0 with
    icw_pcf := upd init0.icw_pcf 1 0x5
    icw_pcf_nxt := upd init0.icw_pcf_nxt 1 0x5
    icw_pcf_prev := upd init0.icw_pcf_prev 1 0x5
    icw_lcd := upd init0.icw_lcd 1 0x9
    icw_lne_stat := upd init0.icw_lne_stat 1 RX
    BLU_rsp_stat := upd init0.BLU_rsp_stat 1 FILLED
    BLU_rsp_len := upd init0.BLU_rsp_len 1 6
    BLU_rsp_buf := writeBytes init0.BLU_rsp_buf (idx 1 0) [0x7E, 0xC1, 0x73, 0x47, 0x0F, 0x7E] }

/-- Line 2 with `scf = 0x48`, `pdf = 0xC1`, `lcd = 0x9`, `pcf = 0x7`, `sdf = 0x5A`. -/
def exIcw : State :=
  { init0 with
    icw_scf := upd init0.icw_scf 2 0x48
    icw_pdf := upd init0.icw_pdf 2 0xC1
    icw_lcd := upd init0.icw_lcd 2 0x9
    icw_pcf := upd init0.icw_pcf 2 0x7
    icw_sdf := upd init0.icw_sdf 2 0x5A
    icw_Rflags := upd init0.icw_Rflags 2 0x1234 }

/-- Line 0 connected, with a FILLED request buffer `7E C1 93` and a FILLED
response buffer. -/
def exFlush : State :=
  { init0 with
    BLU_req_stat := upd init0.BLU_req_stat 0 FILLED
    BLU_req_len := upd init0.BLU_req_len 0 3
    BLU_req_buf := writeBytes init0.BLU_req_buf (idx 0 0) [0x7E, 0xC1, 0x93]
    BLU_rsp_stat := upd init0.BLU_rsp_stat 0 FILLED
    BLU_rsp_len := upd init0.BLU_rsp_len 0 2 }

/-- Line 0 connected, both buffers EMPTY. -/
def exDrain : State := init0

/-- An operating system with the six bytes `7E C1 73 47 0F 7E` pending on the peer. -/
def sysData : Sys where
  send_rc := 0
  rc_uninit := 0
  ioctl_rc := 0
  rcv_cnt := 6
  read_res := some [0x7E, 0xC1, 0x73, 0x47, 0x0F, 0x7E]
  event_count := 0
  accept_fd := fun _ => 0

/-- A state reached from `init0` in which line 0 is in PCF 6 while `pdf_reg`
is FILLED: the NCP selects SDLC, writes PCF 9 and supplies `7E`, which the scan
of PCF 9 appends; the NCP then supplies the byte `0x11` and writes PCF `0xC`
at once; the scan of PCF `0xC` turns the line to RX and PCF 5 and does not take
the byte; the line handler sends the request and, on its next pass, reads
`7E C1 73 47 0F 7E`; the scan of PCF 5 finds the flag and goes to PCF 6; the
CCU finishes its L2 processing. -/
def ex6F : State :=
  ccu_done 0
    (scanned 0
      (SDLC_line sysData 0
        (SDLC_line sysData 0
          (ccu_done 0
            (scanned 0
              (ncp_pcf 0 0xC
                (ncp_pdf 0 0x11
                  (ccu_done 0
                    (scanned 0
                      (ncp_pdf 0 0x7E (ncp_pcf 0 0x9 (ncp_lcd 0 0x9 init0)))))))))).1).1)

/-- A state reached from `init0` in which line 1 is in PCF 6 with a line code
definer that is not SDLC: the line handler reads `7E C1 73 47 0F 7E` on line
1; the NCP selects `lcd = 0x2` and writes PCF 6; the scan of PCF 6 skips the
flag `7E` and stays in PCF 6. -/
def exLcd : State :=
  scanned 1 (ncp_pcf 1 0x6 (ncp_lcd 1 0x2 (SDLC_line sysData 1 init0).1))

/-- Line 0 with the request buffer FILLED by the scan of PCF `0xC`, not yet
sent by the line handler; the NCP writes PCF 0. -/
def exReqF0 : State := ncp_pcf 0 0x0 (ccu_done 0 (scanned 0 exC))

/-- Line 0 with the request buffer FILLED by the scan of PCF `0xC`, not yet
sent by the line handler; the NCP writes PCF 9 and supplies the byte `0x55`. -/
def exReqF9 : State := ncp_pdf 0 0x55 (ncp_pcf 0 0x9 (ccu_done 0 (scanned 0 exC)))

/-- Line 0 after initialisation (line state RESET), SDLC selected, PCF 9
written, the NCP supplying the byte `7E`. -/
def exReset9 : State := ncp_pdf 0 0x7E ex9

/-- Line 1 in PCF 5 with the line state TX (the line has been turned around
at the end of a received frame) and the frame `7E C1 73 47 0F 7E` in its
FILLED response buffer. -/
def exWait5 : State := { exRx with icw_lne_stat := upd exRx.icw_lne_stat 1 TX }

/-- Line 1 in PCF 6 after the scan of PCF 5 has found the flag of the frame
`7E C1 73 47 0F 7E` and the CCU has finished its L2 processing. -/
def ex6 : State := ccu_done 0 (scanned 1 exRx)

/-- Line 1 in PCF 7 at the second data byte of the frame `7E C1 73 47 0F 7E`
(response pointer 2), the NCP having read the first one. -/
def ex7d : State := { ex7 with BLU_rsp_ptr := upd ex7.BLU_rsp_ptr 1 2 }

/-- As `ex7d`, the NCP not having read the first data byte yet. -/
def ex7f : State :=
  { ex7d with
    icw_pdf := upd ex7d.icw_pdf 1 0xC1
    icw_pdf_reg := upd ex7d.icw_pdf_reg 1 FILLED }

/-- Line 0 after initialisation, the NCP having selected `lcd = 0x9` and
written PCF 8. -/
def ex8 : State := ncp_pcf 0 0x8 (ncp_lcd 0 0x9 init0)

/-- Line 0 after initialisation, the NCP having selected `lcd = 0x8` and
written PCF 8. -/
def ex8lcd8 : State := ncp_pcf 0 0x8 (ncp_lcd 0 0x8 init0)

/-- Line 0 in PCF 9 right after the scan that stored the byte `7E`: the L2
interrupt of that scan is still pending (`svc_req_L2 = ON`), and the NCP has
supplied the next byte `C1`. -/
def ex9gate : State := ncp_pdf 0 0xC1 (scanned 0 exReset9)

/-- Line 0 in PCF 9 after the scan that stored the byte `7E` (request pointer
1, `pdf_reg = EMPTY`), the CCU having finished its L2 processing. -/
def ex9e : State := ccu_done 0 (scanned 0 exReset9)

/-- As `ex9e`, the NCP having supplied the next byte `C1`. -/
def ex9b : State := ncp_pdf 0 0xC1 ex9e

/-- Line 0 after initialisation, the NCP having selected SDLC and written PCF 1. -/
def ex1 : State := ncp_pcf 0 0x1 (ncp_lcd 0 0x9 init0)

/-- Line 0 after the scan of PCF `0xC`, whose L2 interrupt is still pending
(`svc_req_L2 = ON`), the NCP having written PCF `0xF`. -/
def exFpending : State := ncp_pcf 0 0xF (scanned 0 exC)

/-- Line 2 in PCF `0xD` (`pcf = pcf_nxt = pcf_prev = 0xD`), after initialisation. -/
def exD : State :=
  { init0 with
    icw_pcf := upd init0.icw_pcf 2 0xD
    icw_pcf_nxt := upd init0.icw_pcf_nxt 2 0xD
    icw_pcf_prev := upd init0.icw_pcf_prev 2 0xD
    icw_lcd := upd init0.icw_lcd 2 0x9 }

/-- A frame whose control byte is `0x93` (SNRM with the poll bit). -/
def exFrame : Nat → Nat := fun k => ([0x7E, 0xC1, 0x93, 0x47, 0x0F, 0x7E] : List Nat).getD k 0

/-- Line 0 with an empty frame handed to the line handler: after
initialisation the NCP selects SDLC and writes PCF `0xC` without having
supplied a byte; the scan of PCF `0xC` sets `BLU_req_len = 0` and
`BLU_req_stat = FILLED`; the CCU finishes its L2 processing.  The first cell
of the request buffer holds `00`. -/
def exEmptyReq : State := ccu_done 0 (scanned 0 exC)

/-- Line 1 right after the scan of PCF 5 that found the opening flag of the
frame `7E C1 73 47 0F 7E`: `pcf = pcf_nxt = 6`, response pointer 0, and the L2
interrupt raised by that scan still pending (`svc_req_L2 = ON`). -/
def exFlag : State := scanned 1 exRx

/-- Actions before four scans of line 1 on the receive side, none of them an
NCP write of the PCF: nothing happens; the CCU finishes its L2 processing
(twice); the CCU finishes its L2 processing and the NCP reads the byte
delivered. -/
def actsRx : List (State → State) :=
  [fun s => s,
   fun s => ccu_done 0 s,
   fun s => ccu_done 0 s,
   fun s => ncp_read 1 (ccu_done 0 s)]

/-- A state reached from `Init_ICW` in which an outbound frame of line 0 has
been abandoned: the NCP selects SDLC and writes PCF 8; the scan goes to PCF 9;
the NCP supplies `7E`, which the scan of PCF 9 stores at `req[0]`; the NCP
writes PCF 0 and the line is scanned; the NCP writes PCF 8 again. -/
def exAbort : State :=
  ncp_pcf 0 0x8
    (scanned 0
      (ncp_pcf 0 0x0
        (ccu_done 0
          (scanned 0 (ncp_pdf 0 0x7E (scanned 0 ex8))))))

/-- The frame that follows the abandoned one in `exAbort`: the scan moves line
0 from PCF 8 to PCF 9; the NCP feeds the two bytes `7E C1`, one before each
scan, the CCU finishing its L2 processing in between; the NCP writes PCF `0xC`
and the scan hands the request buffer to the line handler. -/
def exAbortFrame : State :=
  scanned 0
    (ncp_pcf 0 0xC
      (ccu_done 0
        (scanned 0
          (ncp_pdf 0 0xC1
            (ccu_done 0
              (scanned 0 (ncp_pdf 0 0x7E (scanned 0 exAbort))))))))

/-! ## Auxiliary facts -/

@[simp] theorem upd_same {ι α : Type} [DecidableEq ι] (f : ι → α) (i : ι) (v : α) :
    upd f i v i = v := by
  simp [upd]

@[simp] theorem upd_ne {ι α : Type} [DecidableEq ι] (f : ι → α) {i j : ι} (v : α)
    (h : j ≠ i) : upd f i v j = f j := by
  simp [upd, h]

@[simp] theorem upd_upd {ι α : Type} [DecidableEq ι] (f : ι → α) (i : ι) (v w : α) :
    upd (upd f i v) i w = upd f i w := by
  funext j
  by_cases h : j = i <;> simp [upd, h]

@[simp] theorem upd_self {ι α : Type} [DecidableEq ι] (f : ι → α) (i : ι) :
    upd f i (f i) = f := by
  funext j
  by_cases h : j = i <;> simp [upd, h]

theorem or_and_self_mask (x m : Nat) : (x ||| m) &&& m = m := by
  apply Nat.eq_of_testBit_eq
  intro i
  simp only [Nat.testBit_and, Nat.testBit_or]
  cases x.testBit i <;> cases m.testBit i <;> rfl

theorem or_or_and_mask (x m n : Nat) : ((x ||| m) ||| n) &&& m = m := by
  apply Nat.eq_of_testBit_eq
  intro i
  simp only [Nat.testBit_and, Nat.testBit_or]
  cases x.testBit i <;> cases m.testBit i <;> cases n.testBit i <;> rfl

theorem waitL2_off (ccu : Nat → Bool) (fuel k : Nat) : waitL2 ccu fuel k OFF = some OFF := by
  cases fuel <;> simp [waitL2]

theorem waitL2_exit (ccu : Nat → Bool) (fuel : Nat) :
    ∀ (k : Nat) (svc v : Bool), waitL2 ccu fuel k svc = some v → v = OFF := by
  induction fuel with
  | zero =>
    intro k svc v h
    cases svc <;> simp [waitL2] at h
    exact h
  | succ n ih =>
    intro k svc v h
    cases svc
    · simp [waitL2] at h
      exact h
    · simp only [waitL2, if_true] at h
      exact ih _ _ _ h

theorem waitL2_clears (ccu : Nat → Bool) (fuel : Nat) :
    ∀ (k : Nat) (svc : Bool), (∃ n, n < fuel ∧ ccu (k + n) = true) →
      waitL2 ccu fuel k svc = some OFF := by
  induction fuel with
  | zero =>
    intro k svc h
    obtain ⟨n, hn, _⟩ := h
    omega
  | succ m ih =>
    intro k svc h
    cases svc
    · exact waitL2_off ccu _ k
    · simp only [waitL2, if_true]
      obtain ⟨n, hn, hc⟩ := h
      cases n with
      | zero =>
        simp only [Nat.add_zero] at hc
        simp only [hc, if_true]
        exact waitL2_off ccu m (k + 1)
      | succ n =>
        apply ih
        refine ⟨n, by omega, ?_⟩
        have : k + 1 + n = k + (n + 1) := by omega
        rw [this]
        exact hc

theorem phaseA_svc (line : Nat) (s : State) : (phaseA line s).svc_req_L2 = s.svc_req_L2 := by
  unfold phaseA
  simp only
  split_ifs <;> rfl

theorem phaseA_lvl (line : Nat) (s : State) : (phaseA line s).lvl = s.lvl := by
  unfold phaseA
  simp only
  split_ifs <;> rfl

theorem case_1_svc (line : Nat) (s : State) : (case_1 line s).svc_req_L2 = s.svc_req_L2 := by
  unfold case_1
  split_ifs <;> rfl

theorem case_4_svc (line : Nat) (s : State) : (case_4 line s).svc_req_L2 = s.svc_req_L2 := by
  unfold case_4
  simp only
  split_ifs <;> rfl

theorem case_6_svc (line : Nat) (s : State) : (case_6 line s).svc_req_L2 = s.svc_req_L2 := by
  unfold case_6
  simp only
  split_ifs <;> rfl

theorem case_7_svc (line : Nat) (s : State) : (case_7 line s).svc_req_L2 = s.svc_req_L2 := by
  unfold case_7
  simp only
  split_ifs <;> rfl

theorem case_8_svc (line : Nat) (s : State) : (case_8 line s).svc_req_L2 = s.svc_req_L2 := by
  unfold case_8
  split_ifs <;> rfl

theorem case_9_svc (line : Nat) (s : State) : (case_9 line s).svc_req_L2 = s.svc_req_L2 := by
  unfold case_9
  simp only
  split_ifs <;> rfl

theorem case_C_svc (line : Nat) (s : State) : (case_C line s).svc_req_L2 = s.svc_req_L2 := by
  unfold case_C
  simp only
  split_ifs <;> rfl

/-- Every result of the switch is the result of one of its cases. -/
theorem phaseB_cases (P : State → Prop) (line : Nat) (s : State)
    (h0 : P (case_0 line s)) (h1 : P (case_1 line s)) (h4 : P (case_4 line s))
    (h6 : P (case_6 line s)) (h7 : P (case_7 line s)) (h8 : P (case_8 line s))
    (h9 : P (case_9 line s)) (hC : P (case_C line s)) (hF : P (case_F line s))
    (hs : P s) : P (phaseB line s) := by
  unfold phaseB
  by_cases c0 : s.icw_pcf line = 0x0
  · rw [if_pos c0]; exact h0
  rw [if_neg c0]
  by_cases c1 : s.icw_pcf line = 0x1
  · rw [if_pos c1]; exact h1
  rw [if_neg c1]
  by_cases c2 : s.icw_pcf line = 0x2
  · rw [if_pos c2]; exact h1
  rw [if_neg c2]
  by_cases c3 : s.icw_pcf line = 0x3
  · rw [if_pos c3]; exact h1
  rw [if_neg c3]
  by_cases c4 : s.icw_pcf line = 0x4
  · rw [if_pos c4]; exact h4
  rw [if_neg c4]
  by_cases c5 : s.icw_pcf line = 0x5
  · rw [if_pos c5]; exact h4
  rw [if_neg c5]
  by_cases c6 : s.icw_pcf line = 0x6
  · rw [if_pos c6]; exact h6
  rw [if_neg c6]
  by_cases c7 : s.icw_pcf line = 0x7
  · rw [if_pos c7]; exact h7
  rw [if_neg c7]
  by_cases c8 : s.icw_pcf line = 0x8
  · rw [if_pos c8]; exact h8
  rw [if_neg c8]
  by_cases c9 : s.icw_pcf line = 0x9
  · rw [if_pos c9]; exact h9
  rw [if_neg c9]
  by_cases cA : s.icw_pcf line = 0xA
  · rw [if_pos cA]; unfold case_A; rw [ite_self]; exact hs
  rw [if_neg cA]
  by_cases cB : s.icw_pcf line = 0xB
  · rw [if_pos cB]; exact hs
  rw [if_neg cB]
  by_cases cC : s.icw_pcf line = 0xC
  · rw [if_pos cC]; exact hC
  rw [if_neg cC]
  by_cases cD : s.icw_pcf line = 0xD
  · rw [if_pos cD]; exact hs
  rw [if_neg cD]
  by_cases cE : s.icw_pcf line = 0xE
  · rw [if_pos cE]; exact hs
  rw [if_neg cE]
  by_cases cF : s.icw_pcf line = 0xF
  · rw [if_pos cF]; exact hF
  rw [if_neg cF]
  exact hs

theorem phaseB_svc (line : Nat) (s : State) : (phaseB line s).svc_req_L2 = s.svc_req_L2 := by
  apply phaseB_cases (fun x => x.svc_req_L2 = s.svc_req_L2)
  · rfl
  · exact case_1_svc line s
  · exact case_4_svc line s
  · exact case_6_svc line s
  · exact case_7_svc line s
  · exact case_8_svc line s
  · exact case_9_svc line s
  · exact case_C_svc line s
  · rfl
  · rfl

theorem raiseL2_svc (line : Nat) (s : State) (v : Bool) :
    raiseL2 line { s with svc_req_L2 := v } = raiseL2 line s := rfl

/-- A scan whose wait for the CCU ends returns the state `scanned`. -/
theorem scanLine_of_clears (ccu : Nat → Bool) (fuel line : Nat) (s : State)
    (h : ccuClears ccu fuel s) : scanLine ccu fuel line s = some (scanned line s) := by
  have hw : waitL2 ccu fuel 0 (phaseB line (phaseA line s)).svc_req_L2 = some OFF := by
    rw [phaseB_svc, phaseA_svc]
    rcases h with h | ⟨n, hn, hc⟩
    · rw [h]
      exact waitL2_off ccu fuel 0
    · exact waitL2_clears ccu fuel 0 _ ⟨n, hn, by simpa using hc⟩
  unfold scanLine phaseC scanned
  by_cases hq : (phaseB line (phaseA line s)).CS2_req_L2_int = ON
  · simp only [hq, if_true, hw]
    rfl
  · simp only [hq, if_false]

/-- A scan that requests no L2 interrupt returns the state `scanned`, whatever
the CCU does. -/
theorem scanLine_of_quiet (ccu : Nat → Bool) (fuel line : Nat) (s : State)
    (h : L2_requested line s = false) : scanLine ccu fuel line s = some (scanned line s) := by
  unfold L2_requested at h
  unfold scanLine phaseC scanned
  simp [h]

/-- A scan that returns, returns the state `scanned`. -/
theorem scanLine_some (ccu : Nat → Bool) (fuel line : Nat) (s s' : State)
    (h : scanLine ccu fuel line s = some s') : s' = scanned line s := by
  unfold scanLine phaseC at h
  unfold scanned
  by_cases hq : (phaseB line (phaseA line s)).CS2_req_L2_int = ON
  · simp only [hq, if_true] at h ⊢
    cases hw : waitL2 ccu fuel 0 (phaseB line (phaseA line s)).svc_req_L2 with
    | none => simp [hw] at h
    | some v =>
      simp only [hw, Option.some.injEq, raiseL2_svc] at h
      exact h.symm
  · simp only [hq, if_false, Option.some.injEq] at h ⊢
    exact h.symm

theorem phaseB_pcf (line : Nat) (s : State) : (phaseB line s).icw_pcf = s.icw_pcf := by
  apply phaseB_cases (fun x => x.icw_pcf = s.icw_pcf)
  · rfl
  · unfold case_1; split_ifs <;> rfl
  · unfold case_4; simp only; split_ifs <;> rfl
  · unfold case_6; simp only; split_ifs <;> rfl
  · unfold case_7; simp only; split_ifs <;> rfl
  · unfold case_8; split_ifs <;> rfl
  · unfold case_9; simp only; split_ifs <;> rfl
  · unfold case_C; simp only; split_ifs <;> rfl
  · rfl
  · rfl

theorem phaseB_abar (line : Nat) (s : State) : (phaseB line s).abar_int = s.abar_int := by
  apply phaseB_cases (fun x => x.abar_int = s.abar_int)
  · rfl
  · unfold case_1; split_ifs <;> rfl
  · unfold case_4; simp only; split_ifs <;> rfl
  · unfold case_6; simp only; split_ifs <;> rfl
  · unfold case_7; simp only; split_ifs <;> rfl
  · unfold case_8; split_ifs <;> rfl
  · unfold case_9; simp only; split_ifs <;> rfl
  · unfold case_C; simp only; split_ifs <;> rfl
  · rfl
  · rfl

theorem phaseA_abar (line : Nat) (s : State) : (phaseA line s).abar_int = s.abar_int := by
  unfold phaseA
  simp only
  split_ifs <;> rfl

theorem phaseA_pcf (line : Nat) (s : State) :
    (phaseA line s).icw_pcf line = s.icw_pcf_nxt line := by
  unfold phaseA
  simp only
  split_ifs with h1 h2
  · simp
  · simp
  · exact not_not.mp h1

theorem phaseA_nxt (line : Nat) (s : State) : (phaseA line s).icw_pcf_nxt = s.icw_pcf_nxt := by
  unfold phaseA
  simp only
  split_ifs <;> rfl

theorem commit_pcf (line : Nat) (s : State) :
    (commit line s).icw_pcf line = s.icw_pcf_nxt line := by
  unfold commit
  by_cases h : s.icw_pcf line = s.icw_pcf_nxt line <;> simp [h]

theorem commit_nxt (line : Nat) (s : State) : (commit line s).icw_pcf_nxt = s.icw_pcf_nxt := by
  unfold commit
  simp only
  split_ifs <;> rfl

theorem commit_prev (line : Nat) (s : State) :
    (commit line s).icw_pcf_prev line = s.icw_pcf line := by
  unfold commit
  by_cases h : s.icw_pcf line = s.icw_pcf_nxt line <;> simp [h]

theorem commit_svc (line : Nat) (s : State) : (commit line s).svc_req_L2 = s.svc_req_L2 := by
  unfold commit
  simp only
  split_ifs <;> rfl

theorem commit_abar (line : Nat) (s : State) : (commit line s).abar_int = s.abar_int := by
  unfold commit
  simp only
  split_ifs <;> rfl

theorem commit_CS2 (line : Nat) (s : State) :
    (commit line s).CS2_req_L2_int = s.CS2_req_L2_int := by
  unfold commit
  simp only
  split_ifs <;> rfl

/-- A scan returns exactly when it requests no L2 interrupt or the CCU ends
its wait, and it then returns `scanned`. -/
theorem scanLine_of_ends (ccu : Nat → Bool) (fuel line : Nat) (s : State)
    (h : scanEnds ccu fuel line s) : scanLine ccu fuel line s = some (scanned line s) := by
  rcases h with h | h
  · exact scanLine_of_quiet ccu fuel line s h
  · exact scanLine_of_clears ccu fuel line s h

theorem waitL2_some_clears (ccu : Nat → Bool) (fuel : Nat) :
    ∀ (k : Nat) (svc v : Bool), waitL2 ccu fuel k svc = some v →
      svc = OFF ∨ ∃ n, n < fuel ∧ ccu (k + n) = true := by
  induction fuel with
  | zero =>
    intro k svc v h
    cases svc
    · exact Or.inl rfl
    · simp [waitL2] at h
  | succ m ih =>
    intro k svc v h
    cases svc
    · exact Or.inl rfl
    · right
      simp only [waitL2, if_true] at h
      by_cases hc : ccu k = true
      · exact ⟨0, by omega, by simpa using hc⟩
      · simp only [hc] at h
        rcases ih _ _ _ h with h' | ⟨n, hn, hcn⟩
        · simp at h'
        · refine ⟨n + 1, by omega, ?_⟩
          have : k + (n + 1) = k + 1 + n := by omega
          rw [this]
          exact hcn

theorem dcd_mask_stable (x : Nat) :
    (((x ||| 0x08) &&& 0x4A) ||| 0x08) &&& 0x4A = (x ||| 0x08) &&& 0x4A := by
  apply Nat.eq_of_testBit_eq
  intro i
  simp only [Nat.testBit_and, Nat.testBit_or]
  cases x.testBit i <;> cases (0x08 : Nat).testBit i <;> cases (0x4A : Nat).testBit i <;> rfl

/-- The scan of a line whose next PCF is 0, when no L2 request is left over. -/
theorem scanned_pcf0 (line : Nat) (s : State) (hnxt : s.icw_pcf_nxt line = 0x0)
    (hq : s.CS2_req_L2_int = OFF) :
    scanned line s =
      { s with
        icw_scf := upd s.icw_scf line ((s.icw_scf line ||| 0x08) &&& 0x4A)
        icw_lne_stat :=
          if s.icw_pcf line ≠ 0x0 then upd s.icw_lne_stat line RESET else s.icw_lne_stat
        icw_pcf_prev := upd s.icw_pcf_prev line 0x0
        icw_pcf := upd s.icw_pcf line 0x0
        BLU_req_stat := upd s.BLU_req_stat line EMPTY
        BLU_rsp_stat := upd s.BLU_rsp_stat line EMPTY } := by
  by_cases h0 : s.icw_pcf line = 0
  · have hp : upd s.icw_pcf line 0 = s.icw_pcf := by rw [← h0]; exact upd_self _ _
    simp [scanned, phaseB, phaseA, case_0, commit, hnxt, h0, hq, hp]
  · simp [scanned, phaseB, phaseA, case_0, commit, hnxt, h0, hq]

/-- One transmit scan in PCF 9 with a byte supplied by the NCP. -/
theorem scan9_feed (ccu : Nat → Bool) (fuel line b : Nat) (lv : Int) (s : State)
    (hlcd : s.icw_lcd line = 0x9) (hnxt : s.icw_pcf_nxt line = 0x9) (hlv : lv ≠ 2) :
    ∃ s', scanLine ccu fuel line (ncp_pdf line b (ccu_done lv s)) = some s' ∧
      s'.icw_lcd line = 0x9 ∧ s'.icw_pcf_nxt line = 0x9 ∧ s'.icw_pcf line = 0x9 ∧
      s'.BLU_req_ptr line = s.BLU_req_ptr line + 1 ∧
      s'.BLU_req_buf = upd s.BLU_req_buf (idx line (s.BLU_req_ptr line)) b ∧
      s'.sdlcline = s.sdlcline := by
  refine ⟨_, scanLine_of_clears ccu fuel line _ (Or.inl rfl), ?_⟩
  by_cases h9 : s.icw_pcf line = 9 <;>
    simp [scanned, phaseB, phaseA, case_9, L2_active, commit, raiseL2, ncp_pdf, ccu_done,
      hlcd, hnxt, hlv, h9]

theorem idx_add (line : Nat) (a b : Int) : idx line (a + b) = idx line a + b := by
  unfold idx
  ring

/-- The transmit loop stores the bytes supplied in consecutive cells from the
request pointer on, and leaves the cells below untouched. -/
theorem txFeed_spec (ccu : Nat → Bool) (fuel line : Nat) (feed : List (Nat × Int)) :
    ∀ s : State, s.icw_lcd line = 0x9 → s.icw_pcf_nxt line = 0x9 →
      (∀ p ∈ feed, p.2 ≠ 2) →
      ∃ s1, txFeed ccu fuel line feed s = some s1 ∧
        s1.icw_lcd line = 0x9 ∧ s1.icw_pcf_nxt line = 0x9 ∧
        (feed ≠ [] → s1.icw_pcf line = 0x9) ∧
        s1.BLU_req_ptr line = s.BLU_req_ptr line + (feed.length : Int) ∧
        (∀ t : Nat, t < feed.length →
          (feed.map Prod.fst)[t]? =
            some (s1.BLU_req_buf (idx line (s.BLU_req_ptr line + (t : Int))))) ∧
        (∀ k : Int, k < idx line (s.BLU_req_ptr line) → s1.BLU_req_buf k = s.BLU_req_buf k) ∧
        s1.sdlcline = s.sdlcline := by
  induction feed with
  | nil =>
    intro s hlcd hnxt _
    exact ⟨s, rfl, hlcd, hnxt, fun h => absurd rfl h, by simp, by simp, fun _ _ => rfl, rfl⟩
  | cons p rest ih =>
    intro s hlcd hnxt hlv
    obtain ⟨b, lv⟩ := p
    have hlv0 : lv ≠ 2 := hlv (b, lv) (List.mem_cons_self _ _)
    obtain ⟨s', hs', hlcd', hnxt', hpcf', hptr', hbuf', hsd'⟩ :=
      scan9_feed ccu fuel line b lv s hlcd hnxt hlv0
    obtain ⟨s1, hs1, hlcd1, hnxt1, hpcf1, hptr1, hbuf1, hfr1, hsd1⟩ :=
      ih s' hlcd' hnxt' (fun q hq => hlv q (List.mem_cons_of_mem _ hq))
    refine ⟨s1, ?_, hlcd1, hnxt1, ?_, ?_, ?_, ?_, ?_⟩
    · simp only [txFeed, hs']
      exact hs1
    · intro _
      by_cases hr : rest = []
      · subst hr
        simp only [txFeed, Option.some.injEq] at hs1
        rw [← hs1]
        exact hpcf'
      · exact hpcf1 hr
    · rw [hptr1, hptr']
      simp only [List.length_cons, Nat.cast_add, Nat.cast_one]
      ring
    · intro t ht
      cases t with
      | zero =>
        have h0 := hfr1 (idx line (s.BLU_req_ptr line)) (by rw [hptr', idx_add]; omega)
        simp only [List.map_cons, List.getElem?_cons_zero, Nat.cast_zero, add_zero, h0, hbuf',
          upd_same]
      | succ t =>
        have h1 := hbuf1 t (by simpa using ht)
        simp only [List.map_cons, List.getElem?_cons_succ]
        rw [h1, hptr']
        congr 3
        push_cast
        ring
    · intro k hk
      have hk' : k < idx line (s'.BLU_req_ptr line) := by rw [hptr', idx_add]; omega
      rw [hfr1 k hk', hbuf']
      exact upd_ne _ _ (by omega)
    · rw [hsd1, hsd']

/-- The scan of a PCF `0xC` just written by the NCP: what it hands to the line
handler. -/
theorem scanC_turn (line : Nat) (s : State) (hlcd : s.icw_lcd line = 0x9)
    (hnxt : s.icw_pcf_nxt line = 0xC) (hpcf : s.icw_pcf line ≠ 0xC) :
    (scanned line s).BLU_req_len line = s.BLU_req_ptr line ∧
    (scanned line s).BLU_req_stat line = FILLED ∧
    (scanned line s).BLU_req_buf = s.BLU_req_buf ∧
    (scanned line s).sdlcline = s.sdlcline := by
  simp [scanned, phaseB, phaseA, case_C, commit, raiseL2, hlcd, hnxt, hpcf]

/-- The bytes handed to `send` when the request buffer holds `bs` from offset
0 and the call starts at offset `f`. -/
theorem sendBytes_drop (s : State) (line : Nat) (bs : List Nat) (fd : Int) (f : Nat)
    (hbuf : ∀ t : Nat, t < bs.length → bs[t]? = some (s.BLU_req_buf (idx line (t : Int))))
    (hf : f ≤ bs.length) :
    sendBytes s line ⟨fd, (f : Int), (bs.length : Int) - (f : Int)⟩ = bs.drop f := by
  have hn : ((bs.length : Int) - (f : Int)).toNat = bs.length - f := by omega
  unfold sendBytes
  simp only [hn]
  apply List.ext_getElem?
  intro n
  rw [List.getElem?_drop]
  by_cases h : n < bs.length - f
  · have h2 : f + n < bs.length := by omega
    rw [hbuf (f + n) h2, List.getElem?_map, List.getElem?_range h]
    simp only [Option.map_some', Nat.cast_add]
  · have h2 : bs.length ≤ f + n := by omega
    rw [List.getElem?_eq_none h2]
    apply List.getElem?_eq_none
    rw [List.length_map, List.length_range]
    omega

theorem tx_pcf1 (line : Nat) (s : State) (ptr : Int) (hlcd : s.icw_lcd line = 0x9)
    (hnxt : s.icw_pcf_nxt line = 0x1) (hpcf : s.icw_pcf line ≠ 0x1)
    (hptr : s.BLU_req_ptr line = ptr) :
    TxAt line (scanned line s) 0x0 0x1 ptr ON ∧ TxFrame s (scanned line s) none ∧
      (scanned line s).abar_int = (line : Int) + 0x020 := by
  simp [TxAt, TxFrame, scanned, phaseB, phaseA, case_1, commit, raiseL2, hlcd, hnxt, hpcf, hptr]

theorem tx_pcf0 (line : Nat) (s : State) (prev : Nat) (ptr : Int) (svc : Bool)
    (h : TxAt line s 0x0 prev ptr svc) :
    TxAt line (scanned line s) 0x0 0x0 ptr svc ∧ TxFrame s (scanned line s) none ∧
      (scanned line s).abar_int = s.abar_int := by
  obtain ⟨hlcd, hpcf, hnxt, _, hptr, hsvc, hq⟩ := h
  simp [TxAt, TxFrame, scanned, phaseB, phaseA, case_0, commit, hlcd, hnxt, hpcf, hptr,
    hsvc, hq]

theorem tx_pcf8 (line : Nat) (s : State) (ptr : Int) (hlcd : s.icw_lcd line = 0x9)
    (hnxt : s.icw_pcf_nxt line = 0x8) (hpcf : s.icw_pcf line ≠ 0x8)
    (hptr : s.BLU_req_ptr line = ptr) (hsvc : s.svc_req_L2 = OFF) (hlvl : s.lvl ≠ 2)
    (hq : s.CS2_req_L2_int = OFF) :
    TxAt line (scanned line s) 0x9 0x8 ptr OFF ∧ TxFrame s (scanned line s) none ∧
      (scanned line s).abar_int = s.abar_int := by
  simp [TxAt, TxFrame, scanned, phaseB, phaseA, case_8, L2_active, commit, hlcd, hnxt, hpcf,
    hptr, hsvc, hlvl, hq]

theorem tx_pcf9 (line : Nat) (s : State) (prev : Nat) (ptr : Int) (svc : Bool)
    (h : TxAt line s 0x9 prev ptr svc) (hsvc : svc = OFF) (hlvl : s.lvl ≠ 2)
    (hreg : s.icw_pdf_reg line = FILLED) :
    TxAt line (scanned line s) 0x9 0x9 (ptr + 1) ON ∧
      TxFrame s (scanned line s) (some (idx line ptr, s.icw_pdf line)) ∧
      (scanned line s).abar_int = (line : Int) + 0x020 := by
  obtain ⟨hlcd, hpcf, hnxt, _, hptr, hsvc', hq⟩ := h
  subst hsvc
  simp [TxAt, TxFrame, scanned, phaseB, phaseA, case_9, L2_active, commit, raiseL2, hlcd,
    hnxt, hpcf, hptr, hsvc', hlvl, hreg]

theorem tx_pcfC (line : Nat) (s : State) (ptr : Int) (hlcd : s.icw_lcd line = 0x9)
    (hnxt : s.icw_pcf_nxt line = 0xC) (hpcf : s.icw_pcf line ≠ 0xC)
    (hptr : s.BLU_req_ptr line = ptr) :
    TxAt line (scanned line s) 0x5 0xC 0 ON ∧ TxFrame s (scanned line s) none ∧
      (scanned line s).abar_int = (line : Int) + 0x020 ∧
      (scanned line s).BLU_req_len line = ptr ∧
      (scanned line s).BLU_req_stat line = FILLED ∧
      (scanned line s).icw_lne_stat line = RX := by
  simp [TxAt, TxFrame, scanned, phaseB, phaseA, case_C, commit, raiseL2, hlcd, hnxt, hpcf,
    hptr]

/-- The line state and PCF fields are not touched by the line handler, and a
connected line whose `send` succeeds has its request buffer flushed. -/
theorem SDLC_line_flush (e : Sys) (j : Nat) (s : State)
    (hconn : (s.sdlcline j).line_stat = CONN) (hst : s.BLU_req_stat j = FILLED)
    (hfd : 1 ≤ (s.sdlcline j).d3274_fd) (hsend : 0 ≤ e.send_rc) :
    (SDLC_line e j s).2 =
      some ⟨(s.sdlcline j).d3274_fd,
        if s.BLU_req_buf (idx j 0) = 0x00 ∨ s.BLU_req_buf (idx j 0) = 0xAA then 1 else 0,
        s.BLU_req_len j -
          (if s.BLU_req_buf (idx j 0) = 0x00 ∨ s.BLU_req_buf (idx j 0) = 0xAA then 1 else 0)⟩ ∧
    (SDLC_line e j s).1.BLU_req_stat j = EMPTY ∧
    (SDLC_line e j s).1.BLU_req_len j = 0 ∧
    ((SDLC_line e j s).1.sdlcline j).line_stat = CONN ∧
    (SDLC_line e j s).1.icw_pcf = s.icw_pcf ∧
    (SDLC_line e j s).1.icw_lne_stat = s.icw_lne_stat ∧
    (SDLC_line e j s).1.abar_int = s.abar_int ∧
    (SDLC_line e j s).1.BLU_req_buf = s.BLU_req_buf := by
  have h1 : ¬ (s.sdlcline j).d3274_fd < 1 := by omega
  have h2 : ¬ e.send_rc < 0 := by omega
  simp [SDLC_line, SendSDLC, set_line_stat, hconn, hst, h1, h2]

theorem runScans_cons (ccu : Nat → Bool) (fuel line : Nat) (act : State → State)
    (rest : List (State → State)) (s s1 : State) (l : List State)
    (h1 : scanLine ccu fuel line (act s) = some s1)
    (h2 : runScans ccu fuel line rest s1 = some l) :
    runScans ccu fuel line (act :: rest) s = some (s1 :: l) := by
  simp only [runScans, h1, h2]

theorem TxAt_done (line : Nat) (s : State) (pcf prev : Nat) (ptr : Int) (svc : Bool) (lv : Int)
    (h : TxAt line s pcf prev ptr svc) : TxAt line (ccu_done lv s) pcf prev ptr OFF :=
  ⟨h.1, h.2.1, h.2.2.1, h.2.2.2.1, h.2.2.2.2.1, rfl, h.2.2.2.2.2.2⟩

theorem TxAt_pdf (line : Nat) (s : State) (pcf prev : Nat) (ptr : Int) (svc : Bool) (b : Nat)
    (h : TxAt line s pcf prev ptr svc) : TxAt line (ncp_pdf line b s) pcf prev ptr svc :=
  h

/-- The state of line 0 after `Init_ICW(MAX_LINE)`, and what the
initialisation leaves alone. -/
theorem Init_ICW_line0 (s0 : State) :
    (Init_ICW MAX_LINE s0).icw_pcf 0 = 0xE ∧ (Init_ICW MAX_LINE s0).icw_pcf_nxt 0 = 0x0 ∧
    (Init_ICW MAX_LINE s0).BLU_req_ptr 0 = 0 ∧
    (Init_ICW MAX_LINE s0).svc_req_L2 = s0.svc_req_L2 ∧
    (Init_ICW MAX_LINE s0).sdlcline = s0.sdlcline := by
  simp [Init_ICW, MAX_LINE, Init_ICW_line]

theorem rx_pcf5 (line : Nat) (s : State) (hpcf : s.icw_pcf line = 0x5)
    (hnxt : s.icw_pcf_nxt line = 0x5) (hrx : s.icw_lne_stat line = RX)
    (hlcd : s.icw_lcd line = 0x8 ∨ s.icw_lcd line = 0x9)
    (hst : s.BLU_rsp_stat line = FILLED) (h7E : s.BLU_rsp_buf (idx line 0) = 0x7E) :
    RxAt line (scanned line s) 0x6 0x5 0 ∧
      (scanned line s).BLU_rsp_buf = s.BLU_rsp_buf ∧
      (scanned line s).icw_scf line &&& 0x04 = 0x04 ∧
      (scanned line s).svc_req_L2 = ON ∧
      (scanned line s).icw_pdf_reg = s.icw_pdf_reg := by
  rcases hlcd with hlcd | hlcd <;>
    simp [RxAt, scanned, phaseB, phaseA, case_4, commit, raiseL2, hpcf, hnxt, hrx, hlcd, hst,
      h7E, or_and_self_mask]

theorem rx_pcf6_skip (line : Nat) (s : State) (prev : Nat) (ptr ptr1 : Int)
    (h : RxAt line s 0x6 prev ptr) (hp : ptr1 = ptr + 1) (hsvc : s.svc_req_L2 = OFF)
    (hlvl : s.lvl ≠ 2) (h7E : s.BLU_rsp_buf (idx line ptr) = 0x7E) :
    RxAt line (scanned line s) 0x6 0x6 ptr1 ∧
      (scanned line s).BLU_rsp_buf = s.BLU_rsp_buf ∧
      (scanned line s).icw_pdf line = 0x7E ∧
      (scanned line s).svc_req_L2 = OFF ∧
      (scanned line s).icw_pdf_reg = s.icw_pdf_reg := by
  obtain ⟨hlcd, hpcf, hnxt, _, hptr, hrx, hst, hq⟩ := h
  subst hp
  simp [RxAt, scanned, phaseB, phaseA, case_6, L2_active, commit, hlcd, hpcf, hnxt, hptr,
    hrx, hst, hq, hsvc, hlvl, h7E]

theorem rx_pcf6_byte (line : Nat) (s : State) (prev : Nat) (ptr ptr1 : Int) (b : Nat)
    (h : RxAt line s 0x6 prev ptr) (hp : ptr1 = ptr + 1) (hsvc : s.svc_req_L2 = OFF)
    (hlvl : s.lvl ≠ 2) (hb : s.BLU_rsp_buf (idx line ptr) = b) (hb7E : b ≠ 0x7E) :
    RxAt line (scanned line s) 0x7 0x6 ptr1 ∧
      (scanned line s).BLU_rsp_buf = s.BLU_rsp_buf ∧
      (scanned line s).icw_pdf line = b ∧
      (scanned line s).svc_req_L2 = ON ∧
      (scanned line s).icw_pdf_reg line = FILLED := by
  obtain ⟨hlcd, hpcf, hnxt, _, hptr, hrx, hst, hq⟩ := h
  subst hp
  simp [RxAt, scanned, phaseB, phaseA, case_6, L2_active, commit, raiseL2, hlcd, hpcf, hnxt,
    hptr, hrx, hst, hsvc, hlvl, hb, hb7E]

theorem rx_pcf7_byte (line : Nat) (s : State) (prev : Nat) (ptr ptr1 : Int) (b : Nat)
    (h : RxAt line s 0x7 prev ptr) (hp : ptr1 = ptr + 1) (hsvc : s.svc_req_L2 = OFF)
    (hlvl : s.lvl ≠ 2) (hreg : s.icw_pdf_reg line = EMPTY)
    (hb : s.BLU_rsp_buf (idx line ptr) = b)
    (hno : s.BLU_rsp_buf (idx line (ptr - 2)) ≠ 0x47) :
    RxAt line (scanned line s) 0x7 0x7 ptr1 ∧
      (scanned line s).BLU_rsp_buf = s.BLU_rsp_buf ∧
      (scanned line s).icw_pdf line = b ∧
      (scanned line s).svc_req_L2 = ON ∧
      (scanned line s).icw_pdf_reg line = FILLED := by
  obtain ⟨hlcd, hpcf, hnxt, _, hptr, hrx, hst, hq⟩ := h
  subst hp
  simp [RxAt, scanned, phaseB, phaseA, case_7, L2_active, commit, raiseL2, hlcd, hpcf, hnxt,
    hptr, hrx, hst, hsvc, hlvl, hreg, hb, hno]

theorem rx_pcf7_eflag (line : Nat) (s : State) (prev : Nat) (ptr : Int)
    (h : RxAt line s 0x7 prev ptr) (hsvc : s.svc_req_L2 = OFF)
    (hlvl : s.lvl ≠ 2) (hreg : s.icw_pdf_reg line = EMPTY)
    (h47 : s.BLU_rsp_buf (idx line (ptr - 2)) = 0x47)
    (h0F : s.BLU_rsp_buf (idx line (ptr - 1)) = 0x0F)
    (h7E : s.BLU_rsp_buf (idx line ptr) = 0x7E) :
    (scanned line s).icw_lne_stat line = TX ∧
      (scanned line s).icw_pcf_nxt line = 0x6 ∧
      (scanned line s).BLU_rsp_stat line = EMPTY ∧
      (scanned line s).icw_pcf_prev line = 0x7 ∧
      (scanned line s).icw_pdf line = 0x7E ∧
      (scanned line s).Eflg_rvcd = ON ∧
      (scanned line s).icw_pdf_reg line = EMPTY := by
  obtain ⟨hlcd, hpcf, hnxt, _, hptr, hrx, hst, hq⟩ := h
  simp [scanned, phaseB, phaseA, case_7, L2_active, commit, raiseL2, hlcd, hpcf, hnxt,
    hptr, hsvc, hlvl, hreg, h47, h0F, h7E]

theorem pack2 (a b : Nat) (hb : b < 256) : (a <<< 8) ||| b = 256 * a + b := by
  have h := Nat.mul_add_lt_is_or (i := 8) (b := b) (by simpa using hb) a
  rw [Nat.shiftLeft_eq, Nat.mul_comm]
  simpa using h.symm

theorem pack3 (l p d : Nat) (hp : p ≤ 0xF) (hd : d < 256) :
    ((l <<< 12) ||| (p <<< 8)) ||| d = 4096 * l + 256 * p + d := by
  have h1 := Nat.mul_add_lt_is_or (i := 12) (b := 256 * p) (by norm_num; omega) l
  have h2 := Nat.mul_add_lt_is_or (i := 8) (b := d) (by simpa using hd) (16 * l + p)
  have e1 : l <<< 12 = 2 ^ 12 * l := by rw [Nat.shiftLeft_eq, Nat.mul_comm]
  have e2 : p <<< 8 = 256 * p := by rw [Nat.shiftLeft_eq, Nat.mul_comm]
  rw [e1, e2, ← h1]
  have e3 : 2 ^ 12 * l + 256 * p = 2 ^ 8 * (16 * l + p) := by norm_num; ring
  rw [e3, ← h2]
  norm_num
  ring

theorem and_FF (x : Nat) : x &&& 0xFF = x % 256 := by
  have h := Nat.and_pow_two_sub_one_eq_mod x 8
  simpa using h

theorem and_F (x : Nat) : x &&& 0xF = x % 16 := by
  have h := Nat.and_pow_two_sub_one_eq_mod x 4
  simpa using h

/-- The accept loop changes nothing but the connection records. -/
theorem accept_loop_frame (e : Sys) (j : Nat) (n : Nat) :
    ∀ (i : Nat) (s : State),
      { accept_loop e j n i s with sdlcline := s.sdlcline } = s := by
  induction n with
  | zero => intro i s; rfl
  | succ m ih =>
    intro i s
    simp only [accept_loop]
    split_ifs with h
    · have := ih (i + 1) (set_d3274_fd j (e.accept_fd i) s)
      rw [State.mk.injEq] at this ⊢
      simpa [set_d3274_fd] using this
    · have := ih (i + 1) (set_line_stat j CONN (set_d3274_fd j (e.accept_fd i) s))
      rw [State.mk.injEq] at this ⊢
      simpa [set_d3274_fd, set_line_stat] using this

/-- `SendSDLC` changes nothing but the peer descriptor of the line. -/
theorem SendSDLC_frame (e : Sys) (j : Nat) (s : State) :
    { (SendSDLC e j s).2.1 with sdlcline := s.sdlcline } = s ∧
    ((SendSDLC e j s).2.1.sdlcline j).line_stat = (s.sdlcline j).line_stat := by
  unfold SendSDLC
  simp only
  split_ifs <;> simp [set_d3274_fd]

/-- `ReadSDLC` leaves the request side and the state flag of the response
buffer alone. -/
theorem ReadSDLC_frame (e : Sys) (j : Nat) (s : State) :
    (ReadSDLC e j s).2.BLU_req_buf = s.BLU_req_buf ∧
    (ReadSDLC e j s).2.BLU_req_len = s.BLU_req_len ∧
    (ReadSDLC e j s).2.BLU_req_stat = s.BLU_req_stat ∧
    (ReadSDLC e j s).2.BLU_rsp_stat = s.BLU_rsp_stat ∧
    ((ReadSDLC e j s).2.sdlcline j).line_stat = (s.sdlcline j).line_stat := by
  unfold ReadSDLC
  rcases hr : e.read_res with _ | data <;>
    (simp only; split_ifs <;> simp [set_d3274_fd])

/-- Case analysis on the switch, with the PCF value known in each case. -/
theorem phaseB_by_pcf (P : State → Prop) (line : Nat) (s : State)
    (h0 : s.icw_pcf line = 0x0 → P (case_0 line s))
    (h1 : (s.icw_pcf line = 0x1 ∨ s.icw_pcf line = 0x2 ∨ s.icw_pcf line = 0x3) →
      P (case_1 line s))
    (h4 : (s.icw_pcf line = 0x4 ∨ s.icw_pcf line = 0x5) → P (case_4 line s))
    (h6 : s.icw_pcf line = 0x6 → P (case_6 line s))
    (h7 : s.icw_pcf line = 0x7 → P (case_7 line s))
    (h8 : s.icw_pcf line = 0x8 → P (case_8 line s))
    (h9 : s.icw_pcf line = 0x9 → P (case_9 line s))
    (hC : s.icw_pcf line = 0xC → P (case_C line s))
    (hF : s.icw_pcf line = 0xF → P (case_F line s))
    (hs : (s.icw_pcf line = 0xA ∨ s.icw_pcf line = 0xB ∨ s.icw_pcf line = 0xD ∨
      s.icw_pcf line = 0xE ∨ 0xF < s.icw_pcf line) → P s) : P (phaseB line s) := by
  unfold phaseB
  by_cases c0 : s.icw_pcf line = 0x0
  · rw [if_pos c0]; exact h0 c0
  rw [if_neg c0]
  by_cases c1 : s.icw_pcf line = 0x1
  · rw [if_pos c1]; exact h1 (Or.inl c1)
  rw [if_neg c1]
  by_cases c2 : s.icw_pcf line = 0x2
  · rw [if_pos c2]; exact h1 (Or.inr (Or.inl c2))
  rw [if_neg c2]
  by_cases c3 : s.icw_pcf line = 0x3
  · rw [if_pos c3]; exact h1 (Or.inr (Or.inr c3))
  rw [if_neg c3]
  by_cases c4 : s.icw_pcf line = 0x4
  · rw [if_pos c4]; exact h4 (Or.inl c4)
  rw [if_neg c4]
  by_cases c5 : s.icw_pcf line = 0x5
  · rw [if_pos c5]; exact h4 (Or.inr c5)
  rw [if_neg c5]
  by_cases c6 : s.icw_pcf line = 0x6
  · rw [if_pos c6]; exact h6 c6
  rw [if_neg c6]
  by_cases c7 : s.icw_pcf line = 0x7
  · rw [if_pos c7]; exact h7 c7
  rw [if_neg c7]
  by_cases c8 : s.icw_pcf line = 0x8
  · rw [if_pos c8]; exact h8 c8
  rw [if_neg c8]
  by_cases c9 : s.icw_pcf line = 0x9
  · rw [if_pos c9]; exact h9 c9
  rw [if_neg c9]
  by_cases cA : s.icw_pcf line = 0xA
  · rw [if_pos cA]; unfold case_A; rw [ite_self]; exact hs (Or.inl cA)
  rw [if_neg cA]
  by_cases cB : s.icw_pcf line = 0xB
  · rw [if_pos cB]; exact hs (Or.inr (Or.inl cB))
  rw [if_neg cB]
  by_cases cC : s.icw_pcf line = 0xC
  · rw [if_pos cC]; exact hC cC
  rw [if_neg cC]
  by_cases cD : s.icw_pcf line = 0xD
  · rw [if_pos cD]; exact hs (Or.inr (Or.inr (Or.inl cD)))
  rw [if_neg cD]
  by_cases cE : s.icw_pcf line = 0xE
  · rw [if_pos cE]; exact hs (Or.inr (Or.inr (Or.inr (Or.inl cE))))
  rw [if_neg cE]
  by_cases cF : s.icw_pcf line = 0xF
  · rw [if_pos cF]; exact hF cF
  rw [if_neg cF]
  exact hs (Or.inr (Or.inr (Or.inr (Or.inr (by omega)))))

/-- The post-processing leaves everything alone but `pcf`, `pcf_prev`,
`abar_int`, `svc_req_L2` and `CS2_req_L2_int`. -/
theorem scanned_frame (line : Nat) (s : State) :
    (scanned line s).BLU_req_buf = (phaseB line (phaseA line s)).BLU_req_buf ∧
    (scanned line s).BLU_req_ptr = (phaseB line (phaseA line s)).BLU_req_ptr ∧
    (scanned line s).BLU_req_len = (phaseB line (phaseA line s)).BLU_req_len ∧
    (scanned line s).BLU_req_stat = (phaseB line (phaseA line s)).BLU_req_stat ∧
    (scanned line s).BLU_rsp_buf = (phaseB line (phaseA line s)).BLU_rsp_buf ∧
    (scanned line s).BLU_rsp_ptr = (phaseB line (phaseA line s)).BLU_rsp_ptr ∧
    (scanned line s).BLU_rsp_len = (phaseB line (phaseA line s)).BLU_rsp_len ∧
    (scanned line s).BLU_rsp_stat = (phaseB line (phaseA line s)).BLU_rsp_stat ∧
    (scanned line s).icw_scf = (phaseB line (phaseA line s)).icw_scf ∧
    (scanned line s).icw_pdf = (phaseB line (phaseA line s)).icw_pdf ∧
    (scanned line s).icw_lcd = (phaseB line (phaseA line s)).icw_lcd ∧
    (scanned line s).icw_sdf = (phaseB line (phaseA line s)).icw_sdf ∧
    (scanned line s).icw_Rflags = (phaseB line (phaseA line s)).icw_Rflags ∧
    (scanned line s).icw_lne_stat = (phaseB line (phaseA line s)).icw_lne_stat ∧
    (scanned line s).icw_pcf_nxt = (phaseB line (phaseA line s)).icw_pcf_nxt ∧
    (scanned line s).icw_pdf_reg = (phaseB line (phaseA line s)).icw_pdf_reg := by
  unfold scanned commit raiseL2
  simp only
  split_ifs <;> simp

/-- The observation of NCP writes leaves the buffers, `pdf`, `pdf_reg`, `lcd`
and `pcf_nxt` alone. -/
theorem phaseA_frame (line : Nat) (s : State) :
    (phaseA line s).BLU_req_buf = s.BLU_req_buf ∧
    (phaseA line s).BLU_req_ptr = s.BLU_req_ptr ∧
    (phaseA line s).BLU_req_len = s.BLU_req_len ∧
    (phaseA line s).BLU_req_stat = s.BLU_req_stat ∧
    (phaseA line s).BLU_rsp_buf = s.BLU_rsp_buf ∧
    (phaseA line s).BLU_rsp_ptr = s.BLU_rsp_ptr ∧
    (phaseA line s).BLU_rsp_len = s.BLU_rsp_len ∧
    (phaseA line s).BLU_rsp_stat = s.BLU_rsp_stat ∧
    (phaseA line s).icw_pdf = s.icw_pdf ∧
    (phaseA line s).icw_lcd = s.icw_lcd ∧
    (phaseA line s).icw_pdf_reg = s.icw_pdf_reg ∧
    (phaseA line s).CS2_req_L2_int = s.CS2_req_L2_int := by
  unfold phaseA
  simp only
  split_ifs <;> simp

theorem phaseA_lne_reset (line : Nat) (s : State) (h : s.icw_lne_stat line = RESET) :
    (phaseA line s).icw_lne_stat line = RESET := by
  unfold phaseA
  simp only
  split_ifs <;> simp [h]

theorem idx_ne_of_rows (i j : Nat) (p k : Int) (hne : j ≠ i) (hp0 : 0 ≤ p)
    (hp1 : p < (BUFFER_SIZE : Int)) (hk0 : 0 ≤ k) (hk1 : k < (BUFFER_SIZE : Int)) :
    idx j k ≠ idx i p := by
  unfold idx
  intro h
  have hB : (BUFFER_SIZE : Int) = 16384 := by simp [BUFFER_SIZE]
  rw [hB] at h hp1 hk1
  have : (j : Int) = (i : Int) := by omega
  exact hne (by exact_mod_cast this)

theorem sameLine_refl (j : Nat) (s : State) : sameLine j s s := by
  simp [sameLine]

theorem sameLine_trans (j : Nat) (s t u : State) (h1 : sameLine j s t) (h2 : sameLine j t u) :
    sameLine j s u := by
  unfold sameLine at h1 h2 ⊢
  obtain ⟨a1, a2, a3, a4, a5, a6, a7, a8, a9, a10, a11, a12, a13, a14, a15, a16, a17, a18⟩ := h1
  obtain ⟨b1, b2, b3, b4, b5, b6, b7, b8, b9, b10, b11, b12, b13, b14, b15, b16, b17, b18⟩ := h2
  exact ⟨a1.trans b1, a2.trans b2, a3.trans b3, a4.trans b4, a5.trans b5, a6.trans b6,
    a7.trans b7, a8.trans b8, a9.trans b9, a10.trans b10, a11.trans b11, a12.trans b12,
    a13.trans b13, a14.trans b14, a15.trans b15, a16.trans b16,
    fun k h0 h1 => (a17 k h0 h1).trans (b17 k h0 h1),
    fun k h0 h1 => (a18 k h0 h1).trans (b18 k h0 h1)⟩

theorem phaseA_other (i j : Nat) (s : State) (hne : j ≠ i) : sameLine j s (phaseA i s) := by
  unfold phaseA
  simp only
  split_ifs <;> simp [sameLine, upd, hne]

theorem commit_other (i j : Nat) (s : State) (hne : j ≠ i) : sameLine j s (commit i s) := by
  unfold commit
  simp only
  split_ifs <;> simp [sameLine, upd, hne]

theorem raiseL2_other (i j : Nat) (s : State) : sameLine j s (raiseL2 i s) := by
  simp [sameLine, raiseL2]

/-- The switch taken for line `i` leaves line `j` alone, when the store of PCF
9 stays inside the request buffer of line `i`. -/
theorem phaseB_other (i j : Nat) (s : State) (hne : j ≠ i)
    (h9 : s.icw_pcf i = 0x9 → 0 ≤ s.BLU_req_ptr i ∧ s.BLU_req_ptr i < (BUFFER_SIZE : Int)) :
    sameLine j s (phaseB i s) := by
  apply phaseB_by_pcf (fun x => sameLine j s x)
  · intro _; simp [sameLine, case_0, upd, hne]
  · intro _; unfold case_1; split_ifs <;> simp [sameLine, upd, hne]
  · intro _; unfold case_4; simp only; split_ifs <;> simp [sameLine, upd, hne]
  · intro _; unfold case_6; simp only; split_ifs <;> simp [sameLine, upd, hne]
  · intro _; unfold case_7; simp only; split_ifs <;> simp [sameLine, upd, hne]
  · intro _; unfold case_8; split_ifs <;> simp [sameLine, upd, hne]
  · intro hc
    obtain ⟨hp0, hp1⟩ := h9 hc
    unfold case_9
    simp only
    split_ifs
    · exact sameLine_refl j s
    · simp only [sameLine, upd, hne, if_false, true_and]
      refine ⟨?_, fun _ _ _ => trivial⟩
      intro k hk0 hk1
      rw [if_neg (idx_ne_of_rows i j _ k hne hp0 hp1 hk0 hk1)]
    · simp [sameLine, upd, hne]
    · exact sameLine_refl j s
  · intro _; unfold case_C; simp only; split_ifs <;> simp [sameLine, upd, hne]
  · intro _; simp [sameLine, case_F, upd, hne]
  · intro _; exact sameLine_refl j s

theorem phaseA_indep (i : Nat) (s t : State) (h : scanEq i s t) :
    scanEq i (phaseA i s) (phaseA i t) := by
  obtain ⟨⟨a1, a2, a3, a4, a5, a6, a7, a8, a9, a10, a11, a12, a13, a14, a15, a16, a17, a18⟩,
    g1, g2, g3⟩ := h
  unfold phaseA
  simp only [a4, a8]
  split_ifs <;>
    simp [scanEq, sameLine, upd, a1, a2, a3, a4, a5, a6, a7, a8, a9, a10, a11, a12, a13, a14,
      a15, a16, g1, g2, g3] <;>
    exact ⟨a17, a18⟩

theorem commit_indep (i : Nat) (s t : State) (h : scanEq i s t) :
    scanEq i (commit i s) (commit i t) := by
  obtain ⟨⟨a1, a2, a3, a4, a5, a6, a7, a8, a9, a10, a11, a12, a13, a14, a15, a16, a17, a18⟩,
    g1, g2, g3⟩ := h
  unfold commit
  simp only [a4, a8]
  split_ifs <;>
    simp [scanEq, sameLine, upd, a1, a2, a3, a4, a5, a6, a7, a8, a9, a10, a11, a12, a13, a14,
      a15, a16, g1, g2, g3] <;>
    exact ⟨a17, a18⟩

theorem raiseL2_indep (i : Nat) (s t : State) (h : scanEq i s t) :
    scanEq i (raiseL2 i s) (raiseL2 i t) := by
  obtain ⟨⟨a1, a2, a3, a4, a5, a6, a7, a8, a9, a10, a11, a12, a13, a14, a15, a16, a17, a18⟩,
    g1, g2, g3⟩ := h
  simp [scanEq, sameLine, raiseL2, a1, a2, a3, a4, a5, a6, a7, a8, a9, a10, a11, a12, a13, a14,
      a15, a16, g1, g2, g3]
  exact ⟨a17, a18⟩

theorem case_0_indep (i : Nat) (s t : State) (h : scanEq i s t) :
    scanEq i (case_0 i s) (case_0 i t) := by
  obtain ⟨⟨a1, a2, a3, a4, a5, a6, a7, a8, a9, a10, a11, a12, a13, a14, a15, a16, a17, a18⟩,
    g1, g2, g3⟩ := h
  simp [scanEq, sameLine, case_0, upd, a1, a2, a3, a4, a5, a6, a7, a8, a9, a10, a11, a12, a13,
      a14, a15, a16, g1, g2, g3]
  exact ⟨a17, a18⟩

theorem case_1_indep (i : Nat) (s t : State) (h : scanEq i s t) :
    scanEq i (case_1 i s) (case_1 i t) := by
  obtain ⟨⟨a1, a2, a3, a4, a5, a6, a7, a8, a9, a10, a11, a12, a13, a14, a15, a16, a17, a18⟩,
    g1, g2, g3⟩ := h
  unfold case_1
  simp only [a4, a7]
  split_ifs <;>
    simp [scanEq, sameLine, upd, a1, a2, a3, a4, a5, a6, a7, a8, a9, a10, a11, a12, a13, a14,
      a15, a16, g1, g2, g3] <;>
    exact ⟨a17, a18⟩

theorem case_4_indep (i : Nat) (s t : State) (h : scanEq i s t) :
    scanEq i (case_4 i s) (case_4 i t) := by
  obtain ⟨⟨a1, a2, a3, a4, a5, a6, a7, a8, a9, a10, a11, a12, a13, a14, a15, a16, a17, a18⟩,
    g1, g2, g3⟩ := h
  have hb := a18 0 (by norm_num) (by simp [BUFFER_SIZE])
  unfold case_4
  simp only [a3, a9, a16, hb]
  split_ifs <;>
    simp [scanEq, sameLine, upd, a1, a2, a3, a4, a5, a6, a7, a8, a9, a10, a11, a12, a13, a14,
      a15, a16, g1, g2, g3] <;>
    exact ⟨a17, a18⟩

theorem case_6_indep (i : Nat) (s t : State) (h : scanEq i s t)
    (hp : 0 ≤ s.BLU_rsp_ptr i ∧ s.BLU_rsp_ptr i < (BUFFER_SIZE : Int)) :
    scanEq i (case_6 i s) (case_6 i t) := by
  obtain ⟨⟨a1, a2, a3, a4, a5, a6, a7, a8, a9, a10, a11, a12, a13, a14, a15, a16, a17, a18⟩,
    g1, g2, g3⟩ := h
  have hb := a18 _ hp.1 hp.2
  rw [a14] at hb
  unfold case_6 L2_active
  simp only [g1, g2, upd_same, a14, hb]
  split_ifs <;>
    simp [scanEq, sameLine, upd, a1, a2, a3, a4, a5, a6, a7, a8, a9, a10, a11, a12, a13, a14,
      a15, a16, g1, g2, g3, hb] <;>
    exact ⟨a17, a18⟩

theorem case_7_indep (i : Nat) (s t : State) (h : scanEq i s t)
    (hp : 2 ≤ s.BLU_rsp_ptr i ∧ s.BLU_rsp_ptr i < (BUFFER_SIZE : Int)) :
    scanEq i (case_7 i s) (case_7 i t) := by
  obtain ⟨⟨a1, a2, a3, a4, a5, a6, a7, a8, a9, a10, a11, a12, a13, a14, a15, a16, a17, a18⟩,
    g1, g2, g3⟩ := h
  have hb0 := a18 _ (by omega : (0 : Int) ≤ s.BLU_rsp_ptr i) hp.2
  have hb0' := a18 (s.BLU_rsp_ptr i - 0) (by omega) (by omega)
  have hb1 := a18 (s.BLU_rsp_ptr i - 1) (by omega) (by omega)
  have hb2 := a18 (s.BLU_rsp_ptr i - 2) (by omega) (by omega)
  rw [a14] at hb0 hb0' hb1 hb2
  unfold case_7 L2_active
  simp only [g1, g2, a3, a10, a14, hb0, hb0', hb1, hb2]
  split_ifs <;>
    simp [scanEq, sameLine, upd, a1, a2, a3, a4, a5, a6, a7, a8, a9, a10, a11, a12, a13, a14,
      a15, a16, g1, g2, g3, hb0] <;>
    exact ⟨a17, a18⟩

theorem case_8_indep (i : Nat) (s t : State) (h : scanEq i s t) :
    scanEq i (case_8 i s) (case_8 i t) := by
  obtain ⟨⟨a1, a2, a3, a4, a5, a6, a7, a8, a9, a10, a11, a12, a13, a14, a15, a16, a17, a18⟩,
    g1, g2, g3⟩ := h
  unfold case_8 L2_active
  simp only [a3, g1, g2]
  split_ifs <;>
    simp [scanEq, sameLine, upd, a1, a2, a3, a4, a5, a6, a7, a8, a9, a10, a11, a12, a13, a14,
      a15, a16, g1, g2, g3] <;>
    exact ⟨a17, a18⟩

theorem case_9_indep (i : Nat) (s t : State) (h : scanEq i s t) :
    scanEq i (case_9 i s) (case_9 i t) := by
  obtain ⟨⟨a1, a2, a3, a4, a5, a6, a7, a8, a9, a10, a11, a12, a13, a14, a15, a16, a17, a18⟩,
    g1, g2, g3⟩ := h
  unfold case_9 L2_active
  simp only [a2, a3, a10, a11, g1, g2]
  split_ifs
  · exact ⟨⟨a1, a2, a3, a4, a5, a6, a7, a8, a9, a10, a11, a12, a13, a14, a15, a16, a17, a18⟩,
      g1, g2, g3⟩
  · simp only [scanEq, sameLine, upd_same, a1, a4, a5, a6, a7, a9, a12, a13, a14, a15, a16, a3,
      a2, g1, g2, true_and, and_true]
    refine ⟨?_, a18⟩
    intro k hk0 hk1
    unfold upd
    split_ifs
    · rfl
    · exact a17 k hk0 hk1
  · simp [scanEq, sameLine, upd, a1, a2, a3, a4, a5, a6, a7, a8, a9, a10, a11, a12, a13, a14,
      a15, a16, g1, g2, g3]
    exact ⟨a17, a18⟩
  · exact ⟨⟨a1, a2, a3, a4, a5, a6, a7, a8, a9, a10, a11, a12, a13, a14, a15, a16, a17, a18⟩,
      g1, g2, g3⟩

theorem case_C_indep (i : Nat) (s t : State) (h : scanEq i s t) :
    scanEq i (case_C i s) (case_C i t) := by
  obtain ⟨⟨a1, a2, a3, a4, a5, a6, a7, a8, a9, a10, a11, a12, a13, a14, a15, a16, a17, a18⟩,
    g1, g2, g3⟩ := h
  unfold case_C
  simp only [a3, a4, a7, a11]
  split_ifs <;>
    simp [scanEq, sameLine, upd, a1, a2, a3, a4, a5, a6, a7, a8, a9, a10, a11, a12, a13, a14,
      a15, a16, g1, g2, g3] <;>
    exact ⟨a17, a18⟩

theorem case_F_indep (i : Nat) (s t : State) (h : scanEq i s t) :
    scanEq i (case_F i s) (case_F i t) := by
  obtain ⟨⟨a1, a2, a3, a4, a5, a6, a7, a8, a9, a10, a11, a12, a13, a14, a15, a16, a17, a18⟩,
    g1, g2, g3⟩ := h
  simp [scanEq, sameLine, case_F, upd, a1, a2, a3, a4, a5, a6, a7, a8, a9, a10, a11, a12, a13,
      a14, a15, a16, g1, g2, g3]
  exact ⟨a17, a18⟩

/-- The switch taken for line `i` reads nothing but line `i` and the L2
flags, when its buffer reads stay inside the response buffer of line `i`. -/
theorem phaseB_indep (i : Nat) (s t : State) (h : scanEq i s t)
    (h6 : s.icw_pcf i = 0x6 → 0 ≤ s.BLU_rsp_ptr i ∧ s.BLU_rsp_ptr i < (BUFFER_SIZE : Int))
    (h7 : s.icw_pcf i = 0x7 → 2 ≤ s.BLU_rsp_ptr i ∧ s.BLU_rsp_ptr i < (BUFFER_SIZE : Int)) :
    scanEq i (phaseB i s) (phaseB i t) := by
  have e : t.icw_pcf i = s.icw_pcf i := h.1.2.2.2.1.symm
  unfold phaseB
  rw [e]
  by_cases c0 : s.icw_pcf i = 0x0
  · rw [if_pos c0, if_pos c0]; exact case_0_indep i s t h
  rw [if_neg c0, if_neg c0]
  by_cases c1 : s.icw_pcf i = 0x1
  · rw [if_pos c1, if_pos c1]; exact case_1_indep i s t h
  rw [if_neg c1, if_neg c1]
  by_cases c2 : s.icw_pcf i = 0x2
  · rw [if_pos c2, if_pos c2]; exact case_1_indep i s t h
  rw [if_neg c2, if_neg c2]
  by_cases c3 : s.icw_pcf i = 0x3
  · rw [if_pos c3, if_pos c3]; exact case_1_indep i s t h
  rw [if_neg c3, if_neg c3]
  by_cases c4 : s.icw_pcf i = 0x4
  · rw [if_pos c4, if_pos c4]; exact case_4_indep i s t h
  rw [if_neg c4, if_neg c4]
  by_cases c5 : s.icw_pcf i = 0x5
  · rw [if_pos c5, if_pos c5]; exact case_4_indep i s t h
  rw [if_neg c5, if_neg c5]
  by_cases c6 : s.icw_pcf i = 0x6
  · rw [if_pos c6, if_pos c6]; exact case_6_indep i s t h (h6 c6)
  rw [if_neg c6, if_neg c6]
  by_cases c7 : s.icw_pcf i = 0x7
  · rw [if_pos c7, if_pos c7]; exact case_7_indep i s t h (h7 c7)
  rw [if_neg c7, if_neg c7]
  by_cases c8 : s.icw_pcf i = 0x8
  · rw [if_pos c8, if_pos c8]; exact case_8_indep i s t h
  rw [if_neg c8, if_neg c8]
  by_cases c9 : s.icw_pcf i = 0x9
  · rw [if_pos c9, if_pos c9]; exact case_9_indep i s t h
  rw [if_neg c9, if_neg c9]
  by_cases cA : s.icw_pcf i = 0xA
  · rw [if_pos cA, if_pos cA]; unfold case_A; rw [ite_self, ite_self]; exact h
  rw [if_neg cA, if_neg cA]
  by_cases cB : s.icw_pcf i = 0xB
  · rw [if_pos cB, if_pos cB]; exact h
  rw [if_neg cB, if_neg cB]
  by_cases cC : s.icw_pcf i = 0xC
  · rw [if_pos cC, if_pos cC]; exact case_C_indep i s t h
  rw [if_neg cC, if_neg cC]
  by_cases cD : s.icw_pcf i = 0xD
  · rw [if_pos cD, if_pos cD]; exact h
  rw [if_neg cD, if_neg cD]
  by_cases cE : s.icw_pcf i = 0xE
  · rw [if_pos cE, if_pos cE]; exact h
  rw [if_neg cE, if_neg cE]
  by_cases cF : s.icw_pcf i = 0xF
  · rw [if_pos cF, if_pos cF]; exact case_F_indep i s t h
  rw [if_neg cF, if_neg cF]
  exact h

/-- The state a scan of line `i` returns agrees with the one it started in on
every other line, when its store stays inside the request buffer of line `i`. -/
theorem scanned_other (i j : Nat) (s : State) (hne : j ≠ i)
    (h9 : s.icw_pcf_nxt i = 0x9 → 0 ≤ s.BLU_req_ptr i ∧ s.BLU_req_ptr i < (BUFFER_SIZE : Int)) :
    sameLine j s (scanned i s) := by
  have hA := phaseA_other i j s hne
  have hB := phaseB_other i j (phaseA i s) hne (by
    rw [phaseA_pcf, (phaseA_frame i s).2.1]
    exact h9)
  have hAB := sameLine_trans j _ _ _ hA hB
  unfold scanned
  simp only
  split_ifs
  · exact sameLine_trans j _ _ _ hAB
      (sameLine_trans j _ _ _ (raiseL2_other i j _) (commit_other i j _ hne))
  · exact sameLine_trans j _ _ _ hAB (commit_other i j _ hne)

/-- Two scans of line `i` started in states that agree on line `i` and on the
L2 flags go the same way, when the buffer reads stay inside the response
buffer of line `i`. -/
theorem scanned_indep (i : Nat) (s t : State) (h : scanEq i s t)
    (h6 : s.icw_pcf_nxt i = 0x6 → 0 ≤ s.BLU_rsp_ptr i ∧ s.BLU_rsp_ptr i < (BUFFER_SIZE : Int))
    (h7 : s.icw_pcf_nxt i = 0x7 → 2 ≤ s.BLU_rsp_ptr i ∧ s.BLU_rsp_ptr i < (BUFFER_SIZE : Int)) :
    scanEq i (phaseB i (phaseA i s)) (phaseB i (phaseA i t)) ∧
    scanEq i (scanned i s) (scanned i t) := by
  have hA := phaseA_indep i s t h
  have hB := phaseB_indep i _ _ hA
    (by rw [phaseA_pcf, (phaseA_frame i s).2.2.2.2.2.1]; exact h6)
    (by rw [phaseA_pcf, (phaseA_frame i s).2.2.2.2.2.1]; exact h7)
  refine ⟨hB, ?_⟩
  have e : (phaseB i (phaseA i t)).CS2_req_L2_int = (phaseB i (phaseA i s)).CS2_req_L2_int :=
    hB.2.2.2.symm
  unfold scanned
  simp only [e]
  split_ifs
  · exact commit_indep i _ _ (raiseL2_indep i _ _ hB)
  · exact commit_indep i _ _ hB

/-- The transmit loop leaves the cells from the final request pointer on
untouched. -/
theorem txFeed_above (ccu : Nat → Bool) (fuel line : Nat) (feed : List (Nat × Int)) :
    ∀ s s1 : State, s.icw_lcd line = 0x9 → s.icw_pcf_nxt line = 0x9 →
      (∀ p ∈ feed, p.2 ≠ 2) → txFeed ccu fuel line feed s = some s1 →
      ∀ k : Int, idx line (s.BLU_req_ptr line) + (feed.length : Int) ≤ k →
        s1.BLU_req_buf k = s.BLU_req_buf k := by
  induction feed with
  | nil =>
    intro s s1 _ _ _ h k _
    simp only [txFeed, Option.some.injEq] at h
    rw [← h]
  | cons p rest ih =>
    intro s s1 hlcd hnxt hlv h k hk
    obtain ⟨b, lv⟩ := p
    have hlv0 : lv ≠ 2 := hlv (b, lv) (List.mem_cons_self _ _)
    obtain ⟨s', hs', hlcd', hnxt', _, hptr', hbuf', _⟩ :=
      scan9_feed ccu fuel line b lv s hlcd hnxt hlv0
    simp only [txFeed, hs'] at h
    simp only [List.length_cons, Nat.cast_add, Nat.cast_one] at hk
    have h1 := ih s' s1 hlcd' hnxt' (fun q hq => hlv q (List.mem_cons_of_mem _ hq)) h k
      (by rw [hptr', idx_add]; omega)
    rw [h1, hbuf']
    exact upd_ne _ _ (by omega)

theorem dcd_or (x m : Nat) (h : x &&& 0x08 = 0x08) : (x ||| m) &&& 0x08 = 0x08 := by
  apply Nat.eq_of_testBit_eq
  intro i
  have hi := congrArg (fun y => y.testBit i) h
  simp only [Nat.testBit_and, Nat.testBit_or] at hi ⊢
  cases hx : x.testBit i <;> cases hm : m.testBit i <;> cases h8 : (0x08 : Nat).testBit i <;>
    simp_all

theorem dcd_and (x m : Nat) (hm : m &&& 0x08 = 0x08) (h : x &&& 0x08 = 0x08) :
    (x &&& m) &&& 0x08 = 0x08 := by
  rw [Nat.and_assoc, hm, h]

/-- The switch keeps SCF bit `0x08`. -/
theorem phaseB_dcd (line : Nat) (s : State) (h : s.icw_scf line &&& 0x08 = 0x08) :
    (phaseB line s).icw_scf line &&& 0x08 = 0x08 := by
  apply phaseB_by_pcf (fun x => x.icw_scf line &&& 0x08 = 0x08)
  · intro _
    simp only [case_0, upd_same]
    exact dcd_and _ _ (by decide) h
  · intro _
    unfold case_1
    split_ifs <;>
    first
    | exact h
    | (simp only [upd_same]
       exact dcd_or _ _ h)
  · intro _
    unfold case_4
    simp only
    split_ifs <;>
    first
    | exact h
    | (simp only [upd_same]
       first
       | exact dcd_or _ _ (dcd_and _ _ (by decide) h)
       | exact dcd_and _ _ (by decide) h)
  · intro _
    unfold case_6
    simp only
    split_ifs <;>
    first
    | exact h
    | (simp only [upd_same]
       exact dcd_and _ _ (by decide) (dcd_or _ _ h))
  · intro _
    unfold case_7
    simp only
    split_ifs <;>
    first
    | exact h
    | (simp only [upd_same]
       exact dcd_or _ _ h)
  · intro _
    unfold case_8
    split_ifs <;>
    first
    | exact h
    | (simp only [upd_same]
       exact dcd_and _ _ (by decide) h)
  · intro _
    unfold case_9
    simp only
    split_ifs <;>
    first
    | exact h
    | (simp only [upd_same]
       exact dcd_or _ _ h)
  · intro _
    unfold case_C
    simp only
    split_ifs <;>
    first
    | exact h
    | (simp only [upd_same]
       exact dcd_or _ _ h)
  · intro _
    simp only [case_F, upd_same]
    exact dcd_or _ _ h
  · intro _; exact h

theorem and_FB_04 (x : Nat) : (x &&& 0xFB) &&& 0x04 = 0 := by
  rw [Nat.and_assoc]
  exact Nat.and_zero x

theorem or_08_and_04 (x : Nat) : (x ||| 0x08) &&& 0x04 = x &&& 0x04 := by
  apply Nat.eq_of_testBit_eq
  intro i
  simp only [Nat.testBit_and, Nat.testBit_or]
  by_cases h : (0x04 : Nat).testBit i = true
  · have h8 : (0x08 : Nat).testBit i = false := by
      have e4 : (0x04 : Nat) = 2 ^ 2 := rfl
      have e8 : (0x08 : Nat) = 2 ^ 3 := rfl
      rw [e4, Nat.testBit_two_pow] at h
      rw [e8, Nat.testBit_two_pow]
      simp only [decide_eq_true_eq] at h
      simp only [decide_eq_false_iff_not]
      omega
    rw [h8, Bool.or_false]
  · simp only [Bool.not_eq_true] at h
    rw [h, Bool.and_false, Bool.and_false]

theorem or_40_and_FB_40 (x : Nat) : ((x ||| 0x40) &&& 0xFB) &&& 0x40 = 0x40 := by
  rw [Nat.and_assoc]
  exact or_and_self_mask x 0x40

theorem L2_active_false_iff (s : State) :
    L2_active s = false ↔ s.svc_req_L2 = OFF ∧ s.lvl ≠ 2 := by
  unfold L2_active
  cases h : s.svc_req_L2 <;> simp

/-- The switch changes the line state of the line only when PCF 7 recognises
the end of a frame (to TX) or on first entry to PCF `0xC` with `lcd = 0x9` (to
RX), and never the line state of another line. -/
theorem phaseB_lne_stat (line : Nat) (a : State) :
    (∀ j, j ≠ line → (phaseB line a).icw_lne_stat j = a.icw_lne_stat j) ∧
    ((phaseB line a).icw_lne_stat line = a.icw_lne_stat line ∨
      (a.icw_pcf line = 0x7 ∧ L2_active a = false ∧ a.icw_lcd line = 0x9 ∧
        a.icw_pdf_reg line = EMPTY ∧
        a.BLU_rsp_buf (idx line (a.BLU_rsp_ptr line - 2)) = 0x47 ∧
        a.BLU_rsp_buf (idx line (a.BLU_rsp_ptr line - 1)) = 0x0F ∧
        a.BLU_rsp_buf (idx line (a.BLU_rsp_ptr line)) = 0x7E ∧
        (phaseB line a).icw_lne_stat line = TX) ∨
      (a.icw_pcf line = 0xC ∧ a.icw_lcd line = 0x9 ∧ a.icw_pcf_prev line ≠ a.icw_pcf line ∧
        (phaseB line a).icw_lne_stat line = RX)) := by
  apply phaseB_by_pcf (fun x =>
    (∀ j, j ≠ line → x.icw_lne_stat j = a.icw_lne_stat j) ∧
    (x.icw_lne_stat line = a.icw_lne_stat line ∨
      (a.icw_pcf line = 0x7 ∧ L2_active a = false ∧ a.icw_lcd line = 0x9 ∧
        a.icw_pdf_reg line = EMPTY ∧
        a.BLU_rsp_buf (idx line (a.BLU_rsp_ptr line - 2)) = 0x47 ∧
        a.BLU_rsp_buf (idx line (a.BLU_rsp_ptr line - 1)) = 0x0F ∧
        a.BLU_rsp_buf (idx line (a.BLU_rsp_ptr line)) = 0x7E ∧
        x.icw_lne_stat line = TX) ∨
      (a.icw_pcf line = 0xC ∧ a.icw_lcd line = 0x9 ∧ a.icw_pcf_prev line ≠ a.icw_pcf line ∧
        x.icw_lne_stat line = RX)))
  · intro _; exact ⟨fun _ _ => rfl, Or.inl rfl⟩
  · intro _; unfold case_1; split_ifs <;> exact ⟨fun _ _ => rfl, Or.inl rfl⟩
  · intro _; unfold case_4; simp only; split_ifs <;> exact ⟨fun _ _ => rfl, Or.inl rfl⟩
  · intro _; unfold case_6; simp only; split_ifs <;> exact ⟨fun _ _ => rfl, Or.inl rfl⟩
  · intro h7
    unfold case_7
    simp only
    split_ifs <;>
    first
    | exact ⟨fun _ _ => rfl, Or.inl rfl⟩
    | (refine ⟨fun j hj => upd_ne _ _ hj, Or.inr (Or.inl ?_)⟩
       simp_all [L2_active_false_iff])
  · intro _; unfold case_8; split_ifs <;> exact ⟨fun _ _ => rfl, Or.inl rfl⟩
  · intro _; unfold case_9; simp only; split_ifs <;> exact ⟨fun _ _ => rfl, Or.inl rfl⟩
  · intro hC
    unfold case_C
    simp only
    split_ifs with hl hf
    · exact ⟨fun j hj => upd_ne _ _ hj, Or.inr (Or.inr ⟨hC, hl, hf, upd_same _ _ _⟩)⟩
    · exact ⟨fun _ _ => rfl, Or.inl rfl⟩
    · exact ⟨fun _ _ => rfl, Or.inl rfl⟩
  · intro _; exact ⟨fun _ _ => rfl, Or.inl rfl⟩
  · intro _; exact ⟨fun _ _ => rfl, Or.inl rfl⟩

/-- When the CCU ends every wait, the scans return the states of `runTrace`. -/
theorem runScans_trace (ccu : Nat → Bool) (fuel line : Nat)
    (hccu : ∃ n, n < fuel ∧ ccu n = true) (acts : List (State → State)) :
    ∀ s : State, runScans ccu fuel line acts s = some ((runTrace line acts s).map Prod.snd) := by
  induction acts with
  | nil => intro s; rfl
  | cons a rest ih =>
    intro s
    simp only [runScans, runTrace, List.map_cons,
      scanLine_of_clears ccu fuel line (a s) (Or.inr hccu), ih (scanned line (a s))]

theorem runTrace_length (line : Nat) (acts : List (State → State)) :
    ∀ s : State, (runTrace line acts s).length = acts.length := by
  induction acts with
  | nil => intro s; rfl
  | cons a rest ih => intro s; simp only [runTrace, List.length_cons, ih]

/-- An invariant of the scans and of the actions holds along a run. -/
theorem runTrace_inv (line : Nat) (P Q : State → Prop)
    (hstep : ∀ s, P s → Q s → P (scanned line s)) (acts : List (State → State)) :
    ∀ s0 : State, (∀ a ∈ acts, ∀ s, P s → P (a s)) → P s0 →
      (∀ p ∈ runTrace line acts s0, Q p.1) →
      ∀ p ∈ runTrace line acts s0, P p.1 ∧ P p.2 ∧ p.2 = scanned line p.1 := by
  induction acts with
  | nil =>
    intro s0 _ _ _ p hp
    simp [runTrace] at hp
  | cons a rest ih =>
    intro s0 henv h0 hq p hp
    have ha : P (a s0) := henv a (List.mem_cons_self _ _) s0 h0
    have hqa : Q (a s0) := hq (a s0, scanned line (a s0)) (by simp [runTrace])
    have hs : P (scanned line (a s0)) := hstep _ ha hqa
    simp only [runTrace, List.mem_cons] at hp
    rcases hp with rfl | hp
    · exact ⟨ha, hs, rfl⟩
    · exact ih (scanned line (a s0)) (fun b hb => henv b (List.mem_cons_of_mem _ hb)) hs
        (fun q hq2 => hq q (by simp only [runTrace, List.mem_cons]; exact Or.inr hq2)) p hp

/-- A scan of PCF 6: gated, it leaves the response pointer and `pcf_nxt`
alone; otherwise it advances the pointer by one and stays in PCF 6 exactly when
the byte taken is `7E`. -/
theorem scanned_rx6 (line : Nat) (s : State) (h6 : s.icw_pcf_nxt line = 0x6) :
    (scanned line s).BLU_rsp_buf = s.BLU_rsp_buf ∧
    (((s.svc_req_L2 = ON ∨ s.lvl = 2) ∧
        (scanned line s).BLU_rsp_ptr line = s.BLU_rsp_ptr line ∧
        (scanned line s).icw_pcf_nxt line = 0x6) ∨
      ((s.svc_req_L2 = OFF ∧ s.lvl ≠ 2) ∧
        (scanned line s).BLU_rsp_ptr line = s.BLU_rsp_ptr line + 1 ∧
        ((s.BLU_rsp_buf (idx line (s.BLU_rsp_ptr line)) = 0x7E ∧
            (scanned line s).icw_pcf_nxt line = 0x6) ∨
          (s.BLU_rsp_buf (idx line (s.BLU_rsp_ptr line)) ≠ 0x7E ∧
            (scanned line s).icw_pcf_nxt line = 0x7)))) := by
  have hs : s.svc_req_L2 = ON ∨ s.svc_req_L2 = OFF := by
    cases s.svc_req_L2 <;> simp
  by_cases hc : s.icw_pcf line = 0x6 <;> rcases hs with hsvc | hsvc <;>
    by_cases hlvl : s.lvl = 2 <;>
    by_cases hb : s.BLU_rsp_buf (idx line (s.BLU_rsp_ptr line)) = 0x7E <;>
    by_cases hq : (phaseB line (phaseA line s)).CS2_req_L2_int = ON <;>
    simp [scanned, hq] <;>
    simp [phaseB, phaseA, case_6, L2_active, commit, raiseL2, h6, hc, hsvc, hlvl, hb]

/-- A scan of PCF 7 leaves the response memory alone, goes on with PCF 6 or 7
and leaves the response pointer alone or advances it by one. -/
theorem scanned_rx7 (line : Nat) (s : State) (h7 : s.icw_pcf_nxt line = 0x7) :
    (scanned line s).BLU_rsp_buf = s.BLU_rsp_buf ∧
    ((scanned line s).icw_pcf_nxt line = 0x6 ∨ (scanned line s).icw_pcf_nxt line = 0x7) ∧
    ((scanned line s).BLU_rsp_ptr line = s.BLU_rsp_ptr line ∨
      (scanned line s).BLU_rsp_ptr line = s.BLU_rsp_ptr line + 1) := by
  obtain ⟨_, _, _, _, f5, f6, _, _, _, _, _, _, _, _, f15, _⟩ := scanned_frame line s
  obtain ⟨_, _, _, _, a5, a6, _⟩ := phaseA_frame line s
  have hp : (phaseA line s).icw_pcf line = 0x7 := by rw [phaseA_pcf, h7]
  have hn : (phaseA line s).icw_pcf_nxt line = 0x7 := by rw [phaseA_nxt, h7]
  have hB : phaseB line (phaseA line s) = case_7 line (phaseA line s) := by
    simp [phaseB, hp]
  have key : ∀ a : State, a.icw_pcf_nxt line = 0x7 →
      (case_7 line a).BLU_rsp_buf = a.BLU_rsp_buf ∧
      ((case_7 line a).icw_pcf_nxt line = 0x6 ∨ (case_7 line a).icw_pcf_nxt line = 0x7) ∧
      ((case_7 line a).BLU_rsp_ptr line = a.BLU_rsp_ptr line ∨
        (case_7 line a).BLU_rsp_ptr line = a.BLU_rsp_ptr line + 1) := by
    intro a ha
    unfold case_7
    simp only
    split_ifs <;> simp [ha]
  have k := key (phaseA line s) hn
  rw [a5, a6] at k
  rw [f5, f6, f15, hB]
  exact k

/-- A scan keeps the invariant of the receive side. -/
theorem scanned_rxInv (line : Nat) (s : State) (h : rxInv line s) :
    rxInv line (scanned line s) ∧ s.BLU_rsp_ptr line ≤ (scanned line s).BLU_rsp_ptr line := by
  unfold rxInv at h ⊢
  rcases h with ⟨h6, hp⟩ | ⟨h7, hp⟩
  · obtain ⟨hbuf, hcase⟩ := scanned_rx6 line s h6
    rcases hcase with ⟨_, e1, e2⟩ | ⟨_, e1, e3⟩
    · rw [e1, e2, hbuf]
      exact ⟨Or.inl ⟨rfl, hp⟩, le_refl _⟩
    · rw [e1]
      refine ⟨?_, by omega⟩
      rcases hp with ⟨p0, b0⟩ | p1
      · rcases e3 with ⟨_, e2⟩ | ⟨hb, _⟩
        · rw [e2]
          exact Or.inl ⟨rfl, Or.inr (by omega)⟩
        · rw [p0] at hb
          exact absurd b0 hb
      · rcases e3 with ⟨_, e2⟩ | ⟨_, e2⟩
        · rw [e2]
          exact Or.inl ⟨rfl, Or.inr (by omega)⟩
        · rw [e2]
          exact Or.inr ⟨rfl, by omega⟩
  · obtain ⟨_, hn, hptr⟩ := scanned_rx7 line s h7
    rcases hn with e2 | e2 <;> rcases hptr with e1 | e1 <;> rw [e1, e2]
    · exact ⟨Or.inl ⟨rfl, Or.inr (by omega)⟩, le_refl _⟩
    · exact ⟨Or.inl ⟨rfl, Or.inr (by omega)⟩, by omega⟩
    · exact ⟨Or.inr ⟨rfl, hp⟩, le_refl _⟩
    · exact ⟨Or.inr ⟨rfl, by omega⟩, by omega⟩

/-- A scan leaves the request pointer of the line alone, resets it to 0 (PCF
`0xC`), or advances it by one when it appends a byte (PCF 9). -/
theorem scanned_req_ptr (line : Nat) (s : State) :
    (scanned line s).BLU_req_ptr line = s.BLU_req_ptr line ∨
    (scanned line s).BLU_req_ptr line = 0 ∨
    (stores9 line s ∧ (scanned line s).BLU_req_ptr line = s.BLU_req_ptr line + 1) := by
  obtain ⟨_, f2, _⟩ := scanned_frame line s
  obtain ⟨_, a2, _, _, _, _, _, _, _, a10, a11, _⟩ := phaseA_frame line s
  have hp : (phaseA line s).icw_pcf line = s.icw_pcf_nxt line := phaseA_pcf line s
  have hg : L2_active (phaseA line s) = L2_active s := by
    unfold L2_active
    rw [phaseA_svc, phaseA_lvl]
  have key : ∀ a : State,
      (phaseB line a).BLU_req_ptr line = a.BLU_req_ptr line ∨
      (phaseB line a).BLU_req_ptr line = 0 ∨
      ((a.icw_pcf line = 0x9 ∧ a.icw_lcd line = 0x9 ∧ a.icw_pdf_reg line = FILLED ∧
          L2_active a = false) ∧
        (phaseB line a).BLU_req_ptr line = a.BLU_req_ptr line + 1) := by
    intro a
    apply phaseB_by_pcf (fun x =>
      x.BLU_req_ptr line = a.BLU_req_ptr line ∨ x.BLU_req_ptr line = 0 ∨
      ((a.icw_pcf line = 0x9 ∧ a.icw_lcd line = 0x9 ∧ a.icw_pdf_reg line = FILLED ∧
          L2_active a = false) ∧
        x.BLU_req_ptr line = a.BLU_req_ptr line + 1))
    · intro _; exact Or.inl rfl
    · intro _; unfold case_1; split_ifs <;> exact Or.inl rfl
    · intro _; unfold case_4; simp only; split_ifs <;> exact Or.inl rfl
    · intro _; unfold case_6; simp only; split_ifs <;> exact Or.inl rfl
    · intro _; unfold case_7; simp only; split_ifs <;> exact Or.inl rfl
    · intro _; unfold case_8; split_ifs <;> exact Or.inl rfl
    · intro h9
      unfold case_9
      simp only
      split_ifs with hgate hl hr
      · exact Or.inl rfl
      · exact Or.inr (Or.inr ⟨⟨h9, hl, hr, by simpa using hgate⟩, upd_same _ _ _⟩)
      · exact Or.inl (upd_same _ _ _)
      · exact Or.inl rfl
    · intro _; unfold case_C; simp only; split_ifs <;> simp
    · intro _; exact Or.inl rfl
    · intro _; exact Or.inl rfl
  have k := key (phaseA line s)
  rw [hp, hg, a2, a10, a11, L2_active_false_iff] at k
  rw [f2]
  rcases k with k | k | ⟨⟨k9, kl, kr, ks, kv⟩, k⟩
  · exact Or.inl k
  · exact Or.inr (Or.inl k)
  · exact Or.inr (Or.inr ⟨⟨k9, kl, kr, ks, kv⟩, k⟩)

/-! ## The claims -/

/-- C1. PCF C turnaround: on a line with `lcd = 0x9` to which the NCP has just
written PCF `0xC` (`pcf_nxt = 0xC`, `pcf ≠ 0xC`), one scan of the line, whose
wait for the CCU ends, returns a state in which `BLU_req_len` is the former
request pointer, `BLU_req_stat` is FILLED, the request pointer is 0, the line
state is RX, SCF bit `0x40` is set, an L2 interrupt has been raised
(`svc_req_L2 = ON` with `abar_int = 0x020 + line`) and `pcf = pcf_nxt = 5`. -/
theorem C1_pcfC_turnaround (ccu : Nat → Bool) (fuel line : Nat) (s : State)
    (hlcd : s.icw_lcd line = 0x9) (hnxt : s.icw_pcf_nxt line = 0xC)
    (hpcf : s.icw_pcf line ≠ 0xC) (hccu : ccuClears ccu fuel s) :
    ∃ s', scanLine ccu fuel line s = some s' ∧
      s'.BLU_req_len line = s.BLU_req_ptr line ∧
      s'.BLU_req_stat line = FILLED ∧
      s'.BLU_req_ptr line = 0 ∧
      s'.icw_lne_stat line = RX ∧
      s'.icw_scf line &&& 0x40 = 0x40 ∧
      L2_requested line s = true ∧
      s'.svc_req_L2 = ON ∧
      s'.abar_int = (line : Int) + 0x020 ∧
      s'.icw_pcf line = 5 ∧
      s'.icw_pcf_nxt line = 5 := by
  refine ⟨scanned line s, scanLine_of_clears ccu fuel line s hccu, ?_⟩
  simp [scanned, L2_requested, phaseB, phaseA, case_C, commit, raiseL2, hlcd, hnxt, hpcf,
    or_and_self_mask]

/-- Witness of C1: line 0 after initialisation, SDLC selected, PCF `0xC` written. -/
theorem C1_pcfC_turnaround_witness :
    exC.icw_lcd 0 = 0x9 ∧ exC.icw_pcf_nxt 0 = 0xC ∧ exC.icw_pcf 0 ≠ 0xC ∧
    ccuClears ccuPrompt 1 exC ∧
    ∃ s', scanLine ccuPrompt 1 0 exC = some s' ∧
      s'.BLU_req_len 0 = exC.BLU_req_ptr 0 ∧
      s'.BLU_req_stat 0 = FILLED ∧
      s'.BLU_req_ptr 0 = 0 ∧
      s'.icw_lne_stat 0 = RX ∧
      s'.icw_scf 0 &&& 0x40 = 0x40 ∧
      L2_requested 0 exC = true ∧
      s'.svc_req_L2 = ON ∧
      s'.abar_int = ((0 : Nat) : Int) + 0x020 ∧
      s'.icw_pcf 0 = 5 ∧
      s'.icw_pcf_nxt 0 = 5 :=
  ⟨by decide, by decide, by decide, Or.inl rfl,
    C1_pcfC_turnaround ccuPrompt 1 0 exC (by decide) (by decide) (by decide) (Or.inl rfl)⟩

/-- C4. PCF 7 end of frame: on a line with `pcf = pcf_nxt = 7`, `lcd = 0x9`,
`pdf_reg = EMPTY`, no L2 pending, CCU level not 2 and response pointer
`p ≥ 2` with `rsp[p-2] = 0x47`, `rsp[p-1] = 0x0F`, `rsp[p] = 0x7E`, one scan
returns a state with `BLU_rsp_stat = EMPTY`, line state TX, SCF bits `0x44`
set, an L2 interrupt raised, response pointer `p + 1` and `pcf = pcf_nxt = 6`. -/
theorem C4_pcf7_end_of_frame (ccu : Nat → Bool) (fuel line : Nat) (s : State) (p : Int)
    (hpcf : s.icw_pcf line = 0x7) (hnxt : s.icw_pcf_nxt line = 0x7)
    (hlcd : s.icw_lcd line = 0x9) (hreg : s.icw_pdf_reg line = EMPTY)
    (hsvc : s.svc_req_L2 = OFF) (hlvl : s.lvl ≠ 2)
    (hp : s.BLU_rsp_ptr line = p) (hp2 : 2 ≤ p)
    (h47 : s.BLU_rsp_buf (idx line (p - 2)) = 0x47)
    (h0F : s.BLU_rsp_buf (idx line (p - 1)) = 0x0F)
    (h7E : s.BLU_rsp_buf (idx line p) = 0x7E) :
    ∃ s', scanLine ccu fuel line s = some s' ∧
      s'.BLU_rsp_stat line = EMPTY ∧
      s'.icw_lne_stat line = TX ∧
      s'.icw_scf line &&& 0x44 = 0x44 ∧
      L2_requested line s = true ∧
      s'.svc_req_L2 = ON ∧
      s'.abar_int = (line : Int) + 0x020 ∧
      s'.BLU_rsp_ptr line = p + 1 ∧
      s'.icw_pcf line = 6 ∧
      s'.icw_pcf_nxt line = 6 := by
  have _ := hp2
  refine ⟨scanned line s, scanLine_of_clears ccu fuel line s (Or.inl hsvc), ?_⟩
  simp [scanned, L2_requested, phaseB, phaseA, case_7, L2_active, commit, raiseL2, hpcf, hnxt,
    hlcd, hreg, hsvc, hlvl, hp, h47, h0F, h7E, or_and_self_mask]

/-- Witness of C4: line 1 holding `7E C1 73 47 0F 7E` with response pointer 5. -/
theorem C4_pcf7_end_of_frame_witness :
    (ex7.icw_pcf 1 = 0x7 ∧ ex7.icw_pcf_nxt 1 = 0x7 ∧ ex7.icw_lcd 1 = 0x9 ∧
      ex7.icw_pdf_reg 1 = EMPTY ∧ ex7.svc_req_L2 = OFF ∧ ex7.lvl ≠ 2 ∧
      ex7.BLU_rsp_ptr 1 = 5 ∧ (2 : Int) ≤ 5 ∧ ex7.BLU_rsp_buf (idx 1 (5 - 2)) = 0x47 ∧
      ex7.BLU_rsp_buf (idx 1 (5 - 1)) = 0x0F ∧ ex7.BLU_rsp_buf (idx 1 5) = 0x7E) ∧
    ∃ s', scanLine ccuStuck 0 1 ex7 = some s' ∧
      s'.BLU_rsp_stat 1 = EMPTY ∧
      s'.icw_lne_stat 1 = TX ∧
      s'.icw_scf 1 &&& 0x44 = 0x44 ∧
      L2_requested 1 ex7 = true ∧
      s'.svc_req_L2 = ON ∧
      s'.abar_int = ((1 : Nat) : Int) + 0x020 ∧
      s'.BLU_rsp_ptr 1 = 5 + 1 ∧
      s'.icw_pcf 1 = 6 ∧
      s'.icw_pcf_nxt 1 = 6 :=
  ⟨by decide,
    C4_pcf7_end_of_frame ccuStuck 0 1 ex7 5 (by decide) (by decide) (by decide) (by decide)
      (by decide) (by decide) (by decide) (by decide) (by decide) (by decide) (by decide)⟩

/-- Counterexample to C6 as stated: line 0 is in PCF 0 with line state RX (it
got there through PCF `0xC` and PCF `0xF`); the NCP writes PCF 0
(`pcf_nxt = 0`); the next scan leaves the line state RX, not RESET. -/
theorem C6_counterexample :
    exPcf0.icw_pcf_nxt 0 = 0 ∧ exPcf0.icw_pcf 0 = 0 ∧ exPcf0.icw_lne_stat 0 = RX ∧
    scanLine ccuPrompt 1 0 exPcf0 = some (scanned 0 exPcf0) ∧
    (scanned 0 exPcf0).icw_lne_stat 0 = RX ∧
    (scanned 0 exPcf0).icw_lne_stat 0 ≠ RESET :=
  ⟨by decide, by decide, by decide,
    scanLine_of_clears ccuPrompt 1 0 exPcf0 (Or.inl (by decide)), by decide, by decide⟩

/-- C6, amended. Once the NCP has written PCF 0 (`pcf_nxt = 0`), the next scan
of the line returns a state with `BLU_req_stat = BLU_rsp_stat = EMPTY` and with
no SCF bit outside the mask `0x4A`; the line state is RESET when the PCF was not
0 already (`pcf ≠ pcf_nxt`), and is unchanged when it was. -/
theorem C6_pcf0_reset (ccu : Nat → Bool) (fuel line : Nat) (s : State)
    (hnxt : s.icw_pcf_nxt line = 0x0)
    (hret : s.CS2_req_L2_int = OFF ∨ ccuClears ccu fuel s) :
    ∃ s', scanLine ccu fuel line s = some s' ∧
      s'.BLU_req_stat line = EMPTY ∧
      s'.BLU_rsp_stat line = EMPTY ∧
      s'.icw_scf line &&& 0x4A = s'.icw_scf line ∧
      (s.icw_pcf line ≠ 0x0 → s'.icw_lne_stat line = RESET) ∧
      (s.icw_pcf line = 0x0 → s'.icw_lne_stat line = s.icw_lne_stat line) := by
  have hs : scanLine ccu fuel line s = some (scanned line s) := by
    rcases hret with hq | hc
    · apply scanLine_of_quiet
      by_cases h0 : s.icw_pcf line = 0 <;>
        simp [L2_requested, phaseB, phaseA, case_0, hnxt, h0, hq]
    · exact scanLine_of_clears ccu fuel line s hc
  refine ⟨scanned line s, hs, ?_⟩
  by_cases h0 : s.icw_pcf line = 0 <;>
    by_cases hq : s.CS2_req_L2_int = true <;>
    simp [scanned, phaseB, phaseA, case_0, commit, raiseL2, hnxt, h0, hq, Nat.and_assoc]

/-- Witness of C6, amended: line 0 after initialisation (PCF `0xE`), PCF 0 written. -/
theorem C6_pcf0_reset_witness :
    (init0.icw_pcf_nxt 0 = 0x0 ∧ (init0.CS2_req_L2_int = OFF ∨ ccuClears ccuStuck 0 init0)) ∧
    ∃ s', scanLine ccuStuck 0 0 init0 = some s' ∧
      s'.BLU_req_stat 0 = EMPTY ∧
      s'.BLU_rsp_stat 0 = EMPTY ∧
      s'.icw_scf 0 &&& 0x4A = s'.icw_scf 0 ∧
      (init0.icw_pcf 0 ≠ 0x0 → s'.icw_lne_stat 0 = RESET) ∧
      (init0.icw_pcf 0 = 0x0 → s'.icw_lne_stat 0 = init0.icw_lne_stat 0) :=
  ⟨⟨by decide, Or.inl rfl⟩, C6_pcf0_reset ccuStuck 0 0 init0 (by decide) (Or.inl rfl)⟩

/-- C7. PCF 0 idempotence: on a line with `pcf_nxt = 0` (and no L2 request left
over in `CS2_req_L2_int`, as after every scan), a scan returns a state `s1`, a
second scan of the line returns the very same state `s1`, neither scan requests
an L2 interrupt, and `svc_req_L2` and `abar_int` stay as they were. -/
theorem C7_pcf0_idempotent (ccu ccu2 : Nat → Bool) (fuel fuel2 line : Nat) (s : State)
    (hnxt : s.icw_pcf_nxt line = 0x0) (hq : s.CS2_req_L2_int = OFF) :
    ∃ s1, scanLine ccu fuel line s = some s1 ∧
      scanLine ccu2 fuel2 line s1 = some s1 ∧
      L2_requested line s = false ∧
      L2_requested line s1 = false ∧
      s1.svc_req_L2 = s.svc_req_L2 ∧
      s1.abar_int = s.abar_int := by
  have hL : ∀ x : State, x.icw_pcf_nxt line = 0x0 → x.CS2_req_L2_int = OFF →
      L2_requested line x = false := by
    intro x hx hxq
    by_cases h0 : x.icw_pcf line = 0 <;>
      simp [L2_requested, phaseB, phaseA, case_0, hx, h0, hxq]
  have e1 := scanned_pcf0 line s hnxt hq
  have hn1 : (scanned line s).icw_pcf_nxt line = 0x0 := by rw [e1]; exact hnxt
  have hq1 : (scanned line s).CS2_req_L2_int = OFF := by rw [e1]; exact hq
  have e2 := scanned_pcf0 line (scanned line s) hn1 hq1
  have hfix : scanned line (scanned line s) = scanned line s := by
    rw [e2]
    rw [e1]
    simp [dcd_mask_stable]
  refine ⟨scanned line s, scanLine_of_quiet ccu fuel line s (hL s hnxt hq), ?_, hL s hnxt hq,
    hL _ hn1 hq1, ?_, ?_⟩
  · rw [scanLine_of_quiet ccu2 fuel2 line _ (hL _ hn1 hq1), hfix]
  · rw [e1]
  · rw [e1]

/-- Witness of C7: line 0 after initialisation (PCF `0xE`, `pcf_nxt = 0`). -/
theorem C7_pcf0_idempotent_witness :
    (init0.icw_pcf_nxt 0 = 0x0 ∧ init0.CS2_req_L2_int = OFF) ∧
    ∃ s1, scanLine ccuStuck 0 0 init0 = some s1 ∧
      scanLine ccuStuck 0 0 s1 = some s1 ∧
      L2_requested 0 init0 = false ∧
      L2_requested 0 s1 = false ∧
      s1.svc_req_L2 = init0.svc_req_L2 ∧
      s1.abar_int = init0.abar_int :=
  ⟨by decide, C7_pcf0_idempotent ccuStuck ccuStuck 0 0 0 init0 (by decide) (by decide)⟩

/-- C8. PCF convergence: every scan of a line that returns leaves
`pcf = pcf_nxt` and `pcf_prev` equal to the PCF value on which the switch was
taken (the value left by the observation of the NCP write, `pcf_nxt` at the
start of the scan); at the next scan, if the NCP has not written in between,
the observation of NCP writes changes neither `pcf_prev` nor `pcf`, so that
the first-entry test `pcf_prev != pcf` holds there exactly when this scan moved
the PCF away from the value whose handler ran. -/
theorem C8_pcf_convergence (ccu : Nat → Bool) (fuel line : Nat) (s : State)
    (hret : scanEnds ccu fuel line s) :
    ∃ s', scanLine ccu fuel line s = some s' ∧
      s'.icw_pcf line = s'.icw_pcf_nxt line ∧
      s'.icw_pcf_prev line = (phaseA line s).icw_pcf line ∧
      (phaseA line s').icw_pcf_prev line = s'.icw_pcf_prev line ∧
      (phaseA line s').icw_pcf line = s'.icw_pcf line ∧
      ((phaseA line s').icw_pcf_prev line ≠ (phaseA line s').icw_pcf line ↔
        s'.icw_pcf line ≠ (phaseA line s).icw_pcf line) := by
  refine ⟨scanned line s, scanLine_of_ends ccu fuel line s hret, ?_⟩
  have hpcf : (scanned line s).icw_pcf line = (scanned line s).icw_pcf_nxt line := by
    unfold scanned
    simp only
    split_ifs
    · rw [commit_pcf, commit_nxt]
    · rw [commit_pcf, commit_nxt]
  have hprev : (scanned line s).icw_pcf_prev line = (phaseA line s).icw_pcf line := by
    unfold scanned
    simp only
    split_ifs
    · rw [commit_prev]
      show (phaseB line (phaseA line s)).icw_pcf line = _
      rw [phaseB_pcf]
    · rw [commit_prev, phaseB_pcf]
  have hA : phaseA line (scanned line s) =
      { scanned line s with
        icw_scf := upd (scanned line s).icw_scf line ((scanned line s).icw_scf line ||| 0x08) } := by
    unfold phaseA
    simp only [hpcf, ne_eq, not_true_eq_false, if_false]
  refine ⟨hpcf, hprev, ?_, ?_, ?_⟩
  · rw [hA]
  · rw [hA]
  · rw [hA]
    show (scanned line s).icw_pcf_prev line ≠ (scanned line s).icw_pcf line ↔ _
    rw [hprev]
    exact ⟨fun h => Ne.symm h, fun h => Ne.symm h⟩

/-- Witness of C8: the scan of PCF `0xC` on line 0 (it moves the line to PCF 5). -/
theorem C8_pcf_convergence_witness :
    scanEnds ccuPrompt 1 0 exC ∧
    ∃ s', scanLine ccuPrompt 1 0 exC = some s' ∧
      s'.icw_pcf 0 = s'.icw_pcf_nxt 0 ∧
      s'.icw_pcf_prev 0 = (phaseA 0 exC).icw_pcf 0 ∧
      (phaseA 0 s').icw_pcf_prev 0 = s'.icw_pcf_prev 0 ∧
      (phaseA 0 s').icw_pcf 0 = s'.icw_pcf 0 ∧
      ((phaseA 0 s').icw_pcf_prev 0 ≠ (phaseA 0 s').icw_pcf 0 ↔
        s'.icw_pcf 0 ≠ (phaseA 0 exC).icw_pcf 0) :=
  ⟨Or.inr (Or.inl rfl), C8_pcf_convergence ccuPrompt 1 0 exC (Or.inr (Or.inl rfl))⟩

/-- C9. L2 exclusion: when a scan of a line returns and has requested an L2
interrupt, the wait loop has been left with `svc_req_L2` read as OFF (the flag
was off already or the CCU cleared it during one of the sleeps), and the
assignment `svc_req_L2 = ON` is made in that state; when the scan has requested
no L2 interrupt it leaves `svc_req_L2` as it was.  So no scan sets the flag
while it is ON. -/
theorem C9_L2_exclusion (ccu : Nat → Bool) (fuel line : Nat) (s s' : State)
    (hret : scanLine ccu fuel line s = some s') :
    (L2_requested line s = true →
      ccuClears ccu fuel s ∧
      waitL2 ccu fuel 0 (phaseB line (phaseA line s)).svc_req_L2 = some OFF ∧
      s' = commit line (raiseL2 line { phaseB line (phaseA line s) with svc_req_L2 := OFF }) ∧
      s'.svc_req_L2 = ON) ∧
    (L2_requested line s = false → s'.svc_req_L2 = s.svc_req_L2) := by
  constructor
  · intro hreq
    have hq : (phaseB line (phaseA line s)).CS2_req_L2_int = ON := hreq
    unfold scanLine phaseC at hret
    simp only [hq, if_true] at hret
    cases hw : waitL2 ccu fuel 0 (phaseB line (phaseA line s)).svc_req_L2 with
    | none => simp [hw] at hret
    | some v =>
      have hv : v = OFF := waitL2_exit ccu fuel 0 _ v hw
      subst hv
      simp only [hw, Option.some.injEq] at hret
      refine ⟨?_, rfl, hret.symm, ?_⟩
      · rw [phaseB_svc, phaseA_svc] at hw
        rcases waitL2_some_clears ccu fuel 0 _ _ hw with h | ⟨n, hn, hc⟩
        · exact Or.inl h
        · exact Or.inr ⟨n, hn, by simpa using hc⟩
      · rw [← hret, commit_svc]
        rfl
  · intro hreq
    have hs := scanLine_some ccu fuel line s s' hret
    have hq : (phaseB line (phaseA line s)).CS2_req_L2_int = OFF := hreq
    rw [hs]
    unfold scanned
    simp only [hq, Bool.false_eq_true, if_false]
    rw [commit_svc, phaseB_svc, phaseA_svc]

/-- Witness of C9: PCF `0xC` is scanned on line 0 while an L2 interrupt is
pending; the CCU clears the flag during the third sleep. -/
theorem C9_L2_exclusion_witness :
    scanLine ccuLate 5 0 exCpending = some (scanned 0 exCpending) ∧
    ((L2_requested 0 exCpending = true →
      ccuClears ccuLate 5 exCpending ∧
      waitL2 ccuLate 5 0 (phaseB 0 (phaseA 0 exCpending)).svc_req_L2 = some OFF ∧
      scanned 0 exCpending =
        commit 0 (raiseL2 0 { phaseB 0 (phaseA 0 exCpending) with svc_req_L2 := OFF }) ∧
      (scanned 0 exCpending).svc_req_L2 = ON) ∧
    (L2_requested 0 exCpending = false →
      (scanned 0 exCpending).svc_req_L2 = exCpending.svc_req_L2)) :=
  ⟨scanLine_of_clears ccuLate 5 0 exCpending (Or.inr ⟨2, by decide, rfl⟩),
    C9_L2_exclusion ccuLate 5 0 exCpending (scanned 0 exCpending)
      (scanLine_of_clears ccuLate 5 0 exCpending (Or.inr ⟨2, by decide, rfl⟩))⟩

/-- C10. L2 attribution: every scan of line `line` that returns leaves the
scanner's request flag `CS2_req_L2_int` OFF; when it has raised an L2 interrupt
it leaves `abar_int = 0x020 + line` and `svc_req_L2 = ON`; when it has raised
none it leaves `abar_int` and `svc_req_L2` as they were, so the request of one
line is never reported under the index of another. -/
theorem C10_L2_attribution (ccu : Nat → Bool) (fuel line : Nat) (s : State)
    (hret : scanEnds ccu fuel line s) :
    ∃ s', scanLine ccu fuel line s = some s' ∧
      s'.CS2_req_L2_int = OFF ∧
      (L2_requested line s = true →
        s'.abar_int = (line : Int) + 0x020 ∧ s'.svc_req_L2 = ON) ∧
      (L2_requested line s = false →
        s'.abar_int = s.abar_int ∧ s'.svc_req_L2 = s.svc_req_L2) := by
  refine ⟨scanned line s, scanLine_of_ends ccu fuel line s hret, ?_, ?_, ?_⟩
  · unfold scanned
    simp only
    split_ifs with hq
    · rw [commit_CS2]
      rfl
    · rw [commit_CS2]
      simpa using hq
  · intro hreq
    have hq : (phaseB line (phaseA line s)).CS2_req_L2_int = ON := hreq
    unfold scanned
    simp only [hq, if_true]
    rw [commit_abar, commit_svc]
    exact ⟨rfl, rfl⟩
  · intro hreq
    have hq : (phaseB line (phaseA line s)).CS2_req_L2_int = OFF := hreq
    unfold scanned
    simp only [hq, Bool.false_eq_true, if_false]
    rw [commit_abar, commit_svc, phaseB_abar, phaseA_abar, phaseB_svc, phaseA_svc]
    exact ⟨rfl, rfl⟩

/-- Witness of C10: the scan of PCF `0xC` on line 0. -/
theorem C10_L2_attribution_witness :
    scanEnds ccuPrompt 1 0 exC ∧
    ∃ s', scanLine ccuPrompt 1 0 exC = some s' ∧
      s'.CS2_req_L2_int = OFF ∧
      (L2_requested 0 exC = true →
        s'.abar_int = ((0 : Nat) : Int) + 0x020 ∧ s'.svc_req_L2 = ON) ∧
      (L2_requested 0 exC = false →
        s'.abar_int = exC.abar_int ∧ s'.svc_req_L2 = exC.svc_req_L2) :=
  ⟨Or.inr (Or.inl rfl), C10_L2_attribution ccuPrompt 1 0 exC (Or.inr (Or.inl rfl))⟩

/-- C2. Byte-preserving round trip: on a line with `lcd = 0x9` and request
pointer 0 that is scanned in PCF 9, let the NCP supply the bytes
`b0, b1, …, bk` (at most 16384 of them), one before each scan, each scan
finding no L2 pending and a CCU level other than 2, and let it then write PCF
`0xC`.  The scans all return; after the scan of PCF `0xC` (whose wait the CCU
ends) `BLU_req_len` is `k + 1`, the request buffer holds `b0 … bk` from offset
0, it is FILLED, and with a peer connected `SendSDLC` hands to `send` exactly
`b0 … bk`, without `b0` when `b0` is `0x00` or `0xAA`. -/
theorem C2_round_trip (ccu : Nat → Bool) (fuel line : Nat) (b0 : Nat) (lv0 : Int)
    (rest : List (Nat × Int)) (s : State) (e : Sys)
    (hlcd : s.icw_lcd line = 0x9) (hptr : s.BLU_req_ptr line = 0)
    (hnxt : s.icw_pcf_nxt line = 0x9)
    (hlen : ((b0, lv0) :: rest).length ≤ BUFFER_SIZE)
    (hlv : ∀ p ∈ (b0, lv0) :: rest, p.2 ≠ 2)
    (hccu : ∃ n, n < fuel ∧ ccu n = true)
    (hfd : 1 ≤ (s.sdlcline line).d3274_fd) :
    ∃ s1 s2 c, txFeed ccu fuel line ((b0, lv0) :: rest) s = some s1 ∧
      scanLine ccu fuel line (ncp_pcf line 0xC s1) = some s2 ∧
      s2.BLU_req_len line = (((b0, lv0) :: rest).length : Int) ∧
      s2.BLU_req_stat line = FILLED ∧
      (∀ t : Nat, t < ((b0, lv0) :: rest).length →
        (((b0, lv0) :: rest).map Prod.fst)[t]? = some (s2.BLU_req_buf (idx line (t : Int)))) ∧
      (SendSDLC e line s2).2.2 = some c ∧
      sendBytes s2 line c =
        if b0 = 0x00 ∨ b0 = 0xAA then rest.map Prod.fst else b0 :: rest.map Prod.fst := by
  have _ := hlen
  obtain ⟨s1, hs1, hlcd1, _, hpcf1, hptr1, hbuf1, _, hsd1⟩ :=
    txFeed_spec ccu fuel line ((b0, lv0) :: rest) s hlcd hnxt hlv
  have hpcf9 : s1.icw_pcf line = 0x9 := hpcf1 (List.cons_ne_nil _ _)
  have hturn := scanC_turn line (ncp_pcf line 0xC s1) hlcd1 (by simp [ncp_pcf])
    (by show s1.icw_pcf line ≠ 0xC; rw [hpcf9]; decide)
  obtain ⟨hl2, hst2, hb2, hsd2⟩ := hturn
  have hlen2 : (scanned line (ncp_pcf line 0xC s1)).BLU_req_len line =
      (((b0, lv0) :: rest).length : Int) := by
    rw [hl2]
    show s1.BLU_req_ptr line = _
    rw [hptr1, hptr]
    simp
  have hbuf2 : ∀ t : Nat, t < (((b0, lv0) :: rest).map Prod.fst).length →
      (((b0, lv0) :: rest).map Prod.fst)[t]? =
        some ((scanned line (ncp_pcf line 0xC s1)).BLU_req_buf (idx line (t : Int))) := by
    intro t ht
    rw [hb2]
    show _ = some (s1.BLU_req_buf _)
    have := hbuf1 t (by simpa using ht)
    rw [hptr, zero_add] at this
    exact this
  have hfd2 : ¬ ((scanned line (ncp_pcf line 0xC s1)).sdlcline line).d3274_fd < 1 := by
    rw [hsd2]
    show ¬ (s1.sdlcline line).d3274_fd < 1
    rw [hsd1]
    omega
  have hb0 : (scanned line (ncp_pcf line 0xC s1)).BLU_req_buf (idx line 0) = b0 := by
    have := hbuf2 0 (by simp)
    simpa using this.symm
  refine ⟨s1, scanned line (ncp_pcf line 0xC s1),
    ⟨((scanned line (ncp_pcf line 0xC s1)).sdlcline line).d3274_fd,
      if b0 = 0x00 ∨ b0 = 0xAA then 1 else 0,
      (scanned line (ncp_pcf line 0xC s1)).BLU_req_len line -
        (if b0 = 0x00 ∨ b0 = 0xAA then 1 else 0)⟩,
    hs1, scanLine_of_clears ccu fuel line _ (Or.inr hccu), hlen2, hst2, ?_, ?_, ?_⟩
  · intro t ht
    exact hbuf2 t (by simpa using ht)
  · unfold SendSDLC
    simp only [hfd2, if_false, hb0]
    split_ifs <;> rfl
  · by_cases hz : b0 = 0x00 ∨ b0 = 0xAA
    · have h := sendBytes_drop (scanned line (ncp_pcf line 0xC s1)) line
        (((b0, lv0) :: rest).map Prod.fst)
        ((scanned line (ncp_pcf line 0xC s1)).sdlcline line).d3274_fd 1 hbuf2 (by simp)
      simp only [hz, if_true, hlen2]
      simpa using h
    · have h := sendBytes_drop (scanned line (ncp_pcf line 0xC s1)) line
        (((b0, lv0) :: rest).map Prod.fst)
        ((scanned line (ncp_pcf line 0xC s1)).sdlcline line).d3274_fd 0 hbuf2 (by simp)
      simp only [hz, if_false, hlen2]
      simpa using h

/-- Witness of C2: the bytes `7E C1` are supplied to line 0. -/
theorem C2_round_trip_witness :
    (ex9.icw_lcd 0 = 0x9 ∧ ex9.BLU_req_ptr 0 = 0 ∧ ex9.icw_pcf_nxt 0 = 0x9 ∧
      ((0x7E, (0 : Int)) :: [(0xC1, (0 : Int))]).length ≤ BUFFER_SIZE ∧
      (∀ p ∈ (0x7E, (0 : Int)) :: [(0xC1, (0 : Int))], p.2 ≠ 2) ∧
      (∃ n, n < 1 ∧ ccuPrompt n = true) ∧ 1 ≤ (ex9.sdlcline 0).d3274_fd) ∧
    ∃ s1 s2 c, txFeed ccuPrompt 1 0 ((0x7E, (0 : Int)) :: [(0xC1, (0 : Int))]) ex9 = some s1 ∧
      scanLine ccuPrompt 1 0 (ncp_pcf 0 0xC s1) = some s2 ∧
      s2.BLU_req_len 0 = ((((0x7E, (0 : Int)) :: [(0xC1, (0 : Int))]).length : Nat) : Int) ∧
      s2.BLU_req_stat 0 = FILLED ∧
      (∀ t : Nat, t < ((0x7E, (0 : Int)) :: [(0xC1, (0 : Int))]).length →
        (((0x7E, (0 : Int)) :: [(0xC1, (0 : Int))]).map Prod.fst)[t]? =
          some (s2.BLU_req_buf (idx 0 (t : Int)))) ∧
      (SendSDLC sysOk 0 s2).2.2 = some c ∧
      sendBytes s2 0 c =
        if (0x7E : Nat) = 0x00 ∨ (0x7E : Nat) = 0xAA then
          ([(0xC1, (0 : Int))] : List (Nat × Int)).map Prod.fst
        else 0x7E :: ([(0xC1, (0 : Int))] : List (Nat × Int)).map Prod.fst :=
  ⟨⟨by decide, by decide, by decide, by decide, by decide, ⟨0, by decide, rfl⟩, by decide⟩,
    C2_round_trip ccuPrompt 1 0 0x7E 0 [(0xC1, 0)] ex9 sysOk (by decide) (by decide) (by decide)
      (by decide) (by decide) ⟨0, by decide, rfl⟩ (by decide)⟩

/-- C3. Scenario S1 (outbound SNRM): after `Init_ICW`, the NCP selects SDLC on
line 0 and writes PCF 1; the line goes through PCF 1, 0, 8 (written by the
NCP) and 9, where the NCP supplies `7E C1 93 00 00`, one byte per scan; the NCP
writes PCF `0xC`.  The CCU clears `svc_req_L2` between the scans and runs at a
level other than 2 (otherwise the scans of PCF 8 and 9 do nothing).  All nine
scans return; the handlers that ran are those of PCF 1, 0, 8, 9, 9, 9, 9, 9,
`0xC`; the scans of PCF 1, 9 and `0xC` raised an L2 interrupt and every scan
left `abar_int = 0x020`.  A pass of the line handler on the connected line,
whose `send` succeeds, hands to `send` exactly `7E C1 93 00 00` and leaves
`BLU_req_stat = EMPTY`, `pcf = 5`, line state RX and `abar_int = 0x020`. -/
theorem C3_scenario_S1 (ccu : Nat → Bool) (fuel : Nat) (e : Sys) (lv : Int) (s0 : State)
    (hlv : lv ≠ 2) (hccu : ccuClears ccu fuel s0)
    (hconn : (s0.sdlcline 0).line_stat = CONN) (hfd : 1 ≤ (s0.sdlcline 0).d3274_fd)
    (hsend : 0 ≤ e.send_rc) :
    ∃ r1 r2 r3 r4 r5 r6 r7 r8 r9 c,
      runScans ccu fuel 0 (actsS1 lv) (Init_ICW MAX_LINE s0) =
        some [r1, r2, r3, r4, r5, r6, r7, r8, r9] ∧
      [r1, r2, r3, r4, r5, r6, r7, r8, r9].map (fun r => r.icw_pcf_prev 0) =
        [0x1, 0x0, 0x8, 0x9, 0x9, 0x9, 0x9, 0x9, 0xC] ∧
      [r1, r2, r3, r4, r5, r6, r7, r8, r9].map (fun r => r.svc_req_L2) =
        [ON, OFF, OFF, ON, ON, ON, ON, ON, ON] ∧
      (∀ r ∈ [r1, r2, r3, r4, r5, r6, r7, r8, r9], r.abar_int = 0x020) ∧
      (SDLC_line e 0 r9).2 = some c ∧
      sendBytes r9 0 c = [0x7E, 0xC1, 0x93, 0x00, 0x00] ∧
      (SDLC_line e 0 r9).1.BLU_req_stat 0 = EMPTY ∧
      (SDLC_line e 0 r9).1.icw_pcf 0 = 0x5 ∧
      (SDLC_line e 0 r9).1.icw_lne_stat 0 = RX ∧
      (SDLC_line e 0 r9).1.abar_int = 0x020 := by
  obtain ⟨ipcf, inxt, iptr, isvc, isd⟩ := Init_ICW_line0 s0
  generalize Init_ICW MAX_LINE s0 = s at ipcf inxt iptr isvc isd
  -- scan 1: PCF 1
  obtain ⟨t1, f1, a1⟩ := tx_pcf1 0 (ncp_pcf 0 0x1 (ncp_lcd 0 0x9 s)) 0
    (by simp [ncp_pcf, ncp_lcd]) (by simp [ncp_pcf]) (by simp [ncp_pcf, ncp_lcd, ipcf])
    (by simp [ncp_pcf, ncp_lcd, iptr])
  have e1 := scanLine_of_clears ccu fuel 0 (ncp_pcf 0 0x1 (ncp_lcd 0 0x9 s))
    (by unfold ccuClears at hccu ⊢; rw [← isvc] at hccu; exact hccu)
  generalize scanned 0 (ncp_pcf 0 0x1 (ncp_lcd 0 0x9 s)) = r1 at t1 f1 a1 e1
  -- scan 2: PCF 0
  obtain ⟨t2, f2, a2⟩ := tx_pcf0 0 (ccu_done lv r1) _ _ _ (TxAt_done 0 r1 _ _ _ _ lv t1)
  have e2 := scanLine_of_clears ccu fuel 0 (ccu_done lv r1) (Or.inl rfl)
  generalize scanned 0 (ccu_done lv r1) = r2 at t2 f2 a2 e2
  -- scan 3: PCF 8
  obtain ⟨t3, f3, a3⟩ := tx_pcf8 0 (ncp_pcf 0 0x8 (ccu_done lv r2)) 0 t2.1
    (by simp [ncp_pcf]) (by show r2.icw_pcf 0 ≠ 0x8; rw [t2.2.1]; decide) t2.2.2.2.2.1 rfl hlv
    t2.2.2.2.2.2.2
  have e3 := scanLine_of_clears ccu fuel 0 (ncp_pcf 0 0x8 (ccu_done lv r2)) (Or.inl rfl)
  generalize scanned 0 (ncp_pcf 0 0x8 (ccu_done lv r2)) = r3 at t3 f3 a3 e3
  -- scans 4 to 8: PCF 9, one byte each
  obtain ⟨t4, f4, a4⟩ := tx_pcf9 0 (ncp_pdf 0 0x7E (ccu_done lv r3)) _ _ _
    (TxAt_pdf 0 _ _ _ _ _ 0x7E (TxAt_done 0 r3 _ _ _ _ lv t3)) rfl hlv (by simp [ncp_pdf])
  have e4 := scanLine_of_clears ccu fuel 0 (ncp_pdf 0 0x7E (ccu_done lv r3)) (Or.inl rfl)
  generalize scanned 0 (ncp_pdf 0 0x7E (ccu_done lv r3)) = r4 at t4 f4 a4 e4
  obtain ⟨t5, f5, a5⟩ := tx_pcf9 0 (ncp_pdf 0 0xC1 (ccu_done lv r4)) _ _ _
    (TxAt_pdf 0 _ _ _ _ _ 0xC1 (TxAt_done 0 r4 _ _ _ _ lv t4)) rfl hlv (by simp [ncp_pdf])
  have e5 := scanLine_of_clears ccu fuel 0 (ncp_pdf 0 0xC1 (ccu_done lv r4)) (Or.inl rfl)
  generalize scanned 0 (ncp_pdf 0 0xC1 (ccu_done lv r4)) = r5 at t5 f5 a5 e5
  obtain ⟨t6, f6, a6⟩ := tx_pcf9 0 (ncp_pdf 0 0x93 (ccu_done lv r5)) _ _ _
    (TxAt_pdf 0 _ _ _ _ _ 0x93 (TxAt_done 0 r5 _ _ _ _ lv t5)) rfl hlv (by simp [ncp_pdf])
  have e6 := scanLine_of_clears ccu fuel 0 (ncp_pdf 0 0x93 (ccu_done lv r5)) (Or.inl rfl)
  generalize scanned 0 (ncp_pdf 0 0x93 (ccu_done lv r5)) = r6 at t6 f6 a6 e6
  obtain ⟨t7, f7, a7⟩ := tx_pcf9 0 (ncp_pdf 0 0x00 (ccu_done lv r6)) _ _ _
    (TxAt_pdf 0 _ _ _ _ _ 0x00 (TxAt_done 0 r6 _ _ _ _ lv t6)) rfl hlv (by simp [ncp_pdf])
  have e7 := scanLine_of_clears ccu fuel 0 (ncp_pdf 0 0x00 (ccu_done lv r6)) (Or.inl rfl)
  generalize scanned 0 (ncp_pdf 0 0x00 (ccu_done lv r6)) = r7 at t7 f7 a7 e7
  obtain ⟨t8, f8, a8⟩ := tx_pcf9 0 (ncp_pdf 0 0x00 (ccu_done lv r7)) _ _ _
    (TxAt_pdf 0 _ _ _ _ _ 0x00 (TxAt_done 0 r7 _ _ _ _ lv t7)) rfl hlv (by simp [ncp_pdf])
  have e8 := scanLine_of_clears ccu fuel 0 (ncp_pdf 0 0x00 (ccu_done lv r7)) (Or.inl rfl)
  generalize scanned 0 (ncp_pdf 0 0x00 (ccu_done lv r7)) = r8 at t8 f8 a8 e8
  -- scan 9: PCF C
  obtain ⟨t9, f9, a9, l9, st9, ln9⟩ := tx_pcfC 0 (ncp_pcf 0 0xC (ccu_done lv r8)) (0 + 1 + 1 + 1 + 1 + 1)
    t8.1 (by simp [ncp_pcf]) (by show r8.icw_pcf 0 ≠ 0xC; rw [t8.2.1]; decide) t8.2.2.2.2.1
  have e9 := scanLine_of_clears ccu fuel 0 (ncp_pcf 0 0xC (ccu_done lv r8)) (Or.inl rfl)
  generalize scanned 0 (ncp_pcf 0 0xC (ccu_done lv r8)) = r9 at t9 f9 a9 l9 st9 ln9 e9
  -- the request buffer and the connection record after the nine scans
  have hsd : r9.sdlcline = s0.sdlcline := by
    rw [f9.1]; show r8.sdlcline = _
    rw [f8.1]; show r7.sdlcline = _
    rw [f7.1]; show r6.sdlcline = _
    rw [f6.1]; show r5.sdlcline = _
    rw [f5.1]; show r4.sdlcline = _
    rw [f4.1]; show r3.sdlcline = _
    rw [f3.1]; show r2.sdlcline = _
    rw [f2.1]; show r1.sdlcline = _
    rw [f1.1]; exact isd
  have hbuf : r9.BLU_req_buf =
      upd (upd (upd (upd (upd r3.BLU_req_buf (idx 0 0) 0x7E) (idx 0 (0 + 1)) 0xC1)
        (idx 0 (0 + 1 + 1)) 0x93) (idx 0 (0 + 1 + 1 + 1)) 0x00) (idx 0 (0 + 1 + 1 + 1 + 1)) 0x00 := by
    rw [f9.2]; show r8.BLU_req_buf = _
    rw [f8.2]; show upd r7.BLU_req_buf _ _ = _
    rw [f7.2]; show upd (upd r6.BLU_req_buf _ _) _ _ = _
    rw [f6.2]; show upd (upd (upd r5.BLU_req_buf _ _) _ _) _ _ = _
    rw [f5.2]; show upd (upd (upd (upd r4.BLU_req_buf _ _) _ _) _ _) _ _ = _
    rw [f4.2]
    rfl
  have hflush := SDLC_line_flush e 0 r9 (by rw [hsd]; exact hconn) st9 (by rw [hsd]; exact hfd)
    hsend
  obtain ⟨hc, hst, _, _, hpcf, hlne, habar, _⟩ := hflush
  refine ⟨r1, r2, r3, r4, r5, r6, r7, r8, r9, _, ?_, ?_, ?_, ?_, hc, ?_, hst, ?_, ?_, ?_⟩
  · exact runScans_cons _ _ _ _ _ _ _ _ e1 (runScans_cons _ _ _ _ _ _ _ _ e2
      (runScans_cons _ _ _ _ _ _ _ _ e3 (runScans_cons _ _ _ _ _ _ _ _ e4
      (runScans_cons _ _ _ _ _ _ _ _ e5 (runScans_cons _ _ _ _ _ _ _ _ e6
      (runScans_cons _ _ _ _ _ _ _ _ e7 (runScans_cons _ _ _ _ _ _ _ _ e8
      (runScans_cons _ _ _ _ _ _ _ _ e9 rfl))))))))
  · simp only [List.map, t1.2.2.2.1, t2.2.2.2.1, t3.2.2.2.1, t4.2.2.2.1, t5.2.2.2.1,
      t6.2.2.2.1, t7.2.2.2.1, t8.2.2.2.1, t9.2.2.2.1]
  · simp only [List.map, t1.2.2.2.2.2.1, t2.2.2.2.2.2.1, t3.2.2.2.2.2.1, t4.2.2.2.2.2.1,
      t5.2.2.2.2.2.1, t6.2.2.2.2.2.1, t7.2.2.2.2.2.1, t8.2.2.2.2.2.1, t9.2.2.2.2.2.1]
  · have b1 : r1.abar_int = 0x020 := by simpa using a1
    have b2 : r2.abar_int = 0x020 := by rw [a2]; exact b1
    have b3 : r3.abar_int = 0x020 := by rw [a3]; exact b2
    intro r hr
    simp only [List.mem_cons, List.mem_singleton, List.not_mem_nil, or_false] at hr
    rcases hr with h | h | h | h | h | h | h | h | h <;> subst h
    · exact b1
    · exact b2
    · exact b3
    · simpa using a4
    · simpa using a5
    · simpa using a6
    · simpa using a7
    · simpa using a8
    · simpa using a9
  · rw [hbuf, l9]
    simp [sendBytes, upd, idx, List.range_succ]
    rw [hbuf]
    simp [upd, idx]
  · rw [hpcf]; exact t9.2.1
  · rw [hlne]; exact ln9
  · rw [habar]; simpa using a9

/-- Witness of C3: the scenario run from the memory image `mem0`. -/
theorem C3_scenario_S1_witness :
    ((0 : Int) ≠ 2 ∧ ccuClears ccuStuck 0 mem0 ∧ (mem0.sdlcline 0).line_stat = CONN ∧
      1 ≤ (mem0.sdlcline 0).d3274_fd ∧ 0 ≤ sysOk.send_rc) ∧
    ∃ r1 r2 r3 r4 r5 r6 r7 r8 r9 c,
      runScans ccuStuck 0 0 (actsS1 0) (Init_ICW MAX_LINE mem0) =
        some [r1, r2, r3, r4, r5, r6, r7, r8, r9] ∧
      [r1, r2, r3, r4, r5, r6, r7, r8, r9].map (fun r => r.icw_pcf_prev 0) =
        [0x1, 0x0, 0x8, 0x9, 0x9, 0x9, 0x9, 0x9, 0xC] ∧
      [r1, r2, r3, r4, r5, r6, r7, r8, r9].map (fun r => r.svc_req_L2) =
        [ON, OFF, OFF, ON, ON, ON, ON, ON, ON] ∧
      (∀ r ∈ [r1, r2, r3, r4, r5, r6, r7, r8, r9], r.abar_int = 0x020) ∧
      (SDLC_line sysOk 0 r9).2 = some c ∧
      sendBytes r9 0 c = [0x7E, 0xC1, 0x93, 0x00, 0x00] ∧
      (SDLC_line sysOk 0 r9).1.BLU_req_stat 0 = EMPTY ∧
      (SDLC_line sysOk 0 r9).1.icw_pcf 0 = 0x5 ∧
      (SDLC_line sysOk 0 r9).1.icw_lne_stat 0 = RX ∧
      (SDLC_line sysOk 0 r9).1.abar_int = 0x020 :=
  ⟨⟨by decide, Or.inl rfl, by decide, by decide, by decide⟩,
    C3_scenario_S1 ccuStuck 0 sysOk 0 mem0 (by decide) (Or.inl rfl) (by decide) (by decide)
      (by decide)⟩

set_option maxRecDepth 100000 in
/-- Counterexample to C5 as stated: line 1 is in PCF 5, receiving, with
`7E C1 73 47 0F 7E` in its response buffer; the NCP reads every delivered byte
and the CCU clears `svc_req_L2` between the scans.  The scans that set
`pdf_reg = FILLED` carry `C1`, `73`, `47`, `0F`, not only `C1` and `73`, and
`C1` is delivered by the handler of PCF 6; the end of the frame is detected by
the seventh scan only (after six scans the line is still receiving). -/
theorem C5_counterexample :
    (runScans ccuStuck 0 1 (actsS2 1 0) exRx).map (delivered 1) =
      some [(0x6, 0xC1), (0x7, 0x73), (0x7, 0x47), (0x7, 0x0F)] ∧
    (runScans ccuStuck 0 1 (actsS2 1 0) exRx).map (fun tr => (delivered 1 tr).map Prod.snd) ≠
      some [0xC1, 0x73] ∧
    (runScans ccuStuck 0 1 (actsS2 1 0) exRx).map
        (fun tr => tr.map (fun r => r.icw_lne_stat 1)) =
      some [RX, RX, RX, RX, RX, RX, TX] := by
  decide

/-- C5, amended. Scenario S2 (inbound UA): a line in PCF 5, receiving, with an
SDLC `lcd` and a FILLED response buffer holding `7E C1 73 47 0F 7E`; the NCP
reads every delivered byte and the CCU clears `svc_req_L2` between the scans
(and runs at a level other than 2).  The seven scans return; the handlers that
ran are those of PCF 5, 6, 6, 7, 7, 7, 7.  PCF 5 detects the opening `7E` (SCF
bit `0x04`, next PCF 6); PCF 6 skips it without interrupt; the bytes delivered
to the NCP (`pdf_reg = FILLED`) are `C1` by PCF 6 and then `73`, `47`, `0F` by
PCF 7; the seventh scan, in PCF 7, takes the byte `7E`, recognises the
end of the frame and leaves line state TX, `pcf_nxt = 6`,
`BLU_rsp_stat = EMPTY`; until then the line stays RX with the buffer FILLED. -/
theorem C5_scenario_S2 (ccu : Nat → Bool) (fuel line : Nat) (lv : Int) (s : State)
    (hlv : lv ≠ 2) (hpcf : s.icw_pcf line = 0x5) (hnxt : s.icw_pcf_nxt line = 0x5)
    (hrx : s.icw_lne_stat line = RX)
    (hlcd : s.icw_lcd line = 0x8 ∨ s.icw_lcd line = 0x9)
    (hst : s.BLU_rsp_stat line = FILLED)
    (h0 : s.BLU_rsp_buf (idx line 0) = 0x7E) (h1 : s.BLU_rsp_buf (idx line 1) = 0xC1)
    (h2 : s.BLU_rsp_buf (idx line 2) = 0x73) (h3 : s.BLU_rsp_buf (idx line 3) = 0x47)
    (h4 : s.BLU_rsp_buf (idx line 4) = 0x0F) (h5 : s.BLU_rsp_buf (idx line 5) = 0x7E) :
    ∃ r1 r2 r3 r4 r5 r6 r7,
      runScans ccu fuel line (actsS2 line lv) s = some [r1, r2, r3, r4, r5, r6, r7] ∧
      [r1, r2, r3, r4, r5, r6, r7].map (fun r => r.icw_pcf_prev line) =
        [0x5, 0x6, 0x6, 0x7, 0x7, 0x7, 0x7] ∧
      r1.icw_scf line &&& 0x04 = 0x04 ∧ r1.icw_pcf line = 0x6 ∧
      r2.icw_pdf line = 0x7E ∧ r2.icw_pdf_reg line = EMPTY ∧ r2.svc_req_L2 = OFF ∧
      delivered line [r1, r2, r3, r4, r5, r6, r7] =
        [(0x6, 0xC1), (0x7, 0x73), (0x7, 0x47), (0x7, 0x0F)] ∧
      r7.icw_pdf line = 0x7E ∧ r7.Eflg_rvcd = ON ∧
      r7.icw_lne_stat line = TX ∧ r7.icw_pcf_nxt line = 0x6 ∧
      r7.BLU_rsp_stat line = EMPTY ∧
      (∀ r ∈ [r1, r2, r3, r4, r5, r6],
        r.icw_lne_stat line = RX ∧ r.BLU_rsp_stat line = FILLED) := by
  -- scan 1: PCF 5 finds the opening flag
  obtain ⟨t1, B1, sc1, _, g1⟩ := rx_pcf5 line (ncp_read line (ccu_done lv s)) hpcf hnxt hrx hlcd
    hst h0
  have e1 := scanLine_of_clears ccu fuel line (ncp_read line (ccu_done lv s)) (Or.inl rfl)
  have p1 : (scanned line (ncp_read line (ccu_done lv s))).icw_pdf_reg line = EMPTY := by
    rw [g1]; simp [ncp_read]
  generalize scanned line (ncp_read line (ccu_done lv s)) = r1 at t1 B1 sc1 g1 e1 p1
  have B1 : r1.BLU_rsp_buf = s.BLU_rsp_buf := B1
  -- scan 2: PCF 6 skips the flag
  obtain ⟨t2, B2, d2, v2, g2⟩ := rx_pcf6_skip line (ncp_read line (ccu_done lv r1)) _ 0 1 t1
    (by norm_num) rfl hlv (by show r1.BLU_rsp_buf (idx line 0) = 0x7E; rw [B1]; exact h0)
  have e2 := scanLine_of_clears ccu fuel line (ncp_read line (ccu_done lv r1)) (Or.inl rfl)
  have p2 : (scanned line (ncp_read line (ccu_done lv r1))).icw_pdf_reg line = EMPTY := by
    rw [g2]; simp [ncp_read]
  generalize scanned line (ncp_read line (ccu_done lv r1)) = r2 at t2 B2 d2 v2 g2 e2 p2
  have B2 : r2.BLU_rsp_buf = s.BLU_rsp_buf := by rw [B2]; exact B1
  -- scan 3: PCF 6 delivers C1
  obtain ⟨t3, B3, d3, _, p3⟩ := rx_pcf6_byte line (ncp_read line (ccu_done lv r2)) _ 1 2 0xC1 t2
    (by norm_num) rfl hlv (by show r2.BLU_rsp_buf (idx line 1) = 0xC1; rw [B2]; exact h1)
    (by decide)
  have e3 := scanLine_of_clears ccu fuel line (ncp_read line (ccu_done lv r2)) (Or.inl rfl)
  generalize scanned line (ncp_read line (ccu_done lv r2)) = r3 at t3 B3 d3 p3 e3
  have B3 : r3.BLU_rsp_buf = s.BLU_rsp_buf := by rw [B3]; exact B2
  -- scans 4 to 6: PCF 7 delivers 73, 47, 0F
  obtain ⟨t4, B4, d4, _, p4⟩ := rx_pcf7_byte line (ncp_read line (ccu_done lv r3)) _ 2 3 0x73 t3
    (by norm_num) rfl hlv (by simp [ncp_read])
    (by show r3.BLU_rsp_buf (idx line 2) = 0x73; rw [B3]; exact h2)
    (by show r3.BLU_rsp_buf (idx line (2 - 2)) ≠ 0x47
        rw [B3, show (2 : Int) - 2 = 0 by norm_num, h0]; decide)
  have e4 := scanLine_of_clears ccu fuel line (ncp_read line (ccu_done lv r3)) (Or.inl rfl)
  generalize scanned line (ncp_read line (ccu_done lv r3)) = r4 at t4 B4 d4 p4 e4
  have B4 : r4.BLU_rsp_buf = s.BLU_rsp_buf := by rw [B4]; exact B3
  obtain ⟨t5, B5, d5, _, p5⟩ := rx_pcf7_byte line (ncp_read line (ccu_done lv r4)) _ 3 4 0x47 t4
    (by norm_num) rfl hlv (by simp [ncp_read])
    (by show r4.BLU_rsp_buf (idx line 3) = 0x47; rw [B4]; exact h3)
    (by show r4.BLU_rsp_buf (idx line (3 - 2)) ≠ 0x47
        rw [B4, show (3 : Int) - 2 = 1 by norm_num, h1]; decide)
  have e5 := scanLine_of_clears ccu fuel line (ncp_read line (ccu_done lv r4)) (Or.inl rfl)
  generalize scanned line (ncp_read line (ccu_done lv r4)) = r5 at t5 B5 d5 p5 e5
  have B5 : r5.BLU_rsp_buf = s.BLU_rsp_buf := by rw [B5]; exact B4
  obtain ⟨t6, B6, d6, _, p6⟩ := rx_pcf7_byte line (ncp_read line (ccu_done lv r5)) _ 4 5 0x0F t5
    (by norm_num) rfl hlv (by simp [ncp_read])
    (by show r5.BLU_rsp_buf (idx line 4) = 0x0F; rw [B5]; exact h4)
    (by show r5.BLU_rsp_buf (idx line (4 - 2)) ≠ 0x47
        rw [B5, show (4 : Int) - 2 = 2 by norm_num, h2]; decide)
  have e6 := scanLine_of_clears ccu fuel line (ncp_read line (ccu_done lv r5)) (Or.inl rfl)
  generalize scanned line (ncp_read line (ccu_done lv r5)) = r6 at t6 B6 d6 p6 e6
  have B6 : r6.BLU_rsp_buf = s.BLU_rsp_buf := by rw [B6]; exact B5
  -- scan 7: PCF 7 takes 7E and recognises the end of the frame
  obtain ⟨l7, n7, st7, pv7, d7, ef7, p7⟩ := rx_pcf7_eflag line (ncp_read line (ccu_done lv r6)) _ 5
    t6 rfl hlv (by simp [ncp_read])
    (by show r6.BLU_rsp_buf (idx line (5 - 2)) = 0x47
        rw [B6, show (5 : Int) - 2 = 3 by norm_num, h3])
    (by show r6.BLU_rsp_buf (idx line (5 - 1)) = 0x0F
        rw [B6, show (5 : Int) - 1 = 4 by norm_num, h4])
    (by show r6.BLU_rsp_buf (idx line 5) = 0x7E; rw [B6]; exact h5)
  have e7 := scanLine_of_clears ccu fuel line (ncp_read line (ccu_done lv r6)) (Or.inl rfl)
  generalize scanned line (ncp_read line (ccu_done lv r6)) = r7 at l7 n7 st7 pv7 d7 ef7 p7 e7
  refine ⟨r1, r2, r3, r4, r5, r6, r7, ?_, ?_, sc1, t1.2.1, d2, p2, v2, ?_, d7, ef7, l7, n7, st7,
    ?_⟩
  · exact runScans_cons _ _ _ _ _ _ _ _ e1 (runScans_cons _ _ _ _ _ _ _ _ e2
      (runScans_cons _ _ _ _ _ _ _ _ e3 (runScans_cons _ _ _ _ _ _ _ _ e4
      (runScans_cons _ _ _ _ _ _ _ _ e5 (runScans_cons _ _ _ _ _ _ _ _ e6
      (runScans_cons _ _ _ _ _ _ _ _ e7 rfl))))))
  · simp only [List.map, t1.2.2.2.1, t2.2.2.2.1, t3.2.2.2.1, t4.2.2.2.1, t5.2.2.2.1,
      t6.2.2.2.1, pv7]
  · simp [delivered, List.filter, p1, p2, p3, p4, p5, p6, p7, d3, d4, d5, d6, t3.2.2.2.1,
      t4.2.2.2.1, t5.2.2.2.1, t6.2.2.2.1]
  · intro r hr
    simp only [List.mem_cons, List.mem_singleton, List.not_mem_nil, or_false] at hr
    rcases hr with h | h | h | h | h | h <;> subst h
    · exact ⟨t1.2.2.2.2.2.1, t1.2.2.2.2.2.2.1⟩
    · exact ⟨t2.2.2.2.2.2.1, t2.2.2.2.2.2.2.1⟩
    · exact ⟨t3.2.2.2.2.2.1, t3.2.2.2.2.2.2.1⟩
    · exact ⟨t4.2.2.2.2.2.1, t4.2.2.2.2.2.2.1⟩
    · exact ⟨t5.2.2.2.2.2.1, t5.2.2.2.2.2.2.1⟩
    · exact ⟨t6.2.2.2.2.2.1, t6.2.2.2.2.2.2.1⟩

/-- Witness of C5, amended: line 1 holding `7E C1 73 47 0F 7E`. -/
theorem C5_scenario_S2_witness :
    ((0 : Int) ≠ 2 ∧ exRx.icw_pcf 1 = 0x5 ∧ exRx.icw_pcf_nxt 1 = 0x5 ∧
      exRx.icw_lne_stat 1 = RX ∧ (exRx.icw_lcd 1 = 0x8 ∨ exRx.icw_lcd 1 = 0x9) ∧
      exRx.BLU_rsp_stat 1 = FILLED ∧
      exRx.BLU_rsp_buf (idx 1 0) = 0x7E ∧ exRx.BLU_rsp_buf (idx 1 1) = 0xC1 ∧
      exRx.BLU_rsp_buf (idx 1 2) = 0x73 ∧ exRx.BLU_rsp_buf (idx 1 3) = 0x47 ∧
      exRx.BLU_rsp_buf (idx 1 4) = 0x0F ∧ exRx.BLU_rsp_buf (idx 1 5) = 0x7E) ∧
    ∃ r1 r2 r3 r4 r5 r6 r7,
      runScans ccuStuck 0 1 (actsS2 1 0) exRx = some [r1, r2, r3, r4, r5, r6, r7] ∧
      [r1, r2, r3, r4, r5, r6, r7].map (fun r => r.icw_pcf_prev 1) =
        [0x5, 0x6, 0x6, 0x7, 0x7, 0x7, 0x7] ∧
      r1.icw_scf 1 &&& 0x04 = 0x04 ∧ r1.icw_pcf 1 = 0x6 ∧
      r2.icw_pdf 1 = 0x7E ∧ r2.icw_pdf_reg 1 = EMPTY ∧ r2.svc_req_L2 = OFF ∧
      delivered 1 [r1, r2, r3, r4, r5, r6, r7] =
        [(0x6, 0xC1), (0x7, 0x73), (0x7, 0x47), (0x7, 0x0F)] ∧
      r7.icw_pdf 1 = 0x7E ∧ r7.Eflg_rvcd = ON ∧
      r7.icw_lne_stat 1 = TX ∧ r7.icw_pcf_nxt 1 = 0x6 ∧
      r7.BLU_rsp_stat 1 = EMPTY ∧
      (∀ r ∈ [r1, r2, r3, r4, r5, r6],
        r.icw_lne_stat 1 = RX ∧ r.BLU_rsp_stat 1 = FILLED) :=
  ⟨by decide,
    C5_scenario_S2 ccuStuck 0 1 0 exRx (by decide) (by decide) (by decide) (by decide)
      (by decide) (by decide) (by decide) (by decide) (by decide) (by decide) (by decide)
      (by decide)⟩

/-- C12. External-register view: `Get_ICW(line)` stores
`(scf << 8) | pdf` in `Eregs_Inp[0x44]`, `(lcd << 12) | (pcf << 8) | sdf` in
`Eregs_Inp[0x45]`, `0xF0A5` in `Eregs_Inp[0x46]` and `rflags` in
`Eregs_Inp[0x47]`, and changes nothing but `Eregs_Inp`; when `scf`, `pdf`,
`sdf` are bytes (they are `uint8_t`) and `lcd ≤ 0xF`, `pcf ≤ 0xF`, the five
fields are recovered from the two registers by the shifts and masks. -/
theorem C12_Get_ICW (line : Nat) (s : State) :
    ((Get_ICW line s).Eregs_Inp 0x44 = (s.icw_scf line <<< 8) ||| s.icw_pdf line ∧
      (Get_ICW line s).Eregs_Inp 0x45 =
        ((s.icw_lcd line <<< 12) ||| (s.icw_pcf line <<< 8)) ||| s.icw_sdf line ∧
      (Get_ICW line s).Eregs_Inp 0x46 = 0xF0A5 ∧
      (Get_ICW line s).Eregs_Inp 0x47 = s.icw_Rflags line ∧
      { Get_ICW line s with Eregs_Inp := s.Eregs_Inp } = s) ∧
    (s.icw_scf line < 256 → s.icw_pdf line < 256 → s.icw_sdf line < 256 →
      s.icw_lcd line ≤ 0xF → s.icw_pcf line ≤ 0xF →
      s.icw_scf line = (Get_ICW line s).Eregs_Inp 0x44 >>> 8 ∧
      s.icw_pdf line = (Get_ICW line s).Eregs_Inp 0x44 &&& 0xFF ∧
      s.icw_lcd line = ((Get_ICW line s).Eregs_Inp 0x45 >>> 12) &&& 0xF ∧
      s.icw_pcf line = ((Get_ICW line s).Eregs_Inp 0x45 >>> 8) &&& 0xF ∧
      s.icw_sdf line = (Get_ICW line s).Eregs_Inp 0x45 &&& 0xFF) := by
  have e44 : (Get_ICW line s).Eregs_Inp 0x44 = (s.icw_scf line <<< 8) ||| s.icw_pdf line := by
    simp [Get_ICW, upd]
  have e45 : (Get_ICW line s).Eregs_Inp 0x45 =
      ((s.icw_lcd line <<< 12) ||| (s.icw_pcf line <<< 8)) ||| s.icw_sdf line := by
    simp [Get_ICW, upd]
  refine ⟨⟨e44, e45, by simp [Get_ICW, upd], by simp [Get_ICW, upd], rfl⟩, ?_⟩
  intro hscf hpdf hsdf hlcd hpcf
  rw [e44, e45, pack2 _ _ hpdf, pack3 _ _ _ hpcf hsdf]
  simp only [and_FF, and_F, Nat.shiftRight_eq_div_pow]
  norm_num at hlcd hpcf ⊢
  refine ⟨?_, ?_, ?_, ?_, ?_⟩ <;> omega

/-- Witness of C12: line 2 with `scf = 0x48`, `pdf = 0xC1`, `lcd = 0x9`,
`pcf = 0x7`, `sdf = 0x5A`. -/
theorem C12_Get_ICW_witness :
    (exIcw.icw_scf 2 < 256 ∧ exIcw.icw_pdf 2 < 256 ∧ exIcw.icw_sdf 2 < 256 ∧
      exIcw.icw_lcd 2 ≤ 0xF ∧ exIcw.icw_pcf 2 ≤ 0xF) ∧
    (exIcw.icw_scf 2 = (Get_ICW 2 exIcw).Eregs_Inp 0x44 >>> 8 ∧
      exIcw.icw_pdf 2 = (Get_ICW 2 exIcw).Eregs_Inp 0x44 &&& 0xFF ∧
      exIcw.icw_lcd 2 = ((Get_ICW 2 exIcw).Eregs_Inp 0x45 >>> 12) &&& 0xF ∧
      exIcw.icw_pcf 2 = ((Get_ICW 2 exIcw).Eregs_Inp 0x45 >>> 8) &&& 0xF ∧
      exIcw.icw_sdf 2 = (Get_ICW 2 exIcw).Eregs_Inp 0x45 &&& 0xFF) :=
  ⟨by decide,
    (C12_Get_ICW 2 exIcw).2 (by decide) (by decide) (by decide) (by decide) (by decide)⟩

/-- C13. Initial state: after `Init_ICW(max)` every line `j < max` has
`pcf = 0xE`, `pcf_prev = 0`, `pcf_nxt = 0`, line state RESET, `pdf_reg` EMPTY,
both buffers EMPTY with pointers and lengths 0, and `scf`, `pdf`, `lcd`, `sdf`,
`rflags` all 0. -/
theorem C13_Init_ICW (max j : Nat) (s : State) (hj : j < max) :
    (Init_ICW max s).icw_pcf j = 0xE ∧ (Init_ICW max s).icw_pcf_prev j = 0x0 ∧
    (Init_ICW max s).icw_pcf_nxt j = 0x0 ∧ (Init_ICW max s).icw_lne_stat j = RESET ∧
    (Init_ICW max s).icw_pdf_reg j = EMPTY ∧
    (Init_ICW max s).BLU_req_stat j = EMPTY ∧ (Init_ICW max s).BLU_rsp_stat j = EMPTY ∧
    (Init_ICW max s).BLU_req_ptr j = 0 ∧ (Init_ICW max s).BLU_req_len j = 0 ∧
    (Init_ICW max s).BLU_rsp_ptr j = 0 ∧ (Init_ICW max s).BLU_rsp_len j = 0 ∧
    (Init_ICW max s).icw_scf j = 0 ∧ (Init_ICW max s).icw_pdf j = 0 ∧
    (Init_ICW max s).icw_lcd j = 0 ∧ (Init_ICW max s).icw_sdf j = 0 ∧
    (Init_ICW max s).icw_Rflags j = 0 := by
  induction max with
  | zero => omega
  | succ m ih =>
    by_cases h : j = m
    · subst h
      simp [Init_ICW, Init_ICW_line]
    · have ih' := ih (by omega)
      simp only [Init_ICW, Init_ICW_line, upd_ne _ _ h]
      exact ih'

/-- Witness of C13: line 3 after `Init_ICW(MAX_LINE)` on the memory image `mem0`. -/
theorem C13_Init_ICW_witness :
    3 < MAX_LINE ∧
    (Init_ICW MAX_LINE mem0).icw_pcf 3 = 0xE ∧ (Init_ICW MAX_LINE mem0).icw_pcf_prev 3 = 0x0 ∧
    (Init_ICW MAX_LINE mem0).icw_pcf_nxt 3 = 0x0 ∧
    (Init_ICW MAX_LINE mem0).icw_lne_stat 3 = RESET ∧
    (Init_ICW MAX_LINE mem0).icw_pdf_reg 3 = EMPTY ∧
    (Init_ICW MAX_LINE mem0).BLU_req_stat 3 = EMPTY ∧
    (Init_ICW MAX_LINE mem0).BLU_rsp_stat 3 = EMPTY ∧
    (Init_ICW MAX_LINE mem0).BLU_req_ptr 3 = 0 ∧ (Init_ICW MAX_LINE mem0).BLU_req_len 3 = 0 ∧
    (Init_ICW MAX_LINE mem0).BLU_rsp_ptr 3 = 0 ∧ (Init_ICW MAX_LINE mem0).BLU_rsp_len 3 = 0 ∧
    (Init_ICW MAX_LINE mem0).icw_scf 3 = 0 ∧ (Init_ICW MAX_LINE mem0).icw_pdf 3 = 0 ∧
    (Init_ICW MAX_LINE mem0).icw_lcd 3 = 0 ∧ (Init_ICW MAX_LINE mem0).icw_sdf 3 = 0 ∧
    (Init_ICW MAX_LINE mem0).icw_Rflags 3 = 0 :=
  ⟨by decide, C13_Init_ICW MAX_LINE 3 mem0 (by decide)⟩

/-- C16. Buffer ownership on the line handler side: for every pass of the
line handler on a line and every answer of the operating system, a line whose
response buffer is FILLED keeps the response memory, `BLU_rsp_len` and
`BLU_rsp_stat`, and a line whose request buffer is EMPTY keeps the request
memory, `BLU_req_len` and `BLU_req_stat`. -/
theorem C16_lineio_ownership (e : Sys) (j : Nat) (s : State) :
    (s.BLU_rsp_stat j = FILLED →
      (SDLC_line e j s).1.BLU_rsp_buf = s.BLU_rsp_buf ∧
      (SDLC_line e j s).1.BLU_rsp_len = s.BLU_rsp_len ∧
      (SDLC_line e j s).1.BLU_rsp_stat = s.BLU_rsp_stat) ∧
    (s.BLU_req_stat j = EMPTY →
      (SDLC_line e j s).1.BLU_req_buf = s.BLU_req_buf ∧
      (SDLC_line e j s).1.BLU_req_len = s.BLU_req_len ∧
      (SDLC_line e j s).1.BLU_req_stat = s.BLU_req_stat) := by
  have hacc := accept_loop_frame e j e.event_count.toNat 0 s
  rw [State.mk.injEq] at hacc
  obtain ⟨hS, _⟩ := SendSDLC_frame e j s
  rw [State.mk.injEq] at hS
  obtain ⟨hR1, hR2, hR3, _, _⟩ := ReadSDLC_frame e j s
  constructor
  · intro hrsp
    unfold SDLC_line
    by_cases h1 : (s.sdlcline j).line_stat = CONN ∧ s.BLU_req_stat j = FILLED
    · simp only [h1, and_self, if_true]
      rcases hq : SendSDLC e j s with ⟨rc, s1, call⟩
      rw [hq] at hS
      simp only at hS ⊢
      split_ifs <;> simp [set_line_stat, hS]
    · simp only [h1, if_false, hrsp, reduceCtorEq, and_false]
      split_ifs
      · exact ⟨hacc.2.2.2.2.2.2.2.2.2.2.2.2.2.2.2.2.2.2.2.1,
          hacc.2.2.2.2.2.2.2.2.2.2.2.2.2.2.2.2.2.2.2.2.2.1,
          hacc.2.2.2.2.2.2.2.2.2.2.2.2.2.2.2.2.2.2.2.2.2.2.1⟩
      · exact ⟨rfl, rfl, rfl⟩
  · intro hreq
    unfold SDLC_line
    simp only [hreq, reduceCtorEq, and_false, if_false]
    by_cases h2 : (s.sdlcline j).line_stat = CONN ∧ s.BLU_rsp_stat j = EMPTY
    · simp only [h2, and_self, if_true]
      rcases hq : ReadSDLC e j s with ⟨rc, s1⟩
      rw [hq] at hR1 hR2 hR3
      simp only at hR1 hR2 hR3 ⊢
      split_ifs <;> simp [set_line_stat, hR1, hR2, hR3]
    · simp only [h2, if_false]
      split_ifs
      · exact ⟨hacc.2.2.2.2.2.2.2.2.2.2.2.2.2.2.2.1, hacc.2.2.2.2.2.2.2.2.2.2.2.2.2.2.2.2.2.1,
          hacc.2.2.2.2.2.2.2.2.2.2.2.2.2.2.2.2.2.2.1⟩
      · exact ⟨rfl, rfl, rfl⟩

/-- Witness of C16: line 0 with a FILLED response buffer (and a request to
flush), and line 0 with an EMPTY request buffer (and bytes pending). -/
theorem C16_lineio_ownership_witness :
    (exFlush.BLU_rsp_stat 0 = FILLED ∧ exDrain.BLU_req_stat 0 = EMPTY) ∧
    ((SDLC_line sysOk 0 exFlush).1.BLU_rsp_buf = exFlush.BLU_rsp_buf ∧
      (SDLC_line sysOk 0 exFlush).1.BLU_rsp_len = exFlush.BLU_rsp_len ∧
      (SDLC_line sysOk 0 exFlush).1.BLU_rsp_stat = exFlush.BLU_rsp_stat) ∧
    ((SDLC_line sysData 0 exDrain).1.BLU_req_buf = exDrain.BLU_req_buf ∧
      (SDLC_line sysData 0 exDrain).1.BLU_req_len = exDrain.BLU_req_len ∧
      (SDLC_line sysData 0 exDrain).1.BLU_req_stat = exDrain.BLU_req_stat) :=
  ⟨by decide, (C16_lineio_ownership sysOk 0 exFlush).1 (by decide),
    (C16_lineio_ownership sysData 0 exDrain).2 (by decide)⟩

/-- C18. Flush outcome: on a line with connection state CONN and a FILLED
request buffer, `SendSDLC` returns 0 exactly when a peer descriptor is open
and `send` does not return a negative value, and `-1` otherwise.  When it
succeeds the pass sets `BLU_req_len = 0`, `BLU_req_stat = EMPTY` and keeps the
state CONN; when it fails the pass sets the connection state to DISC and
leaves `BLU_req_stat = FILLED`, `BLU_req_len` and the request memory as they
were.  In both cases the response memory, `BLU_rsp_len` and `BLU_rsp_stat`
are left alone: nothing is read in that pass. -/
theorem C18_flush_outcome (e : Sys) (j : Nat) (s : State)
    (hconn : (s.sdlcline j).line_stat = CONN) (hst : s.BLU_req_stat j = FILLED) :
    ((1 ≤ (s.sdlcline j).d3274_fd ∧ 0 ≤ e.send_rc) →
      (SendSDLC e j s).1 = 0 ∧
      (SDLC_line e j s).1.BLU_req_len j = 0 ∧
      (SDLC_line e j s).1.BLU_req_stat j = EMPTY ∧
      ((SDLC_line e j s).1.sdlcline j).line_stat = CONN) ∧
    (((s.sdlcline j).d3274_fd < 1 ∨ e.send_rc < 0) →
      (SendSDLC e j s).1 = -1 ∧
      ((SDLC_line e j s).1.sdlcline j).line_stat = DISC ∧
      (SDLC_line e j s).1.BLU_req_stat j = FILLED ∧
      (SDLC_line e j s).1.BLU_req_len j = s.BLU_req_len j ∧
      (SDLC_line e j s).1.BLU_req_buf = s.BLU_req_buf) ∧
    ((SDLC_line e j s).1.BLU_rsp_buf = s.BLU_rsp_buf ∧
      (SDLC_line e j s).1.BLU_rsp_len = s.BLU_rsp_len ∧
      (SDLC_line e j s).1.BLU_rsp_stat = s.BLU_rsp_stat) := by
  refine ⟨?_, ?_, ?_⟩
  · rintro ⟨hfd, hrc⟩
    have h1 : ¬ (s.sdlcline j).d3274_fd < 1 := by omega
    have h2 : ¬ e.send_rc < 0 := by omega
    simp [SDLC_line, SendSDLC, set_line_stat, hconn, hst, h1, h2]
  · intro hfail
    by_cases h1 : (s.sdlcline j).d3274_fd < 1
    · simp [SDLC_line, SendSDLC, set_line_stat, hconn, hst, h1]
    · have h2 : e.send_rc < 0 := by
        rcases hfail with h | h
        · exact absurd h h1
        · exact h
      simp [SDLC_line, SendSDLC, set_line_stat, set_d3274_fd, hconn, hst, h1, h2]
  · by_cases h1 : (s.sdlcline j).d3274_fd < 1
    · simp [SDLC_line, SendSDLC, set_line_stat, hconn, hst, h1]
    · by_cases h2 : e.send_rc < 0 <;>
        simp [SDLC_line, SendSDLC, set_line_stat, set_d3274_fd, hconn, hst, h1, h2]

/-- Witness of C18: line 0 connected with the request `7E C1 93` to flush. -/
theorem C18_flush_outcome_witness :
    ((exFlush.sdlcline 0).line_stat = CONN ∧ exFlush.BLU_req_stat 0 = FILLED) ∧
    (((1 ≤ (exFlush.sdlcline 0).d3274_fd ∧ 0 ≤ sysOk.send_rc) →
      (SendSDLC sysOk 0 exFlush).1 = 0 ∧
      (SDLC_line sysOk 0 exFlush).1.BLU_req_len 0 = 0 ∧
      (SDLC_line sysOk 0 exFlush).1.BLU_req_stat 0 = EMPTY ∧
      ((SDLC_line sysOk 0 exFlush).1.sdlcline 0).line_stat = CONN) ∧
    (((exFlush.sdlcline 0).d3274_fd < 1 ∨ sysOk.send_rc < 0) →
      (SendSDLC sysOk 0 exFlush).1 = -1 ∧
      ((SDLC_line sysOk 0 exFlush).1.sdlcline 0).line_stat = DISC ∧
      (SDLC_line sysOk 0 exFlush).1.BLU_req_stat 0 = FILLED ∧
      (SDLC_line sysOk 0 exFlush).1.BLU_req_len 0 = exFlush.BLU_req_len 0 ∧
      (SDLC_line sysOk 0 exFlush).1.BLU_req_buf = exFlush.BLU_req_buf) ∧
    ((SDLC_line sysOk 0 exFlush).1.BLU_rsp_buf = exFlush.BLU_rsp_buf ∧
      (SDLC_line sysOk 0 exFlush).1.BLU_rsp_len = exFlush.BLU_rsp_len ∧
      (SDLC_line sysOk 0 exFlush).1.BLU_rsp_stat = exFlush.BLU_rsp_stat)) :=
  ⟨by decide, C18_flush_outcome sysOk 0 exFlush (by decide) (by decide)⟩

/-- C19. Drain outcome: on a line with connection state CONN, an open peer
descriptor, an EMPTY response buffer and no request to flush in this pass:
when the pending-byte query succeeds with bytes pending and `read` returns
`n > 0` bytes, these bytes are in the response buffer from offset 0,
`BLU_rsp_len = n` and `BLU_rsp_stat = FILLED`; when the query succeeds with
no byte pending, `BLU_rsp_stat` stays EMPTY; when the query fails, the
connection state becomes DISC and `BLU_rsp_stat` stays EMPTY. -/
theorem C19_drain_outcome (e : Sys) (j : Nat) (s : State)
    (hconn : (s.sdlcline j).line_stat = CONN) (hst : s.BLU_rsp_stat j = EMPTY)
    (hnf : s.BLU_req_stat j ≠ FILLED) (hfd : 0 < (s.sdlcline j).d3274_fd) :
    (∀ data : List Nat, 0 ≤ e.ioctl_rc → 0 < e.rcv_cnt → e.read_res = some data →
      0 < data.length → data.length ≤ BUFLEN_LINE →
      (∀ t : Nat, t < data.length →
        data[t]? = some ((SDLC_line e j s).1.BLU_rsp_buf (idx j (t : Int)))) ∧
      (SDLC_line e j s).1.BLU_rsp_len j = (data.length : Int) ∧
      (SDLC_line e j s).1.BLU_rsp_stat j = FILLED) ∧
    (0 ≤ e.ioctl_rc → e.rcv_cnt = 0 → (SDLC_line e j s).1.BLU_rsp_stat j = EMPTY) ∧
    (e.ioctl_rc < 0 →
      ((SDLC_line e j s).1.sdlcline j).line_stat = DISC ∧
      (SDLC_line e j s).1.BLU_rsp_stat j = EMPTY) := by
  have hfd' : (s.sdlcline j).d3274_fd > 0 := hfd
  refine ⟨?_, ?_, ?_⟩
  · intro data hrc hcnt hread hpos hle
    have h1 : ¬ e.ioctl_rc < 0 := by omega
    have h2 : e.rcv_cnt > 0 := hcnt
    have htake : data.take BUFLEN_LINE = data := List.take_of_length_le hle
    have hpos' : ¬ ((data.length : Int) < 0) := by omega
    have hne : ¬ ((data.length : Int) = 0) := by omega
    have hres : (SDLC_line e j s).1.BLU_rsp_buf = writeBytes s.BLU_rsp_buf (idx j 0) data ∧
        (SDLC_line e j s).1.BLU_rsp_len j = (data.length : Int) ∧
        (SDLC_line e j s).1.BLU_rsp_stat j = FILLED := by
      simp only [SDLC_line, hconn, hnf, and_false, if_false, hst, and_self, if_true,
        ReadSDLC, hfd', h1, h2, hread, htake, upd_same, hpos', hne, set_line_stat]
    refine ⟨?_, hres.2.1, hres.2.2⟩
    intro t ht
    have ht' : (t : Int) < (data.length : Int) := by exact_mod_cast ht
    have hi : idx j (t : Int) = idx j 0 + (t : Int) := by unfold idx; ring
    rw [hres.1, hi]
    simp only [writeBytes]
    rw [if_pos ⟨by omega, by omega⟩]
    simp [List.getD_eq_getElem?_getD, List.getElem?_eq_getElem ht]
  · intro hrc hcnt
    have h1 : ¬ e.ioctl_rc < 0 := by omega
    simp [SDLC_line, ReadSDLC, hconn, hnf, hst, hfd', h1, hcnt]
  · intro hrc
    simp [SDLC_line, ReadSDLC, set_line_stat, set_d3274_fd, hconn, hnf, hst, hfd', hrc]

/-- Witness of C19: line 0 connected and EMPTY, six bytes pending on the peer. -/
theorem C19_drain_outcome_witness :
    ((exDrain.sdlcline 0).line_stat = CONN ∧ exDrain.BLU_rsp_stat 0 = EMPTY ∧
      exDrain.BLU_req_stat 0 ≠ FILLED ∧ 0 < (exDrain.sdlcline 0).d3274_fd) ∧
    ((∀ t : Nat, t < [0x7E, 0xC1, 0x73, 0x47, 0x0F, 0x7E].length →
        [0x7E, 0xC1, 0x73, 0x47, 0x0F, 0x7E][t]? =
          some ((SDLC_line sysData 0 exDrain).1.BLU_rsp_buf (idx 0 (t : Int)))) ∧
      (SDLC_line sysData 0 exDrain).1.BLU_rsp_len 0 =
        (([0x7E, 0xC1, 0x73, 0x47, 0x0F, 0x7E] : List Nat).length : Int) ∧
      (SDLC_line sysData 0 exDrain).1.BLU_rsp_stat 0 = FILLED) :=
  ⟨by decide,
    (C19_drain_outcome sysData 0 exDrain (by decide) (by decide) (by decide) (by decide)).1
      [0x7E, 0xC1, 0x73, 0x47, 0x0F, 0x7E] (by decide) (by decide) rfl (by decide)
      (by decide)⟩

set_option maxRecDepth 100000 in
/-- C14, the code at the failing input: line 0 is in PCF 6
(`pcf = pcf_nxt = 6`) with `pdf_reg = FILLED` and `pdf = 0x11`, a byte the NCP
supplied and that nobody has taken, no L2 pending, CCU level 0.  The scan
returns with `pdf = 0x7E`: the handler of PCF 6 has overwritten the FILLED
`pdf` (the handler of PCF 7 tests `pdf_reg == EMPTY` first, this one does
not). -/
theorem C14_pcf6_overwrites_filled_pdf :
    ex6F.icw_pcf 0 = 0x6 ∧ ex6F.icw_pcf_nxt 0 = 0x6 ∧ ex6F.icw_pdf_reg 0 = FILLED ∧
    ex6F.icw_pdf 0 = 0x11 ∧ ex6F.svc_req_L2 = OFF ∧ ex6F.lvl = 0 ∧
    scanLine ccuStuck 0 0 ex6F = some (scanned 0 ex6F) ∧
    (scanned 0 ex6F).icw_pdf 0 = 0x7E ∧ (scanned 0 ex6F).icw_pdf_reg 0 = FILLED :=
  ⟨by decide, by decide, by decide, by decide, by decide, by decide,
    scanLine_of_clears ccuStuck 0 0 ex6F (Or.inl (by decide)), by decide, by decide⟩

set_option maxRecDepth 100000 in
/-- C20, the code at the failing input: line 1 is in PCF 6
(`pcf = pcf_nxt = 6`) with `lcd = 0x2`, which is not an SDLC code, no L2
pending, CCU level 0, and `C1` next in the response buffer.  The scan does not
leave the line as it is: it takes the byte (`pdf = 0xC1`, `pdf_reg = FILLED`),
requests an L2 interrupt and moves to PCF 7.  The handlers of PCF 4, 5, 7, 8,
9, `0xC` and `0xD` test `lcd`, the handler of PCF 6 does not. -/
theorem C20_pcf6_ignores_lcd :
    exLcd.icw_pcf 1 = 0x6 ∧ exLcd.icw_pcf_nxt 1 = 0x6 ∧ exLcd.icw_lcd 1 = 0x2 ∧
    exLcd.icw_pdf 1 = 0x7E ∧ exLcd.icw_pdf_reg 1 = EMPTY ∧
    exLcd.svc_req_L2 = OFF ∧ exLcd.lvl = 0 ∧
    scanLine ccuStuck 0 1 exLcd = some (scanned 1 exLcd) ∧
    L2_requested 1 exLcd = true ∧
    (scanned 1 exLcd).icw_pcf 1 = 0x7 ∧ (scanned 1 exLcd).icw_pcf_nxt 1 = 0x7 ∧
    (scanned 1 exLcd).icw_pdf 1 = 0xC1 ∧ (scanned 1 exLcd).icw_pdf_reg 1 = FILLED :=
  ⟨by decide, by decide, by decide, by decide, by decide, by decide, by decide,
    scanLine_of_clears ccuStuck 0 1 exLcd (Or.inl (by decide)), by decide, by decide, by decide,
    by decide, by decide⟩

/-- Counterexample to C15 as stated: the request buffer of line 0 is FILLED
(handed to the line handler by the scan of PCF `0xC`).  When the NCP writes
PCF 0, the scan sets `BLU_req_stat` to EMPTY; when the NCP writes PCF 9 and
supplies `0x55`, the scan stores `0x55` in the first cell of the buffer. -/
theorem C15_counterexample :
    (exReqF0.BLU_req_stat 0 = FILLED ∧
      scanLine ccuStuck 0 0 exReqF0 = some (scanned 0 exReqF0) ∧
      (scanned 0 exReqF0).BLU_req_stat 0 = EMPTY) ∧
    (exReqF9.BLU_req_stat 0 = FILLED ∧ exReqF9.BLU_req_buf (idx 0 0) = 0 ∧
      scanLine ccuStuck 0 0 exReqF9 = some (scanned 0 exReqF9) ∧
      (scanned 0 exReqF9).BLU_req_buf (idx 0 0) = 0x55) :=
  ⟨⟨by decide, scanLine_of_clears ccuStuck 0 0 exReqF0 (Or.inl (by decide)), by decide⟩,
    by decide, by decide, scanLine_of_clears ccuStuck 0 0 exReqF9 (Or.inl (by decide)),
    by decide⟩

/-- C15, amended. The scanner does not test `BLU_req_stat`.  A scan of a line
whose request buffer is FILLED leaves `BLU_req_stat` FILLED unless the PCF
handled is 0 (which sets it EMPTY); it leaves `BLU_req_len` as it was unless it
is a first entry to PCF `0xC` with `lcd = 0x9` (which sets it to the request
pointer); it leaves the request memory as it was unless it is a scan of PCF 9
with `lcd = 0x9`, `pdf_reg = FILLED`, no L2 pending and a CCU level other than
2 (which stores `pdf` at the request pointer). -/
theorem C15_req_ownership (ccu : Nat → Bool) (fuel line : Nat) (s : State)
    (hst : s.BLU_req_stat line = FILLED) (hret : scanEnds ccu fuel line s) :
    ∃ s', scanLine ccu fuel line s = some s' ∧
      (s.icw_pcf_nxt line ≠ 0x0 → s'.BLU_req_stat line = FILLED) ∧
      (s.icw_pcf_nxt line = 0x0 → s'.BLU_req_stat line = EMPTY) ∧
      (¬ (s.icw_pcf_nxt line = 0xC ∧ s.icw_lcd line = 0x9 ∧
          (s.icw_pcf line ≠ 0xC ∨ s.icw_pcf_prev line ≠ 0xC)) →
        s'.BLU_req_len line = s.BLU_req_len line) ∧
      (¬ (s.icw_pcf_nxt line = 0x9 ∧ s.icw_lcd line = 0x9 ∧ s.icw_pdf_reg line = FILLED ∧
          s.svc_req_L2 = OFF ∧ s.lvl ≠ 2) →
        s'.BLU_req_buf = s.BLU_req_buf) := by
  refine ⟨scanned line s, scanLine_of_ends ccu fuel line s hret, ?_, ?_, ?_, ?_⟩
  · intro hn
    rw [(scanned_frame line s).2.2.2.1]
    have hA : (phaseA line s).BLU_req_stat line = FILLED := by
      rw [(phaseA_frame line s).2.2.2.1]; exact hst
    have hp : (phaseA line s).icw_pcf line ≠ 0 := by rw [phaseA_pcf]; exact hn
    generalize phaseA line s = a at hA hp
    apply phaseB_by_pcf (fun x => x.BLU_req_stat line = FILLED)
    · intro h; exact absurd h hp
    · intro _; unfold case_1; split_ifs <;> exact hA
    · intro _; unfold case_4; simp only; split_ifs <;> exact hA
    · intro _; unfold case_6; simp only; split_ifs <;> exact hA
    · intro _; unfold case_7; simp only; split_ifs <;> exact hA
    · intro _; unfold case_8; split_ifs <;> exact hA
    · intro _; unfold case_9; simp only; split_ifs <;> exact hA
    · intro _; unfold case_C; simp only; split_ifs <;> simp [hA]
    · intro _; exact hA
    · intro _; exact hA
  · intro hn
    rw [(scanned_frame line s).2.2.2.1]
    have hp : (phaseA line s).icw_pcf line = 0 := by rw [phaseA_pcf]; exact hn
    simp [phaseB, hp, case_0]
  · intro hn
    rw [(scanned_frame line s).2.2.1]
    have hA : (phaseA line s).BLU_req_len line = s.BLU_req_len line := by
      rw [(phaseA_frame line s).2.2.1]
    have hp : (phaseA line s).icw_pcf line = s.icw_pcf_nxt line := phaseA_pcf line s
    have hl : (phaseA line s).icw_lcd line = s.icw_lcd line := by
      rw [(phaseA_frame line s).2.2.2.2.2.2.2.2.2.1]
    have hv : (phaseA line s).icw_pcf line = 0xC → s.icw_lcd line = 0x9 →
        (phaseA line s).icw_pcf_prev line = (phaseA line s).icw_pcf line := by
      intro h1 h2
      rw [hp] at h1
      have h3 : ¬ (s.icw_pcf line ≠ 0xC ∨ s.icw_pcf_prev line ≠ 0xC) := fun h => hn ⟨h1, h2, h⟩
      have h4 : s.icw_pcf line = 0xC := by
        by_contra h; exact h3 (Or.inl h)
      have h5 : s.icw_pcf_prev line = 0xC := by
        by_contra h; exact h3 (Or.inr h)
      simp [phaseA, h1, h4, h5]
    generalize phaseA line s = a at hA hp hl hv
    apply phaseB_by_pcf (fun x => x.BLU_req_len line = s.BLU_req_len line)
    · intro _; exact hA
    · intro _; unfold case_1; split_ifs <;> exact hA
    · intro _; unfold case_4; simp only; split_ifs <;> exact hA
    · intro _; unfold case_6; simp only; split_ifs <;> exact hA
    · intro _; unfold case_7; simp only; split_ifs <;> exact hA
    · intro _; unfold case_8; split_ifs <;> exact hA
    · intro _; unfold case_9; simp only; split_ifs <;> exact hA
    · intro hc
      unfold case_C
      simp only
      split_ifs with c1 c2
      · exact absurd (hv hc (by rw [← hl]; exact c1)) c2
      · exact hA
      · exact hA
    · intro _; exact hA
    · intro _; exact hA
  · intro hn
    rw [(scanned_frame line s).1]
    have hA : (phaseA line s).BLU_req_buf = s.BLU_req_buf := (phaseA_frame line s).1
    have hp : (phaseA line s).icw_pcf line = s.icw_pcf_nxt line := phaseA_pcf line s
    have hl : (phaseA line s).icw_lcd line = s.icw_lcd line := by
      rw [(phaseA_frame line s).2.2.2.2.2.2.2.2.2.1]
    have hr : (phaseA line s).icw_pdf_reg line = s.icw_pdf_reg line := by
      rw [(phaseA_frame line s).2.2.2.2.2.2.2.2.2.2.1]
    have hv : (phaseA line s).svc_req_L2 = s.svc_req_L2 := phaseA_svc line s
    have hw : (phaseA line s).lvl = s.lvl := phaseA_lvl line s
    generalize phaseA line s = a at hA hp hl hr hv hw
    apply phaseB_by_pcf (fun x => x.BLU_req_buf = s.BLU_req_buf)
    · intro _; exact hA
    · intro _; unfold case_1; split_ifs <;> exact hA
    · intro _; unfold case_4; simp only; split_ifs <;> exact hA
    · intro _; unfold case_6; simp only; split_ifs <;> exact hA
    · intro _; unfold case_7; simp only; split_ifs <;> exact hA
    · intro _; unfold case_8; split_ifs <;> exact hA
    · intro hc
      unfold case_9
      simp only
      split_ifs with c1 c2 c3
      · exact hA
      · exfalso
        apply hn
        simp only [L2_active, Bool.or_eq_true, beq_iff_eq, decide_eq_true_eq, not_or] at c1
        refine ⟨by rw [← hp]; exact hc, by rw [← hl]; exact c2, by rw [← hr]; exact c3, ?_, ?_⟩
        · rw [← hv]; simpa using c1.1
        · rw [← hw]; exact c1.2
      · exact hA
      · exact hA
    · intro _; unfold case_C; simp only; split_ifs <;> exact hA
    · intro _; exact hA
    · intro _; exact hA

/-- Witness of C15, amended: line 0 with a FILLED request buffer, the NCP
having written PCF 9 and supplied a byte. -/
theorem C15_req_ownership_witness :
    (exReqF9.BLU_req_stat 0 = FILLED ∧ scanEnds ccuStuck 0 0 exReqF9) ∧
    ∃ s', scanLine ccuStuck 0 0 exReqF9 = some s' ∧
      (exReqF9.icw_pcf_nxt 0 ≠ 0x0 → s'.BLU_req_stat 0 = FILLED) ∧
      (exReqF9.icw_pcf_nxt 0 = 0x0 → s'.BLU_req_stat 0 = EMPTY) ∧
      (¬ (exReqF9.icw_pcf_nxt 0 = 0xC ∧ exReqF9.icw_lcd 0 = 0x9 ∧
          (exReqF9.icw_pcf 0 ≠ 0xC ∨ exReqF9.icw_pcf_prev 0 ≠ 0xC)) →
        s'.BLU_req_len 0 = exReqF9.BLU_req_len 0) ∧
      (¬ (exReqF9.icw_pcf_nxt 0 = 0x9 ∧ exReqF9.icw_lcd 0 = 0x9 ∧
          exReqF9.icw_pdf_reg 0 = FILLED ∧ exReqF9.svc_req_L2 = OFF ∧ exReqF9.lvl ≠ 2) →
        s'.BLU_req_buf = exReqF9.BLU_req_buf) :=
  ⟨⟨by decide, Or.inr (Or.inl (by decide))⟩,
    C15_req_ownership ccuStuck 0 0 exReqF9 (by decide) (Or.inr (Or.inl (by decide)))⟩

/-- Counterexample to C17 as stated: line 0 is RESET (it has been since
`Init_ICW`) and stays RESET through the observation of the NCP write; the NCP
has selected SDLC, written PCF 9 and supplied `7E`.  The scan appends the byte:
the request pointer goes from 0 to 1 and the first cell of the request buffer
from 0 to `7E`. -/
theorem C17_counterexample :
    exReset9.icw_lne_stat 0 = RESET ∧ (phaseA 0 exReset9).icw_lne_stat 0 = RESET ∧
    exReset9.BLU_req_ptr 0 = 0 ∧ exReset9.BLU_req_buf (idx 0 0) = 0 ∧
    scanLine ccuStuck 0 0 exReset9 = some (scanned 0 exReset9) ∧
    (scanned 0 exReset9).icw_lne_stat 0 = RESET ∧
    (scanned 0 exReset9).BLU_req_ptr 0 = 1 ∧
    (scanned 0 exReset9).BLU_req_buf (idx 0 0) = 0x7E :=
  ⟨by decide, by decide, by decide, by decide,
    scanLine_of_clears ccuStuck 0 0 exReset9 (Or.inl (by decide)), by decide, by decide,
    by decide⟩

/-- C17, amended. Only the handlers of PCF 4 and 5 test the line state.  A
scan of a line whose line state is RESET and whose PCF (after the observation
of NCP writes) is not 6, 7 or 9 appends nothing to the request buffer (the
request memory is unchanged, the request pointer is unchanged or reset to 0)
and takes no byte from the response buffer (the response pointer is unchanged
or reset to 0, `pdf` and `pdf_reg` are unchanged); in PCF 4 and 5 it moreover
detects no flag: `pcf_nxt` and `lcd` are unchanged and no L2 interrupt is
requested by the handler. -/
theorem C17_reset_blocks (ccu : Nat → Bool) (fuel line : Nat) (s : State)
    (hreset : s.icw_lne_stat line = RESET)
    (h6 : s.icw_pcf_nxt line ≠ 0x6) (h7 : s.icw_pcf_nxt line ≠ 0x7)
    (h9 : s.icw_pcf_nxt line ≠ 0x9) (hret : scanEnds ccu fuel line s) :
    ∃ s', scanLine ccu fuel line s = some s' ∧
      s'.BLU_req_buf = s.BLU_req_buf ∧
      (s'.BLU_req_ptr line = s.BLU_req_ptr line ∨ s'.BLU_req_ptr line = 0) ∧
      (s'.BLU_rsp_ptr line = s.BLU_rsp_ptr line ∨ s'.BLU_rsp_ptr line = 0) ∧
      s'.icw_pdf = s.icw_pdf ∧
      s'.icw_pdf_reg = s.icw_pdf_reg ∧
      ((s.icw_pcf_nxt line = 0x4 ∨ s.icw_pcf_nxt line = 0x5) →
        s'.icw_pcf_nxt line = s.icw_pcf_nxt line ∧ s'.icw_lcd = s.icw_lcd ∧
        L2_requested line s = s.CS2_req_L2_int) := by
  obtain ⟨f1, f2, _, _, _, f6, _, _, _, f10, _, _, _, _, f15, f16⟩ := scanned_frame line s
  obtain ⟨a1, a2, _, _, _, a6, _, _, a9, a10, a11, a12⟩ := phaseA_frame line s
  have hp : (phaseA line s).icw_pcf line = s.icw_pcf_nxt line := phaseA_pcf line s
  have hn : (phaseA line s).icw_pcf_nxt = s.icw_pcf_nxt := phaseA_nxt line s
  have hr : (phaseA line s).icw_lne_stat line = RESET := phaseA_lne_reset line s hreset
  refine ⟨scanned line s, scanLine_of_ends ccu fuel line s hret, ?_, ?_, ?_, ?_, ?_, ?_⟩
  · rw [f1, ← a1]
    have hp6 : (phaseA line s).icw_pcf line ≠ 0x9 := by rw [hp]; exact h9
    generalize phaseA line s = a at hp6
    apply phaseB_by_pcf (fun x => x.BLU_req_buf = a.BLU_req_buf)
    · intro _; rfl
    · intro _; unfold case_1; split_ifs <;> rfl
    · intro _; unfold case_4; simp only; split_ifs <;> rfl
    · intro _; unfold case_6; simp only; split_ifs <;> rfl
    · intro _; unfold case_7; simp only; split_ifs <;> rfl
    · intro _; unfold case_8; split_ifs <;> rfl
    · intro h; exact absurd h hp6
    · intro _; unfold case_C; simp only; split_ifs <;> rfl
    · intro _; rfl
    · intro _; rfl
  · rw [f2, ← a2]
    have hp6 : (phaseA line s).icw_pcf line ≠ 0x9 := by rw [hp]; exact h9
    generalize phaseA line s = a at hp6
    apply phaseB_by_pcf
      (fun x => x.BLU_req_ptr line = a.BLU_req_ptr line ∨ x.BLU_req_ptr line = 0)
    · intro _; exact Or.inl rfl
    · intro _; unfold case_1; split_ifs <;> exact Or.inl rfl
    · intro _; unfold case_4; simp only; split_ifs <;> exact Or.inl rfl
    · intro _; unfold case_6; simp only; split_ifs <;> exact Or.inl rfl
    · intro _; unfold case_7; simp only; split_ifs <;> exact Or.inl rfl
    · intro _; unfold case_8; split_ifs <;> exact Or.inl rfl
    · intro h; exact absurd h hp6
    · intro _; unfold case_C; simp only; split_ifs <;> simp
    · intro _; exact Or.inl rfl
    · intro _; exact Or.inl rfl
  · rw [f6, ← a6]
    have hp6 : (phaseA line s).icw_pcf line ≠ 0x6 := by rw [hp]; exact h6
    have hp7 : (phaseA line s).icw_pcf line ≠ 0x7 := by rw [hp]; exact h7
    generalize phaseA line s = a at hp6 hp7
    apply phaseB_by_pcf
      (fun x => x.BLU_rsp_ptr line = a.BLU_rsp_ptr line ∨ x.BLU_rsp_ptr line = 0)
    · intro _; exact Or.inl rfl
    · intro _; unfold case_1; split_ifs <;> exact Or.inl rfl
    · intro _; unfold case_4; simp only; split_ifs <;> simp
    · intro h; exact absurd h hp6
    · intro h; exact absurd h hp7
    · intro _; unfold case_8; split_ifs <;> exact Or.inl rfl
    · intro _; unfold case_9; simp only; split_ifs <;> exact Or.inl rfl
    · intro _; unfold case_C; simp only; split_ifs <;> exact Or.inl rfl
    · intro _; exact Or.inl rfl
    · intro _; exact Or.inl rfl
  · rw [f10, ← a9]
    have hp6 : (phaseA line s).icw_pcf line ≠ 0x6 := by rw [hp]; exact h6
    have hp7 : (phaseA line s).icw_pcf line ≠ 0x7 := by rw [hp]; exact h7
    generalize phaseA line s = a at hp6 hp7
    apply phaseB_by_pcf (fun x => x.icw_pdf = a.icw_pdf)
    · intro _; rfl
    · intro _; unfold case_1; split_ifs <;> rfl
    · intro _; unfold case_4; simp only; split_ifs <;> rfl
    · intro h; exact absurd h hp6
    · intro h; exact absurd h hp7
    · intro _; unfold case_8; split_ifs <;> rfl
    · intro _; unfold case_9; simp only; split_ifs <;> rfl
    · intro _; unfold case_C; simp only; split_ifs <;> rfl
    · intro _; rfl
    · intro _; rfl
  · rw [f16, ← a11]
    have hp6 : (phaseA line s).icw_pcf line ≠ 0x6 := by rw [hp]; exact h6
    have hp7 : (phaseA line s).icw_pcf line ≠ 0x7 := by rw [hp]; exact h7
    have hp9 : (phaseA line s).icw_pcf line ≠ 0x9 := by rw [hp]; exact h9
    generalize phaseA line s = a at hp6 hp7 hp9
    apply phaseB_by_pcf (fun x => x.icw_pdf_reg = a.icw_pdf_reg)
    · intro _; rfl
    · intro _; unfold case_1; split_ifs <;> rfl
    · intro _; unfold case_4; simp only; split_ifs <;> rfl
    · intro h; exact absurd h hp6
    · intro h; exact absurd h hp7
    · intro _; unfold case_8; split_ifs <;> rfl
    · intro h; exact absurd h hp9
    · intro _; unfold case_C; simp only; split_ifs <;> rfl
    · intro _; rfl
    · intro _; rfl
  · intro h45
    have hB : phaseB line (phaseA line s) = case_4 line (phaseA line s) := by
      rcases h45 with h | h <;> simp [phaseB, hp, h]
    have hC : case_4 line (phaseA line s) =
        { phaseA line s with BLU_rsp_ptr := upd (phaseA line s).BLU_rsp_ptr line 0 } := by
      simp [case_4, hr]
    refine ⟨?_, ?_, ?_⟩
    · rw [f15, hB, hC]
      show (phaseA line s).icw_pcf_nxt line = _
      rw [hn]
    · have := (scanned_frame line s).2.2.2.2.2.2.2.2.2.2.1
      rw [this, hB, hC]
      exact a10
    · unfold L2_requested
      rw [hB, hC]
      exact a12

/-- Witness of C17, amended: line 0 after initialisation (RESET), the NCP
having written PCF 5. -/
theorem C17_reset_blocks_witness :
    ((ncp_pcf 0 0x5 init0).icw_lne_stat 0 = RESET ∧
      (ncp_pcf 0 0x5 init0).icw_pcf_nxt 0 ≠ 0x6 ∧ (ncp_pcf 0 0x5 init0).icw_pcf_nxt 0 ≠ 0x7 ∧
      (ncp_pcf 0 0x5 init0).icw_pcf_nxt 0 ≠ 0x9 ∧
      scanEnds ccuStuck 0 0 (ncp_pcf 0 0x5 init0)) ∧
    ∃ s', scanLine ccuStuck 0 0 (ncp_pcf 0 0x5 init0) = some s' ∧
      s'.BLU_req_buf = (ncp_pcf 0 0x5 init0).BLU_req_buf ∧
      (s'.BLU_req_ptr 0 = (ncp_pcf 0 0x5 init0).BLU_req_ptr 0 ∨ s'.BLU_req_ptr 0 = 0) ∧
      (s'.BLU_rsp_ptr 0 = (ncp_pcf 0 0x5 init0).BLU_rsp_ptr 0 ∨ s'.BLU_rsp_ptr 0 = 0) ∧
      s'.icw_pdf = (ncp_pcf 0 0x5 init0).icw_pdf ∧
      s'.icw_pdf_reg = (ncp_pcf 0 0x5 init0).icw_pdf_reg ∧
      (((ncp_pcf 0 0x5 init0).icw_pcf_nxt 0 = 0x4 ∨ (ncp_pcf 0 0x5 init0).icw_pcf_nxt 0 = 0x5) →
        s'.icw_pcf_nxt 0 = (ncp_pcf 0 0x5 init0).icw_pcf_nxt 0 ∧
        s'.icw_lcd = (ncp_pcf 0 0x5 init0).icw_lcd ∧
        L2_requested 0 (ncp_pcf 0 0x5 init0) = (ncp_pcf 0 0x5 init0).CS2_req_L2_int) :=
  ⟨⟨by decide, by decide, by decide, by decide, Or.inr (Or.inl (by decide))⟩,
    C17_reset_blocks ccuStuck 0 0 (ncp_pcf 0 0x5 init0) (by decide) (by decide) (by decide)
      (by decide) (Or.inr (Or.inl (by decide)))⟩

set_option maxRecDepth 100000 in
/-- Counterexample to C11 as stated: from line 0 in PCF 9 after initialisation
the NCP supplies 16384 bytes without a turnaround, which the scanner stores;
the request pointer of line 0 is then 16384, the size of a buffer.  When the
NCP supplies one more byte, `0x55`, the scan of line 0 stores it in
`BLU_req_buf[0][16384]`, which is the cell `BLU_req_buf[1][0]`: the first cell
of the request buffer of line 1 goes from 0 to `0x55`. -/
theorem C11_counterexample :
    ∃ s1 : State,
      txFeed ccuPrompt 1 0 (List.replicate 16384 (0x55, 0)) ex9 = some s1 ∧
      s1.BLU_req_ptr 0 = 16384 ∧ idx 0 16384 = idx 1 0 ∧
      scanLine ccuPrompt 1 0 (ncp_pdf 0 0x55 (ccu_done 0 s1)) =
        some (scanned 0 (ncp_pdf 0 0x55 (ccu_done 0 s1))) ∧
      (ncp_pdf 0 0x55 (ccu_done 0 s1)).BLU_req_buf (idx 1 0) = 0 ∧
      (scanned 0 (ncp_pdf 0 0x55 (ccu_done 0 s1))).BLU_req_buf (idx 1 0) = 0x55 ∧
      ¬ sameLine 1 (ncp_pdf 0 0x55 (ccu_done 0 s1))
        (scanned 0 (ncp_pdf 0 0x55 (ccu_done 0 s1))) := by
  have hlv : ∀ p ∈ List.replicate 16384 ((0x55, 0) : Nat × Int), p.2 ≠ 2 := by
    intro p hp
    rw [List.eq_of_mem_replicate hp]
    decide
  have hlcd : ex9.icw_lcd 0 = 0x9 := by decide
  have hnxt : ex9.icw_pcf_nxt 0 = 0x9 := by decide
  obtain ⟨s1, hs1, hlcd1, hnxt1, _, hptr1, _, _, _⟩ :=
    txFeed_spec ccuPrompt 1 0 (List.replicate 16384 (0x55, 0)) ex9 hlcd hnxt hlv
  have hp0 : ex9.BLU_req_ptr 0 = 0 := by decide
  have hptr : s1.BLU_req_ptr 0 = 16384 := by
    rw [hptr1, hp0, List.length_replicate]
    norm_num
  have hi : idx 0 16384 = idx 1 0 := by simp [idx, BUFFER_SIZE]
  have hold : s1.BLU_req_buf (idx 1 0) = 0 := by
    rw [txFeed_above ccuPrompt 1 0 _ ex9 s1 hlcd hnxt hlv hs1 (idx 1 0)
      (by rw [hp0, List.length_replicate]; simp [idx, BUFFER_SIZE])]
    decide
  obtain ⟨s', hs', _, _, _, _, hbuf', _⟩ :=
    scan9_feed ccuPrompt 1 0 0x55 0 s1 hlcd1 hnxt1 (by decide)
  have he := scanLine_some ccuPrompt 1 0 _ s' hs'
  have hnew : (scanned 0 (ncp_pdf 0 0x55 (ccu_done 0 s1))).BLU_req_buf (idx 1 0) = 0x55 := by
    rw [← he, hbuf', hptr, hi]
    exact upd_same _ _ _
  have hold2 : (ncp_pdf 0 0x55 (ccu_done 0 s1)).BLU_req_buf (idx 1 0) = 0 := hold
  refine ⟨s1, hs1, hptr, hi, ?_, hold2, hnew, ?_⟩
  · rw [← he]; exact hs'
  · intro hsame
    have h17 := hsame.2.2.2.2.2.2.2.2.2.2.2.2.2.2.2.2.1 0 (by norm_num) (by simp [BUFFER_SIZE])
    rw [hold2, hnew] at h17
    exact absurd h17 (by decide)

/-- C11, amended. The scanner checks no buffer bound.  A scan of line `i`
whose buffer accesses stay inside the buffers of line `i` (request pointer in
`[0, 16384)` when PCF 9 is handled, response pointer in `[0, 16384)` when PCF 6
is handled and in `[2, 16384)` when PCF 7 is handled) returns a state that
agrees with the one it started in on every per-line field of every other line
`j`: `scf`, `pdf`, `lcd`, `pcf`, `sdf`, `Rflags`, `pcf_prev`, `pcf_nxt`,
`lne_stat`, `pdf_reg` and both BLU buffers with their pointers, lengths and
state flags.  Its effect on line `i` does not depend on the other lines: from
any state that agrees on line `i` and on `svc_req_L2`, `lvl` and
`CS2_req_L2_int`, the scan returns as well, requests an L2 interrupt in the
same case, and the two results agree on line `i` and on these flags. -/
theorem C11_line_independence (ccu : Nat → Bool) (fuel i : Nat) (s : State)
    (hrows : rowsOnly i s) (hret : scanEnds ccu fuel i s) :
    ∃ s', scanLine ccu fuel i s = some s' ∧
      (∀ j, j ≠ i → sameLine j s s') ∧
      (∀ t, scanEq i s t →
        ∃ t', scanLine ccu fuel i t = some t' ∧
          L2_requested i t = L2_requested i s ∧ scanEq i s' t') := by
  obtain ⟨h9, h6, h7⟩ := hrows
  refine ⟨scanned i s, scanLine_of_ends ccu fuel i s hret, ?_, ?_⟩
  · intro j hne
    exact scanned_other i j s hne h9
  · intro t ht
    obtain ⟨hB, hS⟩ := scanned_indep i s t ht h6 h7
    have hL : L2_requested i t = L2_requested i s := by
      unfold L2_requested
      exact hB.2.2.2.symm
    refine ⟨scanned i t, ?_, hL, hS⟩
    apply scanLine_of_ends
    rcases hret with hq | hc
    · exact Or.inl (hL.trans hq)
    · refine Or.inr ?_
      unfold ccuClears at hc ⊢
      rw [← ht.2.1]
      exact hc

set_option maxRecDepth 100000 in
/-- C11 at a concrete input: the scan of line 0 in PCF 9 with the byte `7E`
supplied and request pointer 0, compared with the scan from a state in which
the NCP has written PCF 5 and supplied `0x33` on line 1. -/
theorem C11_line_independence_witness :
    (rowsOnly 0 exReset9 ∧ scanEnds ccuStuck 0 0 exReset9 ∧
      scanEq 0 exReset9 (ncp_pcf 1 0x5 (ncp_pdf 1 0x33 exReset9))) ∧
    ∃ s', scanLine ccuStuck 0 0 exReset9 = some s' ∧
      (∀ j, j ≠ 0 → sameLine j exReset9 s') ∧
      (∀ t, scanEq 0 exReset9 t →
        ∃ t', scanLine ccuStuck 0 0 t = some t' ∧
          L2_requested 0 t = L2_requested 0 exReset9 ∧ scanEq 0 s' t') :=
  ⟨⟨by unfold rowsOnly; decide, Or.inr (Or.inl (by decide)),
      by simp [scanEq, sameLine, ncp_pcf, ncp_pdf, upd]⟩,
    C11_line_independence ccuStuck 0 0 exReset9 (by unfold rowsOnly; decide)
      (Or.inr (Or.inl (by decide)))⟩

/-- C21. DCD always on: from every state and for every PCF value, a scan of a
line that returns leaves SCF bit `0x08` of the line set; and the scan returns
whenever it requests no L2 interrupt or the CCU ends its wait. -/
theorem C21_dcd_always_on (ccu : Nat → Bool) (fuel line : Nat) (s : State) :
    (∀ s', scanLine ccu fuel line s = some s' → s'.icw_scf line &&& 0x08 = 0x08) ∧
    (scanEnds ccu fuel line s →
      ∃ s', scanLine ccu fuel line s = some s' ∧ s'.icw_scf line &&& 0x08 = 0x08) := by
  have hA : (phaseA line s).icw_scf line &&& 0x08 = 0x08 := by
    unfold phaseA
    simp only
    split_ifs <;> simp [or_and_self_mask]
  have hS : (scanned line s).icw_scf line &&& 0x08 = 0x08 := by
    rw [(scanned_frame line s).2.2.2.2.2.2.2.2.1]
    exact phaseB_dcd line _ hA
  refine ⟨?_, ?_⟩
  · intro s' h
    rw [scanLine_some ccu fuel line s s' h]
    exact hS
  · intro hret
    exact ⟨scanned line s, scanLine_of_ends ccu fuel line s hret, hS⟩

set_option maxRecDepth 100000 in
/-- C21 at a concrete input: the scan of line 1 in PCF 5 that finds the flag. -/
theorem C21_dcd_always_on_witness :
    scanEnds ccuStuck 0 1 exRx ∧
    ∃ s', scanLine ccuStuck 0 1 exRx = some s' ∧ s'.icw_scf 1 &&& 0x08 = 0x08 :=
  ⟨Or.inr (Or.inl (by decide)),
    (C21_dcd_always_on ccuStuck 0 1 exRx).2 (Or.inr (Or.inl (by decide)))⟩

/-- C22. PCF 4/5 flag detection: on a line with `pcf = pcf_nxt = v`, `v` being
4 or 5, line state RX and `lcd` 8 or 9 (no L2 request left over, as after every
scan), one scan returns a state with response pointer 0.  It requests an L2
interrupt if and only if `BLU_rsp_stat = FILLED` and `rsp[0] = 0x7E`.  In that
case SCF is the old one with bit `0x08` set, bit `0x04` cleared and then set,
`lcd = 0x9`, the L2 interrupt is raised and `pcf = pcf_nxt = 6`.  Otherwise
SCF bit `0x04` is clear, `pcf`, `pcf_nxt` and `lcd` are as before and no L2
interrupt is raised.  Nothing in the outcome depends on whether `v` is 4 or
5. -/
theorem C22_pcf45_flag_detection (ccu : Nat → Bool) (fuel line : Nat) (s : State) (v : Nat)
    (hv : v = 0x4 ∨ v = 0x5) (hpcf : s.icw_pcf line = v) (hnxt : s.icw_pcf_nxt line = v)
    (hst : s.icw_lne_stat line = RX) (hlcd : s.icw_lcd line = 0x8 ∨ s.icw_lcd line = 0x9)
    (hq : s.CS2_req_L2_int = OFF) (hret : scanEnds ccu fuel line s) :
    ∃ s', scanLine ccu fuel line s = some s' ∧
      s'.BLU_rsp_ptr line = 0 ∧
      (L2_requested line s = true ↔
        (s.BLU_rsp_stat line = FILLED ∧ s.BLU_rsp_buf (idx line 0) = 0x7E)) ∧
      ((s.BLU_rsp_stat line = FILLED ∧ s.BLU_rsp_buf (idx line 0) = 0x7E) →
        s'.icw_scf line = (((s.icw_scf line ||| 0x08) &&& 0xFB) ||| 0x04) ∧
        s'.icw_scf line &&& 0x04 = 0x04 ∧
        s'.icw_lcd line = 0x9 ∧
        s'.svc_req_L2 = ON ∧ s'.abar_int = (line : Int) + 0x020 ∧
        s'.icw_pcf line = 0x6 ∧ s'.icw_pcf_nxt line = 0x6) ∧
      (¬ (s.BLU_rsp_stat line = FILLED ∧ s.BLU_rsp_buf (idx line 0) = 0x7E) →
        s'.icw_scf line = ((s.icw_scf line ||| 0x08) &&& 0xFB) ∧
        s'.icw_scf line &&& 0x04 = 0 ∧
        s'.icw_lcd line = s.icw_lcd line ∧
        s'.svc_req_L2 = s.svc_req_L2 ∧ s'.abar_int = s.abar_int ∧
        s'.icw_pcf line = v ∧ s'.icw_pcf_nxt line = v) := by
  refine ⟨scanned line s, scanLine_of_ends ccu fuel line s hret, ?_⟩
  rcases hv with rfl | rfl <;> rcases hlcd with hl | hl <;>
    by_cases h1 : s.BLU_rsp_stat line = FILLED <;>
    by_cases h2 : s.BLU_rsp_buf (idx line 0) = 0x7E <;>
    simp [scanned, L2_requested, phaseB, phaseA, case_4, commit, raiseL2, hpcf, hnxt, hst, hl,
      hq, h1, h2, or_and_self_mask, and_FB_04]

set_option maxRecDepth 100000 in
/-- C22 at a concrete input: line 1 in PCF 5, receiving, with the frame
`7E C1 73 47 0F 7E` in its FILLED response buffer. -/
theorem C22_pcf45_flag_detection_witness :
    (((5 : Nat) = 0x4 ∨ (5 : Nat) = 0x5) ∧ exRx.icw_pcf 1 = 5 ∧ exRx.icw_pcf_nxt 1 = 5 ∧
      exRx.icw_lne_stat 1 = RX ∧ (exRx.icw_lcd 1 = 0x8 ∨ exRx.icw_lcd 1 = 0x9) ∧
      exRx.CS2_req_L2_int = OFF ∧ scanEnds ccuStuck 0 1 exRx) ∧
    ∃ s', scanLine ccuStuck 0 1 exRx = some s' ∧
      s'.BLU_rsp_ptr 1 = 0 ∧
      (L2_requested 1 exRx = true ↔
        (exRx.BLU_rsp_stat 1 = FILLED ∧ exRx.BLU_rsp_buf (idx 1 0) = 0x7E)) ∧
      ((exRx.BLU_rsp_stat 1 = FILLED ∧ exRx.BLU_rsp_buf (idx 1 0) = 0x7E) →
        s'.icw_scf 1 = (((exRx.icw_scf 1 ||| 0x08) &&& 0xFB) ||| 0x04) ∧
        s'.icw_scf 1 &&& 0x04 = 0x04 ∧
        s'.icw_lcd 1 = 0x9 ∧
        s'.svc_req_L2 = ON ∧ s'.abar_int = ((1 : Nat) : Int) + 0x020 ∧
        s'.icw_pcf 1 = 0x6 ∧ s'.icw_pcf_nxt 1 = 0x6) ∧
      (¬ (exRx.BLU_rsp_stat 1 = FILLED ∧ exRx.BLU_rsp_buf (idx 1 0) = 0x7E) →
        s'.icw_scf 1 = ((exRx.icw_scf 1 ||| 0x08) &&& 0xFB) ∧
        s'.icw_scf 1 &&& 0x04 = 0 ∧
        s'.icw_lcd 1 = exRx.icw_lcd 1 ∧
        s'.svc_req_L2 = exRx.svc_req_L2 ∧ s'.abar_int = exRx.abar_int ∧
        s'.icw_pcf 1 = 5 ∧ s'.icw_pcf_nxt 1 = 5) :=
  ⟨⟨by decide, by decide, by decide, by decide, by decide, by decide,
      Or.inr (Or.inl (by decide))⟩,
    C22_pcf45_flag_detection ccuStuck 0 1 exRx 5 (by decide) (by decide) (by decide) (by decide)
      (by decide) (by decide) (Or.inr (Or.inl (by decide)))⟩

/-- C23. PCF 4/5 wait: on a line with `pcf = pcf_nxt = v`, `v` being 4 or 5,
and line state RESET or TX (no L2 request left over, as after every scan), one
scan requests no L2 interrupt and returns the state it started in with SCF bit
`0x08` set, the response pointer 0 and `pcf_prev = v`, whatever the response
buffer holds.  In particular `pcf`, `pcf_nxt`, `lcd`, `pdf`, `pdf_reg`, SCF bit
`0x04`, `BLU_req_stat` and `BLU_rsp_stat` are unchanged and no L2 interrupt is
raised. -/
theorem C23_pcf45_wait (ccu : Nat → Bool) (fuel line : Nat) (s : State) (v : Nat)
    (hv : v = 0x4 ∨ v = 0x5) (hpcf : s.icw_pcf line = v) (hnxt : s.icw_pcf_nxt line = v)
    (hst : s.icw_lne_stat line = RESET ∨ s.icw_lne_stat line = TX)
    (hq : s.CS2_req_L2_int = OFF) :
    ∃ s', scanLine ccu fuel line s = some s' ∧
      L2_requested line s = false ∧
      s' = { s with
        icw_scf := upd s.icw_scf line (s.icw_scf line ||| 0x08)
        BLU_rsp_ptr := upd s.BLU_rsp_ptr line 0
        icw_pcf_prev := upd s.icw_pcf_prev line v } ∧
      s'.BLU_rsp_ptr line = 0 ∧
      s'.icw_pcf line = v ∧ s'.icw_pcf_nxt line = v ∧
      s'.icw_lcd line = s.icw_lcd line ∧ s'.icw_pdf line = s.icw_pdf line ∧
      s'.icw_pdf_reg line = s.icw_pdf_reg line ∧
      s'.icw_scf line &&& 0x04 = s.icw_scf line &&& 0x04 ∧
      s'.BLU_req_stat line = s.BLU_req_stat line ∧
      s'.BLU_rsp_stat line = s.BLU_rsp_stat line ∧
      s'.svc_req_L2 = s.svc_req_L2 ∧ s'.abar_int = s.abar_int := by
  have hL : L2_requested line s = false := by
    rcases hv with rfl | rfl <;> rcases hst with hl | hl <;>
      simp [L2_requested, phaseB, phaseA, case_4, hpcf, hnxt, hl, hq]
  have hS : scanned line s = { s with
      icw_scf := upd s.icw_scf line (s.icw_scf line ||| 0x08)
      BLU_rsp_ptr := upd s.BLU_rsp_ptr line 0
      icw_pcf_prev := upd s.icw_pcf_prev line v } := by
    rcases hv with rfl | rfl <;> rcases hst with hl | hl <;>
      simp [scanned, phaseB, phaseA, case_4, commit, hpcf, hnxt, hl, hq]
  refine ⟨scanned line s, scanLine_of_quiet ccu fuel line s hL, hL, hS, ?_⟩
  rw [hS]
  simp [hpcf, hnxt, or_08_and_04]

set_option maxRecDepth 100000 in
/-- C23 at a concrete input: line 1 in PCF 5 with line state TX, a FILLED
response buffer and `rsp[0] = 7E`. -/
theorem C23_pcf45_wait_witness :
    (((5 : Nat) = 0x4 ∨ (5 : Nat) = 0x5) ∧ exWait5.icw_pcf 1 = 5 ∧ exWait5.icw_pcf_nxt 1 = 5 ∧
      (exWait5.icw_lne_stat 1 = RESET ∨ exWait5.icw_lne_stat 1 = TX) ∧
      exWait5.CS2_req_L2_int = OFF ∧
      exWait5.BLU_rsp_stat 1 = FILLED ∧ exWait5.BLU_rsp_buf (idx 1 0) = 0x7E) ∧
    ∃ s', scanLine ccuStuck 0 1 exWait5 = some s' ∧
      L2_requested 1 exWait5 = false ∧
      s' = { exWait5 with
        icw_scf := upd exWait5.icw_scf 1 (exWait5.icw_scf 1 ||| 0x08)
        BLU_rsp_ptr := upd exWait5.BLU_rsp_ptr 1 0
        icw_pcf_prev := upd exWait5.icw_pcf_prev 1 5 } ∧
      s'.BLU_rsp_ptr 1 = 0 ∧
      s'.icw_pcf 1 = 5 ∧ s'.icw_pcf_nxt 1 = 5 ∧
      s'.icw_lcd 1 = exWait5.icw_lcd 1 ∧ s'.icw_pdf 1 = exWait5.icw_pdf 1 ∧
      s'.icw_pdf_reg 1 = exWait5.icw_pdf_reg 1 ∧
      s'.icw_scf 1 &&& 0x04 = exWait5.icw_scf 1 &&& 0x04 ∧
      s'.BLU_req_stat 1 = exWait5.BLU_req_stat 1 ∧
      s'.BLU_rsp_stat 1 = exWait5.BLU_rsp_stat 1 ∧
      s'.svc_req_L2 = exWait5.svc_req_L2 ∧ s'.abar_int = exWait5.abar_int :=
  ⟨⟨by decide, by decide, by decide, by decide, by decide, by decide, by decide⟩,
    C23_pcf45_wait ccuStuck 0 1 exWait5 5 (by decide) (by decide) (by decide) (by decide)
      (by decide)⟩

/-- C24. PCF 6 receive: on a line with `pcf = pcf_nxt = 6`, no L2 pending, CCU
level not 2 and response pointer `p` (no L2 request left over, as after every
scan), one scan returns a state with `pdf = rsp[p]` and response pointer
`p + 1`.  If the byte is `0x7E`, no L2 interrupt is requested, `pdf_reg` is
unchanged and `pcf = pcf_nxt = 6`.  Otherwise SCF bit `0x40` is set, SCF bit
`0x04` is clear, `pdf_reg = FILLED`, an L2 interrupt is raised and
`pcf = pcf_nxt = 7`. -/
theorem C24_pcf6_receive (ccu : Nat → Bool) (fuel line : Nat) (s : State) (p : Int)
    (hpcf : s.icw_pcf line = 0x6) (hnxt : s.icw_pcf_nxt line = 0x6)
    (hsvc : s.svc_req_L2 = OFF) (hlvl : s.lvl ≠ 2) (hq : s.CS2_req_L2_int = OFF)
    (hp : s.BLU_rsp_ptr line = p) :
    ∃ s', scanLine ccu fuel line s = some s' ∧
      s'.icw_pdf line = s.BLU_rsp_buf (idx line p) ∧
      s'.BLU_rsp_ptr line = p + 1 ∧
      (s.BLU_rsp_buf (idx line p) = 0x7E →
        L2_requested line s = false ∧
        s'.icw_pdf_reg line = s.icw_pdf_reg line ∧
        s'.icw_scf line = (s.icw_scf line ||| 0x08) ∧
        s'.svc_req_L2 = OFF ∧ s'.abar_int = s.abar_int ∧
        s'.icw_pcf line = 0x6 ∧ s'.icw_pcf_nxt line = 0x6) ∧
      (s.BLU_rsp_buf (idx line p) ≠ 0x7E →
        s'.icw_scf line = (((s.icw_scf line ||| 0x08) ||| 0x40) &&& 0xFB) ∧
        s'.icw_scf line &&& 0x40 = 0x40 ∧
        s'.icw_scf line &&& 0x04 = 0 ∧
        s'.icw_pdf_reg line = FILLED ∧
        L2_requested line s = true ∧
        s'.svc_req_L2 = ON ∧ s'.abar_int = (line : Int) + 0x020 ∧
        s'.icw_pcf line = 0x7 ∧ s'.icw_pcf_nxt line = 0x7) := by
  refine ⟨scanned line s, scanLine_of_clears ccu fuel line s (Or.inl hsvc), ?_⟩
  by_cases h7 : s.BLU_rsp_buf (idx line p) = 0x7E <;>
    simp [scanned, L2_requested, phaseB, phaseA, case_6, L2_active, commit, raiseL2, hpcf, hnxt,
      hsvc, hlvl, hq, hp, h7, or_40_and_FB_40, and_FB_04]

set_option maxRecDepth 100000 in
/-- C24 at a concrete input: line 1 in PCF 6 with the flag `7E` at response
pointer 0. -/
theorem C24_pcf6_receive_witness :
    (ex6.icw_pcf 1 = 0x6 ∧ ex6.icw_pcf_nxt 1 = 0x6 ∧ ex6.svc_req_L2 = OFF ∧ ex6.lvl ≠ 2 ∧
      ex6.CS2_req_L2_int = OFF ∧ ex6.BLU_rsp_ptr 1 = 0) ∧
    ∃ s', scanLine ccuStuck 0 1 ex6 = some s' ∧
      s'.icw_pdf 1 = ex6.BLU_rsp_buf (idx 1 0) ∧
      s'.BLU_rsp_ptr 1 = 0 + 1 ∧
      (ex6.BLU_rsp_buf (idx 1 0) = 0x7E →
        L2_requested 1 ex6 = false ∧
        s'.icw_pdf_reg 1 = ex6.icw_pdf_reg 1 ∧
        s'.icw_scf 1 = (ex6.icw_scf 1 ||| 0x08) ∧
        s'.svc_req_L2 = OFF ∧ s'.abar_int = ex6.abar_int ∧
        s'.icw_pcf 1 = 0x6 ∧ s'.icw_pcf_nxt 1 = 0x6) ∧
      (ex6.BLU_rsp_buf (idx 1 0) ≠ 0x7E →
        s'.icw_scf 1 = (((ex6.icw_scf 1 ||| 0x08) ||| 0x40) &&& 0xFB) ∧
        s'.icw_scf 1 &&& 0x40 = 0x40 ∧
        s'.icw_scf 1 &&& 0x04 = 0 ∧
        s'.icw_pdf_reg 1 = FILLED ∧
        L2_requested 1 ex6 = true ∧
        s'.svc_req_L2 = ON ∧ s'.abar_int = ((1 : Nat) : Int) + 0x020 ∧
        s'.icw_pcf 1 = 0x7 ∧ s'.icw_pcf_nxt 1 = 0x7) :=
  ⟨by decide,
    C24_pcf6_receive ccuStuck 0 1 ex6 0 (by decide) (by decide) (by decide) (by decide)
      (by decide) (by decide)⟩

/-- C25. PCF 7 data byte: on a line with `pcf = pcf_nxt = 7`, `lcd = 0x9`, no
L2 pending, CCU level not 2 and response pointer `p` (no L2 request left over,
as after every scan).  If `pdf_reg = EMPTY`, `p ≥ 2` and
`(rsp[p-2], rsp[p-1], rsp[p])` is not `(47, 0F, 7E)`, one scan returns a state
with `pdf = rsp[p]`, response pointer `p + 1`, `pdf_reg = FILLED`, SCF bit
`0x40` set, an L2 interrupt raised, `pcf = pcf_nxt = 7`, and `BLU_rsp_stat` and
the line state as before.  If `pdf_reg = FILLED`, one scan requests no L2
interrupt and returns a state with `pdf` and the response pointer as before. -/
theorem C25_pcf7_data_byte (ccu : Nat → Bool) (fuel line : Nat) (s : State) (p : Int)
    (hpcf : s.icw_pcf line = 0x7) (hnxt : s.icw_pcf_nxt line = 0x7)
    (hlcd : s.icw_lcd line = 0x9) (hsvc : s.svc_req_L2 = OFF) (hlvl : s.lvl ≠ 2)
    (hq : s.CS2_req_L2_int = OFF) (hp : s.BLU_rsp_ptr line = p) :
    (s.icw_pdf_reg line = EMPTY → 2 ≤ p →
      ¬ (s.BLU_rsp_buf (idx line (p - 2)) = 0x47 ∧ s.BLU_rsp_buf (idx line (p - 1)) = 0x0F ∧
          s.BLU_rsp_buf (idx line p) = 0x7E) →
      ∃ s', scanLine ccu fuel line s = some s' ∧
        s'.icw_pdf line = s.BLU_rsp_buf (idx line p) ∧
        s'.BLU_rsp_ptr line = p + 1 ∧
        s'.icw_pdf_reg line = FILLED ∧
        s'.icw_scf line = ((s.icw_scf line ||| 0x08) ||| 0x40) ∧
        s'.icw_scf line &&& 0x40 = 0x40 ∧
        L2_requested line s = true ∧
        s'.svc_req_L2 = ON ∧ s'.abar_int = (line : Int) + 0x020 ∧
        s'.icw_pcf line = 0x7 ∧ s'.icw_pcf_nxt line = 0x7 ∧
        s'.BLU_rsp_stat line = s.BLU_rsp_stat line ∧
        s'.icw_lne_stat line = s.icw_lne_stat line) ∧
    (s.icw_pdf_reg line = FILLED →
      ∃ s', scanLine ccu fuel line s = some s' ∧
        s'.icw_pdf line = s.icw_pdf line ∧
        s'.BLU_rsp_ptr line = p ∧
        s'.icw_pdf_reg line = FILLED ∧
        L2_requested line s = false ∧
        s'.svc_req_L2 = OFF ∧ s'.abar_int = s.abar_int ∧
        s'.icw_pcf line = 0x7 ∧ s'.icw_pcf_nxt line = 0x7) := by
  refine ⟨?_, ?_⟩
  · intro hreg _ hne
    refine ⟨scanned line s, scanLine_of_clears ccu fuel line s (Or.inl hsvc), ?_⟩
    simp [scanned, L2_requested, phaseB, phaseA, case_7, L2_active, commit, raiseL2, hpcf, hnxt,
      hlcd, hreg, hsvc, hlvl, hq, hp, hne, or_and_self_mask]
  · intro hreg
    refine ⟨scanned line s, scanLine_of_clears ccu fuel line s (Or.inl hsvc), ?_⟩
    simp [scanned, L2_requested, phaseB, phaseA, case_7, L2_active, commit, raiseL2, hpcf, hnxt,
      hlcd, hreg, hsvc, hlvl, hq, hp]

set_option maxRecDepth 100000 in
/-- C25 at concrete inputs: line 1 in PCF 7 at response pointer 2 of the frame
`7E C1 73 47 0F 7E`, with `pdf_reg` EMPTY (the byte `73` is delivered) and
with `pdf_reg` FILLED (nothing is done). -/
theorem C25_pcf7_data_byte_witness :
    ((ex7d.icw_pcf 1 = 0x7 ∧ ex7d.icw_pcf_nxt 1 = 0x7 ∧ ex7d.icw_lcd 1 = 0x9 ∧
        ex7d.svc_req_L2 = OFF ∧ ex7d.lvl ≠ 2 ∧ ex7d.CS2_req_L2_int = OFF ∧
        ex7d.BLU_rsp_ptr 1 = 2 ∧ ex7d.icw_pdf_reg 1 = EMPTY ∧ (2 : Int) ≤ 2 ∧
        ¬ (ex7d.BLU_rsp_buf (idx 1 (2 - 2)) = 0x47 ∧ ex7d.BLU_rsp_buf (idx 1 (2 - 1)) = 0x0F ∧
          ex7d.BLU_rsp_buf (idx 1 2) = 0x7E)) ∧
      ∃ s', scanLine ccuStuck 0 1 ex7d = some s' ∧
        s'.icw_pdf 1 = ex7d.BLU_rsp_buf (idx 1 2) ∧
        s'.BLU_rsp_ptr 1 = 2 + 1 ∧
        s'.icw_pdf_reg 1 = FILLED ∧
        s'.icw_scf 1 = ((ex7d.icw_scf 1 ||| 0x08) ||| 0x40) ∧
        s'.icw_scf 1 &&& 0x40 = 0x40 ∧
        L2_requested 1 ex7d = true ∧
        s'.svc_req_L2 = ON ∧ s'.abar_int = ((1 : Nat) : Int) + 0x020 ∧
        s'.icw_pcf 1 = 0x7 ∧ s'.icw_pcf_nxt 1 = 0x7 ∧
        s'.BLU_rsp_stat 1 = ex7d.BLU_rsp_stat 1 ∧
        s'.icw_lne_stat 1 = ex7d.icw_lne_stat 1) ∧
    ((ex7f.icw_pcf 1 = 0x7 ∧ ex7f.icw_pcf_nxt 1 = 0x7 ∧ ex7f.icw_lcd 1 = 0x9 ∧
        ex7f.svc_req_L2 = OFF ∧ ex7f.lvl ≠ 2 ∧ ex7f.CS2_req_L2_int = OFF ∧
        ex7f.BLU_rsp_ptr 1 = 2 ∧ ex7f.icw_pdf_reg 1 = FILLED) ∧
      ∃ s', scanLine ccuStuck 0 1 ex7f = some s' ∧
        s'.icw_pdf 1 = ex7f.icw_pdf 1 ∧
        s'.BLU_rsp_ptr 1 = 2 ∧
        s'.icw_pdf_reg 1 = FILLED ∧
        L2_requested 1 ex7f = false ∧
        s'.svc_req_L2 = OFF ∧ s'.abar_int = ex7f.abar_int ∧
        s'.icw_pcf 1 = 0x7 ∧ s'.icw_pcf_nxt 1 = 0x7) :=
  ⟨⟨by decide,
      (C25_pcf7_data_byte ccuStuck 0 1 ex7d 2 (by decide) (by decide) (by decide) (by decide)
        (by decide) (by decide) (by decide)).1 (by decide) (by decide) (by decide)⟩,
    ⟨by decide,
      (C25_pcf7_data_byte ccuStuck 0 1 ex7f 2 (by decide) (by decide) (by decide) (by decide)
        (by decide) (by decide) (by decide)).2 (by decide)⟩⟩

set_option maxRecDepth 100000 in
/-- Counterexample to C26 as stated: line 0 after initialisation, the NCP
having selected `lcd = 0x8` and written PCF 8, no L2 pending, CCU level 0.
The scan returns with `pcf = pcf_nxt = 8`, not 9: the handler of PCF 8 tests
`lcd == 0x9` only. -/
theorem C26_counterexample :
    ex8lcd8.icw_pcf_nxt 0 = 0x8 ∧ ex8lcd8.icw_lcd 0 = 0x8 ∧
    ex8lcd8.svc_req_L2 = OFF ∧ ex8lcd8.lvl = 0 ∧ ex8lcd8.CS2_req_L2_int = OFF ∧
    scanLine ccuStuck 0 0 ex8lcd8 = some (scanned 0 ex8lcd8) ∧
    (scanned 0 ex8lcd8).icw_pcf 0 = 0x8 ∧ (scanned 0 ex8lcd8).icw_pcf_nxt 0 = 0x8 :=
  ⟨by decide, by decide, by decide, by decide, by decide,
    scanLine_of_clears ccuStuck 0 0 ex8lcd8 (Or.inl (by decide)), by decide, by decide⟩

/-- C26, amended. PCF 8 transmit initial: on a line whose current PCF is 8
(`pcf_nxt = 8`), with no L2 pending and CCU level not 2 (no L2 request left
over, as after every scan), one scan requests no L2 interrupt and leaves the
request buffer with its pointer, `pdf` and `pdf_reg` unchanged.  With
`lcd = 0x9` it clears SCF bit `0x04` and returns with `pcf = pcf_nxt = 9`;
with any other `lcd`, `0x8` included, it leaves SCF alone but for bit `0x08`
and returns with `pcf = pcf_nxt = 8`. -/
theorem C26_pcf8_transmit_initial (ccu : Nat → Bool) (fuel line : Nat) (s : State)
    (hnxt : s.icw_pcf_nxt line = 0x8) (hsvc : s.svc_req_L2 = OFF) (hlvl : s.lvl ≠ 2)
    (hq : s.CS2_req_L2_int = OFF) :
    ∃ s', scanLine ccu fuel line s = some s' ∧
      L2_requested line s = false ∧
      s'.svc_req_L2 = OFF ∧ s'.abar_int = s.abar_int ∧
      s'.BLU_req_buf = s.BLU_req_buf ∧ s'.BLU_req_ptr = s.BLU_req_ptr ∧
      s'.icw_pdf = s.icw_pdf ∧ s'.icw_pdf_reg = s.icw_pdf_reg ∧
      (s.icw_lcd line = 0x9 →
        s'.icw_scf line = ((s.icw_scf line ||| 0x08) &&& 0xFB) ∧
        s'.icw_scf line &&& 0x04 = 0 ∧
        s'.icw_pcf line = 0x9 ∧ s'.icw_pcf_nxt line = 0x9) ∧
      (s.icw_lcd line ≠ 0x9 →
        s'.icw_scf line = (s.icw_scf line ||| 0x08) ∧
        s'.icw_pcf line = 0x8 ∧ s'.icw_pcf_nxt line = 0x8) := by
  refine ⟨scanned line s, scanLine_of_clears ccu fuel line s (Or.inl hsvc), ?_⟩
  by_cases h8 : s.icw_pcf line = 0x8 <;> by_cases hl : s.icw_lcd line = 0x9 <;>
    simp [scanned, L2_requested, phaseB, phaseA, case_8, L2_active, commit, hnxt, hsvc, hlvl,
      hq, h8, hl, and_FB_04]

set_option maxRecDepth 100000 in
/-- C26 at a concrete input: line 0 after initialisation, `lcd = 0x9`, PCF 8
written. -/
theorem C26_pcf8_transmit_initial_witness :
    (ex8.icw_pcf_nxt 0 = 0x8 ∧ ex8.svc_req_L2 = OFF ∧ ex8.lvl ≠ 2 ∧
      ex8.CS2_req_L2_int = OFF) ∧
    ∃ s', scanLine ccuStuck 0 0 ex8 = some s' ∧
      L2_requested 0 ex8 = false ∧
      s'.svc_req_L2 = OFF ∧ s'.abar_int = ex8.abar_int ∧
      s'.BLU_req_buf = ex8.BLU_req_buf ∧ s'.BLU_req_ptr = ex8.BLU_req_ptr ∧
      s'.icw_pdf = ex8.icw_pdf ∧ s'.icw_pdf_reg = ex8.icw_pdf_reg ∧
      (ex8.icw_lcd 0 = 0x9 →
        s'.icw_scf 0 = ((ex8.icw_scf 0 ||| 0x08) &&& 0xFB) ∧
        s'.icw_scf 0 &&& 0x04 = 0 ∧
        s'.icw_pcf 0 = 0x9 ∧ s'.icw_pcf_nxt 0 = 0x9) ∧
      (ex8.icw_lcd 0 ≠ 0x9 →
        s'.icw_scf 0 = (ex8.icw_scf 0 ||| 0x08) ∧
        s'.icw_pcf 0 = 0x8 ∧ s'.icw_pcf_nxt 0 = 0x8) :=
  ⟨by decide,
    C26_pcf8_transmit_initial ccuStuck 0 0 ex8 (by decide) (by decide) (by decide) (by decide)⟩

/-- C27. PCF 9 transmit normal: on a line with `pcf = pcf_nxt = 9`,
`lcd = 0x9`, no L2 pending, CCU level not 2 and request pointer `q < 16384`
(no L2 request left over, as after every scan).  If `pdf_reg = FILLED`, one
scan returns a state in which the request memory is the former one with `pdf`
stored at `req[q]` (a cell below the row of the next line), every other cell
as before, the request pointer is `q + 1`, `pdf_reg = EMPTY`, SCF bit `0x40`
is set, an L2 interrupt is raised and `pcf = pcf_nxt = 9`.  If
`pdf_reg = EMPTY`, one scan requests no L2 interrupt and returns a state with
the request memory and its pointer as before. -/
theorem C27_pcf9_transmit_normal (ccu : Nat → Bool) (fuel line : Nat) (s : State) (q : Int)
    (hpcf : s.icw_pcf line = 0x9) (hnxt : s.icw_pcf_nxt line = 0x9)
    (hlcd : s.icw_lcd line = 0x9) (hsvc : s.svc_req_L2 = OFF) (hlvl : s.lvl ≠ 2)
    (hq : s.CS2_req_L2_int = OFF) (hp : s.BLU_req_ptr line = q)
    (hq1 : q < (BUFFER_SIZE : Int)) :
    (s.icw_pdf_reg line = FILLED →
      ∃ s', scanLine ccu fuel line s = some s' ∧
        idx line q < idx (line + 1) 0 ∧
        s'.BLU_req_buf = upd s.BLU_req_buf (idx line q) (s.icw_pdf line) ∧
        s'.BLU_req_buf (idx line q) = s.icw_pdf line ∧
        (∀ k : Int, k ≠ idx line q → s'.BLU_req_buf k = s.BLU_req_buf k) ∧
        s'.BLU_req_ptr line = q + 1 ∧
        s'.icw_pdf_reg line = EMPTY ∧
        s'.icw_scf line = ((s.icw_scf line ||| 0x08) ||| 0x40) ∧
        s'.icw_scf line &&& 0x40 = 0x40 ∧
        L2_requested line s = true ∧
        s'.svc_req_L2 = ON ∧ s'.abar_int = (line : Int) + 0x020 ∧
        s'.icw_pcf line = 0x9 ∧ s'.icw_pcf_nxt line = 0x9) ∧
    (s.icw_pdf_reg line = EMPTY →
      ∃ s', scanLine ccu fuel line s = some s' ∧
        s'.BLU_req_buf = s.BLU_req_buf ∧
        s'.BLU_req_ptr line = q ∧
        L2_requested line s = false ∧
        s'.svc_req_L2 = OFF ∧ s'.abar_int = s.abar_int ∧
        s'.icw_pdf_reg line = EMPTY ∧
        s'.icw_pcf line = 0x9 ∧ s'.icw_pcf_nxt line = 0x9) := by
  have hrow : idx line q < idx (line + 1) 0 := by
    unfold idx
    push_cast
    linarith
  refine ⟨?_, ?_⟩
  · intro hreg
    refine ⟨scanned line s, scanLine_of_clears ccu fuel line s (Or.inl hsvc), hrow, ?_⟩
    have hbuf : (scanned line s).BLU_req_buf =
        upd s.BLU_req_buf (idx line q) (s.icw_pdf line) := by
      simp [scanned, phaseB, phaseA, case_9, L2_active, commit, raiseL2, hpcf, hnxt, hlcd, hreg,
        hsvc, hlvl, hq, hp]
    refine ⟨hbuf, ?_, ?_, ?_⟩
    · rw [hbuf]; exact upd_same _ _ _
    · intro k hk
      rw [hbuf]
      exact upd_ne _ _ hk
    · simp [scanned, L2_requested, phaseB, phaseA, case_9, L2_active, commit, raiseL2, hpcf,
        hnxt, hlcd, hreg, hsvc, hlvl, hq, hp, or_and_self_mask]
  · intro hreg
    refine ⟨scanned line s, scanLine_of_clears ccu fuel line s (Or.inl hsvc), ?_⟩
    simp [scanned, L2_requested, phaseB, phaseA, case_9, L2_active, commit, raiseL2, hpcf, hnxt,
      hlcd, hreg, hsvc, hlvl, hq, hp]

set_option maxRecDepth 100000 in
/-- C27 at concrete inputs: line 0 in PCF 9 with request pointer 1, with the
byte `C1` supplied (it is stored at `req[1]`) and with `pdf_reg` EMPTY (nothing
is done). -/
theorem C27_pcf9_transmit_normal_witness :
    ((ex9b.icw_pcf 0 = 0x9 ∧ ex9b.icw_pcf_nxt 0 = 0x9 ∧ ex9b.icw_lcd 0 = 0x9 ∧
        ex9b.svc_req_L2 = OFF ∧ ex9b.lvl ≠ 2 ∧ ex9b.CS2_req_L2_int = OFF ∧
        ex9b.BLU_req_ptr 0 = 1 ∧ (1 : Int) < (BUFFER_SIZE : Int) ∧
        ex9b.icw_pdf_reg 0 = FILLED ∧ ex9b.icw_pdf 0 = 0xC1) ∧
      ∃ s', scanLine ccuStuck 0 0 ex9b = some s' ∧
        idx 0 1 < idx (0 + 1) 0 ∧
        s'.BLU_req_buf = upd ex9b.BLU_req_buf (idx 0 1) (ex9b.icw_pdf 0) ∧
        s'.BLU_req_buf (idx 0 1) = ex9b.icw_pdf 0 ∧
        (∀ k : Int, k ≠ idx 0 1 → s'.BLU_req_buf k = ex9b.BLU_req_buf k) ∧
        s'.BLU_req_ptr 0 = 1 + 1 ∧
        s'.icw_pdf_reg 0 = EMPTY ∧
        s'.icw_scf 0 = ((ex9b.icw_scf 0 ||| 0x08) ||| 0x40) ∧
        s'.icw_scf 0 &&& 0x40 = 0x40 ∧
        L2_requested 0 ex9b = true ∧
        s'.svc_req_L2 = ON ∧ s'.abar_int = ((0 : Nat) : Int) + 0x020 ∧
        s'.icw_pcf 0 = 0x9 ∧ s'.icw_pcf_nxt 0 = 0x9) ∧
    ((ex9e.icw_pcf 0 = 0x9 ∧ ex9e.icw_pcf_nxt 0 = 0x9 ∧ ex9e.icw_lcd 0 = 0x9 ∧
        ex9e.svc_req_L2 = OFF ∧ ex9e.lvl ≠ 2 ∧ ex9e.CS2_req_L2_int = OFF ∧
        ex9e.BLU_req_ptr 0 = 1 ∧ ex9e.icw_pdf_reg 0 = EMPTY) ∧
      ∃ s', scanLine ccuStuck 0 0 ex9e = some s' ∧
        s'.BLU_req_buf = ex9e.BLU_req_buf ∧
        s'.BLU_req_ptr 0 = 1 ∧
        L2_requested 0 ex9e = false ∧
        s'.svc_req_L2 = OFF ∧ s'.abar_int = ex9e.abar_int ∧
        s'.icw_pdf_reg 0 = EMPTY ∧
        s'.icw_pcf 0 = 0x9 ∧ s'.icw_pcf_nxt 0 = 0x9) :=
  ⟨⟨by decide,
      (C27_pcf9_transmit_normal ccuStuck 0 0 ex9b 1 (by decide) (by decide) (by decide)
        (by decide) (by decide) (by decide) (by decide) (by decide)).1 (by decide)⟩,
    ⟨by decide,
      (C27_pcf9_transmit_normal ccuStuck 0 0 ex9e 1 (by decide) (by decide) (by decide)
        (by decide) (by decide) (by decide) (by decide) (by decide)).2 (by decide)⟩⟩

/-- C28. L2/level gate: on a line whose current PCF is `v` (`pcf_nxt = v`),
`v` being 6, 7, 8, 9 or `0xA`, with `svc_req_L2 = ON` or CCU level 2 (no L2
request left over, as after every scan), one scan requests no L2 interrupt and
returns the state it started in with SCF bit `0x08` set and
`pcf = pcf_prev = v`: the handler does nothing.  In particular `pdf`,
`pdf_reg`, `lcd`, `pcf_nxt`, the line state and both buffers with their
pointers, lengths and state flags are unchanged and SCF is the former one with
bit `0x08` set. -/
theorem C28_L2_gate (ccu : Nat → Bool) (fuel line : Nat) (s : State) (v : Nat)
    (hv : v = 0x6 ∨ v = 0x7 ∨ v = 0x8 ∨ v = 0x9 ∨ v = 0xA)
    (hnxt : s.icw_pcf_nxt line = v) (hgate : s.svc_req_L2 = ON ∨ s.lvl = 2)
    (hq : s.CS2_req_L2_int = OFF) :
    ∃ s', scanLine ccu fuel line s = some s' ∧
      L2_requested line s = false ∧
      s' = { s with
        icw_scf := upd s.icw_scf line (s.icw_scf line ||| 0x08)
        icw_pcf_prev := upd s.icw_pcf_prev line v
        icw_pcf := upd s.icw_pcf line v } ∧
      s'.icw_pdf = s.icw_pdf ∧ s'.icw_pdf_reg = s.icw_pdf_reg ∧ s'.icw_lcd = s.icw_lcd ∧
      s'.icw_pcf_nxt = s.icw_pcf_nxt ∧ s'.icw_lne_stat = s.icw_lne_stat ∧
      s'.BLU_req_buf = s.BLU_req_buf ∧ s'.BLU_req_ptr = s.BLU_req_ptr ∧
      s'.BLU_req_len = s.BLU_req_len ∧ s'.BLU_req_stat = s.BLU_req_stat ∧
      s'.BLU_rsp_buf = s.BLU_rsp_buf ∧ s'.BLU_rsp_ptr = s.BLU_rsp_ptr ∧
      s'.BLU_rsp_len = s.BLU_rsp_len ∧ s'.BLU_rsp_stat = s.BLU_rsp_stat ∧
      s'.icw_scf line = (s.icw_scf line ||| 0x08) ∧
      s'.svc_req_L2 = s.svc_req_L2 ∧ s'.abar_int = s.abar_int := by
  have hL : L2_requested line s = false := by
    by_cases hc : s.icw_pcf line = v
    · rcases hv with rfl | rfl | rfl | rfl | rfl <;> rcases hgate with hg | hg <;>
        simp [L2_requested, phaseB, phaseA, case_6, case_7, case_8, case_9, case_A, L2_active,
          hnxt, hc, hg, hq]
    · rcases hv with rfl | rfl | rfl | rfl | rfl <;> rcases hgate with hg | hg <;>
        simp [L2_requested, phaseB, phaseA, case_6, case_7, case_8, case_9, case_A, L2_active,
          hnxt, hc, hg, hq]
  have hS : scanned line s = { s with
      icw_scf := upd s.icw_scf line (s.icw_scf line ||| 0x08)
      icw_pcf_prev := upd s.icw_pcf_prev line v
      icw_pcf := upd s.icw_pcf line v } := by
    by_cases hc : s.icw_pcf line = v
    · have hu : upd s.icw_pcf line v = s.icw_pcf := by rw [← hc]; exact upd_self _ _
      rw [hu]
      rcases hv with rfl | rfl | rfl | rfl | rfl <;> rcases hgate with hg | hg <;>
        simp [scanned, phaseB, phaseA, case_6, case_7, case_8, case_9, case_A, L2_active,
          commit, hnxt, hc, hg, hq]
    · rcases hv with rfl | rfl | rfl | rfl | rfl <;> rcases hgate with hg | hg <;>
        simp [scanned, phaseB, phaseA, case_6, case_7, case_8, case_9, case_A, L2_active,
          commit, hnxt, hc, hg, hq]
  refine ⟨scanned line s, scanLine_of_quiet ccu fuel line s hL, hL, hS, ?_⟩
  rw [hS]
  simp

set_option maxRecDepth 100000 in
/-- C28 at a concrete input: line 0 in PCF 9 with the byte `C1` supplied
while the L2 interrupt of the previous scan is still pending. -/
theorem C28_L2_gate_witness :
    (((9 : Nat) = 0x6 ∨ (9 : Nat) = 0x7 ∨ (9 : Nat) = 0x8 ∨ (9 : Nat) = 0x9 ∨ (9 : Nat) = 0xA) ∧
      ex9gate.icw_pcf_nxt 0 = 9 ∧ (ex9gate.svc_req_L2 = ON ∨ ex9gate.lvl = 2) ∧
      ex9gate.CS2_req_L2_int = OFF ∧ ex9gate.icw_pdf_reg 0 = FILLED) ∧
    ∃ s', scanLine ccuStuck 0 0 ex9gate = some s' ∧
      L2_requested 0 ex9gate = false ∧
      s' = { ex9gate with
        icw_scf := upd ex9gate.icw_scf 0 (ex9gate.icw_scf 0 ||| 0x08)
        icw_pcf_prev := upd ex9gate.icw_pcf_prev 0 9
        icw_pcf := upd ex9gate.icw_pcf 0 9 } ∧
      s'.icw_pdf = ex9gate.icw_pdf ∧ s'.icw_pdf_reg = ex9gate.icw_pdf_reg ∧
      s'.icw_lcd = ex9gate.icw_lcd ∧
      s'.icw_pcf_nxt = ex9gate.icw_pcf_nxt ∧ s'.icw_lne_stat = ex9gate.icw_lne_stat ∧
      s'.BLU_req_buf = ex9gate.BLU_req_buf ∧ s'.BLU_req_ptr = ex9gate.BLU_req_ptr ∧
      s'.BLU_req_len = ex9gate.BLU_req_len ∧ s'.BLU_req_stat = ex9gate.BLU_req_stat ∧
      s'.BLU_rsp_buf = ex9gate.BLU_rsp_buf ∧ s'.BLU_rsp_ptr = ex9gate.BLU_rsp_ptr ∧
      s'.BLU_rsp_len = ex9gate.BLU_rsp_len ∧ s'.BLU_rsp_stat = ex9gate.BLU_rsp_stat ∧
      s'.icw_scf 0 = (ex9gate.icw_scf 0 ||| 0x08) ∧
      s'.svc_req_L2 = ex9gate.svc_req_L2 ∧ s'.abar_int = ex9gate.abar_int :=
  ⟨by decide,
    C28_L2_gate ccuStuck 0 0 ex9gate 9 (by decide) (by decide) (by decide) (by decide)⟩

/-- C29. PCF 1/2/3 one-shot acknowledgement: on a line to which the NCP has
just written PCF `v`, `v` being 1, 2 or 3 (`pcf_nxt = v`, `pcf ≠ v`), one scan
whose wait for the CCU ends returns a state with SCF bit `0x40` set, one L2
interrupt raised (`svc_req_L2 = ON` with `abar_int = 0x020 + line`),
`pcf = pcf_nxt = 0` and `pcf_prev = v`.  The following scan of the line,
without an NCP write and whether or not the CCU has finished its L2 processing
in between, requests no L2 interrupt, returns, and leaves `svc_req_L2` and
`abar_int` as they are. -/
theorem C29_pcf123_one_shot (ccu ccu2 : Nat → Bool) (fuel fuel2 line : Nat) (s : State)
    (v : Nat) (hv : v = 0x1 ∨ v = 0x2 ∨ v = 0x3)
    (hnxt : s.icw_pcf_nxt line = v) (hpcf : s.icw_pcf line ≠ v)
    (hccu : ccuClears ccu fuel s) :
    ∃ s', scanLine ccu fuel line s = some s' ∧
      s'.icw_scf line = ((s.icw_scf line ||| 0x08) ||| 0x40) ∧
      s'.icw_scf line &&& 0x40 = 0x40 ∧
      L2_requested line s = true ∧
      s'.svc_req_L2 = ON ∧ s'.abar_int = (line : Int) + 0x020 ∧
      s'.icw_pcf line = 0x0 ∧ s'.icw_pcf_nxt line = 0x0 ∧ s'.icw_pcf_prev line = v ∧
      (L2_requested line s' = false ∧
        ∃ s2, scanLine ccu2 fuel2 line s' = some s2 ∧
          s2.svc_req_L2 = s'.svc_req_L2 ∧ s2.abar_int = s'.abar_int ∧
          s2.icw_pcf line = 0x0 ∧ s2.icw_pcf_nxt line = 0x0) ∧
      (∀ lv : Int, L2_requested line (ccu_done lv s') = false ∧
        ∃ s2, scanLine ccu2 fuel2 line (ccu_done lv s') = some s2 ∧
          s2.svc_req_L2 = OFF ∧ s2.abar_int = s'.abar_int ∧
          s2.icw_pcf line = 0x0 ∧ s2.icw_pcf_nxt line = 0x0) := by
  have hL : ∀ x : State, x.icw_pcf_nxt line = 0x0 → x.CS2_req_L2_int = OFF →
      L2_requested line x = false := by
    intro x hx hxq
    by_cases h0 : x.icw_pcf line = 0 <;>
      simp [L2_requested, phaseB, phaseA, case_0, hx, h0, hxq]
  have h1 : (scanned line s).icw_scf line = ((s.icw_scf line ||| 0x08) ||| 0x40) ∧
      (scanned line s).icw_scf line &&& 0x40 = 0x40 ∧
      L2_requested line s = true ∧
      (scanned line s).svc_req_L2 = ON ∧ (scanned line s).abar_int = (line : Int) + 0x020 ∧
      (scanned line s).icw_pcf line = 0x0 ∧ (scanned line s).icw_pcf_nxt line = 0x0 ∧
      (scanned line s).icw_pcf_prev line = v ∧ (scanned line s).CS2_req_L2_int = OFF := by
    rcases hv with rfl | rfl | rfl <;>
      simp [scanned, L2_requested, phaseB, phaseA, case_1, commit, raiseL2, hnxt, hpcf,
        Ne.symm hpcf, or_and_self_mask]
  obtain ⟨a1, a2, a3, a4, a5, a6, a7, a8, a9⟩ := h1
  refine ⟨scanned line s, scanLine_of_clears ccu fuel line s hccu, a1, a2, a3, a4, a5, a6, a7,
    a8, ?_, ?_⟩
  · have e := scanned_pcf0 line (scanned line s) a7 a9
    refine ⟨hL _ a7 a9, scanned line (scanned line s),
      scanLine_of_quiet ccu2 fuel2 line _ (hL _ a7 a9), ?_⟩
    rw [e]
    simp [a7]
  · intro lv
    have b7 : (ccu_done lv (scanned line s)).icw_pcf_nxt line = 0x0 := a7
    have b9 : (ccu_done lv (scanned line s)).CS2_req_L2_int = OFF := a9
    have e := scanned_pcf0 line (ccu_done lv (scanned line s)) b7 b9
    refine ⟨hL _ b7 b9, scanned line (ccu_done lv (scanned line s)),
      scanLine_of_quiet ccu2 fuel2 line _ (hL _ b7 b9), ?_⟩
    rw [e]
    simp [ccu_done, a7]

set_option maxRecDepth 100000 in
/-- C29 at a concrete input: line 0 after initialisation, PCF 1 written. -/
theorem C29_pcf123_one_shot_witness :
    (((1 : Nat) = 0x1 ∨ (1 : Nat) = 0x2 ∨ (1 : Nat) = 0x3) ∧ ex1.icw_pcf_nxt 0 = 1 ∧
      ex1.icw_pcf 0 ≠ 1 ∧ ccuClears ccuStuck 0 ex1) ∧
    ∃ s', scanLine ccuStuck 0 0 ex1 = some s' ∧
      s'.icw_scf 0 = ((ex1.icw_scf 0 ||| 0x08) ||| 0x40) ∧
      s'.icw_scf 0 &&& 0x40 = 0x40 ∧
      L2_requested 0 ex1 = true ∧
      s'.svc_req_L2 = ON ∧ s'.abar_int = ((0 : Nat) : Int) + 0x020 ∧
      s'.icw_pcf 0 = 0x0 ∧ s'.icw_pcf_nxt 0 = 0x0 ∧ s'.icw_pcf_prev 0 = 1 ∧
      (L2_requested 0 s' = false ∧
        ∃ s2, scanLine ccuStuck 0 0 s' = some s2 ∧
          s2.svc_req_L2 = s'.svc_req_L2 ∧ s2.abar_int = s'.abar_int ∧
          s2.icw_pcf 0 = 0x0 ∧ s2.icw_pcf_nxt 0 = 0x0) ∧
      (∀ lv : Int, L2_requested 0 (ccu_done lv s') = false ∧
        ∃ s2, scanLine ccuStuck 0 0 (ccu_done lv s') = some s2 ∧
          s2.svc_req_L2 = OFF ∧ s2.abar_int = s'.abar_int ∧
          s2.icw_pcf 0 = 0x0 ∧ s2.icw_pcf_nxt 0 = 0x0) :=
  ⟨⟨by decide, by decide, by decide, Or.inl (by decide)⟩,
    C29_pcf123_one_shot ccuStuck ccuStuck 0 0 0 ex1 1 (by decide) (by decide) (by decide)
      (Or.inl (by decide))⟩

/-- C30. PCF F disable: on a line whose current PCF is `0xF`
(`pcf_nxt = 0xF`), whatever `pcf`, `pcf_prev`, `svc_req_L2` and the CCU level
are, one scan whose wait for the CCU ends returns a state with SCF bit `0x40`
set, an L2 interrupt raised (`svc_req_L2 = ON` with `abar_int = 0x020 + line`),
`pcf = pcf_nxt = 0`, and the line state, `pdf_reg` and both buffers with their
pointers, lengths and state flags as before. -/
theorem C30_pcfF_disable (ccu : Nat → Bool) (fuel line : Nat) (s : State)
    (hnxt : s.icw_pcf_nxt line = 0xF) (hccu : ccuClears ccu fuel s) :
    ∃ s', scanLine ccu fuel line s = some s' ∧
      s'.icw_scf line = ((s.icw_scf line ||| 0x08) ||| 0x40) ∧
      s'.icw_scf line &&& 0x40 = 0x40 ∧
      L2_requested line s = true ∧
      s'.svc_req_L2 = ON ∧ s'.abar_int = (line : Int) + 0x020 ∧
      s'.icw_pcf line = 0x0 ∧ s'.icw_pcf_nxt line = 0x0 ∧
      s'.icw_lne_stat = s.icw_lne_stat ∧ s'.icw_pdf_reg = s.icw_pdf_reg ∧
      s'.BLU_req_buf = s.BLU_req_buf ∧ s'.BLU_req_ptr = s.BLU_req_ptr ∧
      s'.BLU_req_len = s.BLU_req_len ∧ s'.BLU_req_stat = s.BLU_req_stat ∧
      s'.BLU_rsp_buf = s.BLU_rsp_buf ∧ s'.BLU_rsp_ptr = s.BLU_rsp_ptr ∧
      s'.BLU_rsp_len = s.BLU_rsp_len ∧ s'.BLU_rsp_stat = s.BLU_rsp_stat := by
  refine ⟨scanned line s, scanLine_of_clears ccu fuel line s hccu, ?_⟩
  by_cases hF : s.icw_pcf line = 0xF <;>
    simp [scanned, L2_requested, phaseB, phaseA, case_F, commit, raiseL2, hnxt, hF,
      or_and_self_mask]

set_option maxRecDepth 100000 in
/-- C30 at a concrete input: line 0 with PCF `0xF` written while the L2
interrupt of the previous scan is pending; the CCU finishes its L2 processing
during the first sleep of the scanner. -/
theorem C30_pcfF_disable_witness :
    (exFpending.icw_pcf_nxt 0 = 0xF ∧ exFpending.svc_req_L2 = ON ∧
      ccuClears ccuPrompt 1 exFpending) ∧
    ∃ s', scanLine ccuPrompt 1 0 exFpending = some s' ∧
      s'.icw_scf 0 = ((exFpending.icw_scf 0 ||| 0x08) ||| 0x40) ∧
      s'.icw_scf 0 &&& 0x40 = 0x40 ∧
      L2_requested 0 exFpending = true ∧
      s'.svc_req_L2 = ON ∧ s'.abar_int = ((0 : Nat) : Int) + 0x020 ∧
      s'.icw_pcf 0 = 0x0 ∧ s'.icw_pcf_nxt 0 = 0x0 ∧
      s'.icw_lne_stat = exFpending.icw_lne_stat ∧ s'.icw_pdf_reg = exFpending.icw_pdf_reg ∧
      s'.BLU_req_buf = exFpending.BLU_req_buf ∧ s'.BLU_req_ptr = exFpending.BLU_req_ptr ∧
      s'.BLU_req_len = exFpending.BLU_req_len ∧ s'.BLU_req_stat = exFpending.BLU_req_stat ∧
      s'.BLU_rsp_buf = exFpending.BLU_rsp_buf ∧ s'.BLU_rsp_ptr = exFpending.BLU_rsp_ptr ∧
      s'.BLU_rsp_len = exFpending.BLU_rsp_len ∧ s'.BLU_rsp_stat = exFpending.BLU_rsp_stat :=
  ⟨⟨by decide, by decide, Or.inr ⟨0, by decide, rfl⟩⟩,
    C30_pcfF_disable ccuPrompt 1 0 exFpending (by decide) (Or.inr ⟨0, by decide, rfl⟩)⟩

/-- C31. No-op states: on a line with `pcf = pcf_nxt = v`, `v` being `0xA`,
`0xB`, `0xD` or `0xE` (no L2 request left over, as after every scan), one scan
requests no L2 interrupt and returns the state it started in with SCF bit
`0x08` set and `pcf_prev = v`.  In particular `pcf`, `pcf_nxt`, `pdf`,
`pdf_reg`, `lcd`, the line state and both buffers with their pointers, lengths
and state flags are unchanged. -/
theorem C31_noop_states (ccu : Nat → Bool) (fuel line : Nat) (s : State) (v : Nat)
    (hv : v = 0xA ∨ v = 0xB ∨ v = 0xD ∨ v = 0xE)
    (hpcf : s.icw_pcf line = v) (hnxt : s.icw_pcf_nxt line = v)
    (hq : s.CS2_req_L2_int = OFF) :
    ∃ s', scanLine ccu fuel line s = some s' ∧
      L2_requested line s = false ∧
      s' = { s with
        icw_scf := upd s.icw_scf line (s.icw_scf line ||| 0x08)
        icw_pcf_prev := upd s.icw_pcf_prev line v } ∧
      s'.icw_pcf = s.icw_pcf ∧ s'.icw_pcf_nxt = s.icw_pcf_nxt ∧
      s'.icw_pdf = s.icw_pdf ∧ s'.icw_pdf_reg = s.icw_pdf_reg ∧ s'.icw_lcd = s.icw_lcd ∧
      s'.icw_lne_stat = s.icw_lne_stat ∧
      s'.BLU_req_buf = s.BLU_req_buf ∧ s'.BLU_req_ptr = s.BLU_req_ptr ∧
      s'.BLU_req_len = s.BLU_req_len ∧ s'.BLU_req_stat = s.BLU_req_stat ∧
      s'.BLU_rsp_buf = s.BLU_rsp_buf ∧ s'.BLU_rsp_ptr = s.BLU_rsp_ptr ∧
      s'.BLU_rsp_len = s.BLU_rsp_len ∧ s'.BLU_rsp_stat = s.BLU_rsp_stat ∧
      s'.icw_scf line = (s.icw_scf line ||| 0x08) ∧ s'.icw_pcf_prev line = v ∧
      s'.svc_req_L2 = s.svc_req_L2 ∧ s'.abar_int = s.abar_int := by
  have hL : L2_requested line s = false := by
    rcases hv with rfl | rfl | rfl | rfl <;>
      simp [L2_requested, phaseB, phaseA, case_A, case_D, hpcf, hnxt, hq]
  have hS : scanned line s = { s with
      icw_scf := upd s.icw_scf line (s.icw_scf line ||| 0x08)
      icw_pcf_prev := upd s.icw_pcf_prev line v } := by
    rcases hv with rfl | rfl | rfl | rfl <;>
      simp [scanned, phaseB, phaseA, case_A, case_D, commit, hpcf, hnxt, hq]
  refine ⟨scanned line s, scanLine_of_quiet ccu fuel line s hL, hL, hS, ?_⟩
  rw [hS]
  simp

set_option maxRecDepth 100000 in
/-- C31 at a concrete input: line 2 in PCF `0xD`. -/
theorem C31_noop_states_witness :
    (((0xD : Nat) = 0xA ∨ (0xD : Nat) = 0xB ∨ (0xD : Nat) = 0xD ∨ (0xD : Nat) = 0xE) ∧
      exD.icw_pcf 2 = 0xD ∧ exD.icw_pcf_nxt 2 = 0xD ∧ exD.CS2_req_L2_int = OFF) ∧
    ∃ s', scanLine ccuStuck 0 2 exD = some s' ∧
      L2_requested 2 exD = false ∧
      s' = { exD with
        icw_scf := upd exD.icw_scf 2 (exD.icw_scf 2 ||| 0x08)
        icw_pcf_prev := upd exD.icw_pcf_prev 2 0xD } ∧
      s'.icw_pcf = exD.icw_pcf ∧ s'.icw_pcf_nxt = exD.icw_pcf_nxt ∧
      s'.icw_pdf = exD.icw_pdf ∧ s'.icw_pdf_reg = exD.icw_pdf_reg ∧ s'.icw_lcd = exD.icw_lcd ∧
      s'.icw_lne_stat = exD.icw_lne_stat ∧
      s'.BLU_req_buf = exD.BLU_req_buf ∧ s'.BLU_req_ptr = exD.BLU_req_ptr ∧
      s'.BLU_req_len = exD.BLU_req_len ∧ s'.BLU_req_stat = exD.BLU_req_stat ∧
      s'.BLU_rsp_buf = exD.BLU_rsp_buf ∧ s'.BLU_rsp_ptr = exD.BLU_rsp_ptr ∧
      s'.BLU_rsp_len = exD.BLU_rsp_len ∧ s'.BLU_rsp_stat = exD.BLU_rsp_stat ∧
      s'.icw_scf 2 = (exD.icw_scf 2 ||| 0x08) ∧ s'.icw_pcf_prev 2 = 0xD ∧
      s'.svc_req_L2 = exD.svc_req_L2 ∧ s'.abar_int = exD.abar_int :=
  ⟨by decide,
    C31_noop_states ccuStuck 0 2 exD 0xD (by decide) (by decide) (by decide) (by decide)⟩

set_option maxRecDepth 100000 in
/-- C36. Control-byte decomposition: for every buffer whose control byte
`BLU_req_buf[FCntl]` is a byte (below 256), the fields `Nr`, `PF`, `Ns` and
`Ft` give the byte back, `(Nr << 5) | (PF << 4) | (Ns << 1) | Ft`, with `Nr`
and `Ns` at most 7 and `PF` and `Ft` at most 1. -/
theorem C36_control_byte (BLU_req_buf : Nat → Nat) (hbyte : BLU_req_buf FCntl < 256) :
    ((Nr BLU_req_buf <<< 5) ||| (PF BLU_req_buf <<< 4) ||| (Ns BLU_req_buf <<< 1) |||
        Ft BLU_req_buf) = BLU_req_buf FCntl ∧
    Nr BLU_req_buf ≤ 7 ∧ Ns BLU_req_buf ≤ 7 ∧ PF BLU_req_buf ≤ 1 ∧ Ft BLU_req_buf ≤ 1 := by
  have key : ∀ c : Nat, c < 256 →
      ((((c >>> 5) &&& 0x7) <<< 5) ||| (((c >>> 4) &&& 0x1) <<< 4) |||
          (((c >>> 1) &&& 0x7) <<< 1) ||| (c &&& 0x01)) = c ∧
      (c >>> 5) &&& 0x7 ≤ 7 ∧ (c >>> 1) &&& 0x7 ≤ 7 ∧ (c >>> 4) &&& 0x1 ≤ 1 ∧
      c &&& 0x01 ≤ 1 := by
    decide
  exact key (BLU_req_buf FCntl) hbyte

/-- C36 at a concrete input: the control byte `0x93` has `Nr = 4`, `PF = 1`,
`Ns = 1`, `Ft = 1`. -/
theorem C36_control_byte_witness :
    (exFrame FCntl < 256 ∧ exFrame FCntl = 0x93) ∧
    (((Nr exFrame <<< 5) ||| (PF exFrame <<< 4) ||| (Ns exFrame <<< 1) ||| Ft exFrame) =
        exFrame FCntl ∧
      Nr exFrame ≤ 7 ∧ Ns exFrame ≤ 7 ∧ PF exFrame ≤ 1 ∧ Ft exFrame ≤ 1) ∧
    Nr exFrame = 4 ∧ PF exFrame = 1 ∧ Ns exFrame = 1 ∧ Ft exFrame = 1 :=
  ⟨by decide, C36_control_byte exFrame (by decide), by decide, by decide, by decide, by decide⟩

set_option maxRecDepth 100000 in
/-- C33, the code at the failing input: line 0 is connected (peer descriptor
5) and the scanner has handed over an empty request buffer
(`BLU_req_stat = FILLED`, `BLU_req_len = 0`) whose first cell holds `00`.  The
line handler calls `SendSDLC`, which skips the first cell (`Fptr = 1`) and
calls `send` with descriptor 5, offset 1 and the byte count
`BLU_req_len - Fptr = -1`: the count is negative. -/
theorem C33_send_length_negative :
    (exEmptyReq.sdlcline 0).line_stat = CONN ∧ (exEmptyReq.sdlcline 0).d3274_fd = 5 ∧
    exEmptyReq.BLU_req_stat 0 = FILLED ∧ exEmptyReq.BLU_req_len 0 = 0 ∧
    exEmptyReq.BLU_req_buf (idx 0 0) = 0x00 ∧
    Option.map (fun c : SendCall => (c.fd, c.Fptr, c.len)) (SendSDLC sysOk 0 exEmptyReq).2.2 =
      some (5, 1, -1) ∧
    Option.map (fun c : SendCall => (c.fd, c.Fptr, c.len)) (SDLC_line sysOk 0 exEmptyReq).2 =
      some (5, 1, -1) ∧
    exEmptyReq.BLU_req_len 0 - 1 < 0 :=
  ⟨by decide, by decide, by decide, by decide, by decide, by decide, by decide, by decide⟩

/-- C35. Line direction changes: a scan of a line that returns leaves the line
state of every other line alone, and sets the line state of the line
to RESET when the NCP has written PCF 0 (`pcf ≠ pcf_nxt = 0`), to TX when the
handler of PCF 7 runs (no L2 pending, CCU level not 2, `lcd = 0x9`,
`pdf_reg = EMPTY`) and finds `47 0F 7E` at the response pointer, and to RX on
first entry to PCF `0xC` with `lcd = 0x9`; in every other case the line state
is unchanged. -/
theorem C35_line_direction (ccu : Nat → Bool) (fuel line : Nat) (s : State)
    (hret : scanEnds ccu fuel line s) :
    ∃ s', scanLine ccu fuel line s = some s' ∧
      (∀ j, j ≠ line → s'.icw_lne_stat j = s.icw_lne_stat j) ∧
      ((s.icw_pcf line ≠ s.icw_pcf_nxt line ∧ s.icw_pcf_nxt line = 0x0) →
        s'.icw_lne_stat line = RESET) ∧
      ((s.icw_pcf_nxt line = 0x7 ∧ s.svc_req_L2 = OFF ∧ s.lvl ≠ 2 ∧ s.icw_lcd line = 0x9 ∧
          s.icw_pdf_reg line = EMPTY ∧
          s.BLU_rsp_buf (idx line (s.BLU_rsp_ptr line - 2)) = 0x47 ∧
          s.BLU_rsp_buf (idx line (s.BLU_rsp_ptr line - 1)) = 0x0F ∧
          s.BLU_rsp_buf (idx line (s.BLU_rsp_ptr line)) = 0x7E) →
        s'.icw_lne_stat line = TX) ∧
      ((s.icw_pcf_nxt line = 0xC ∧ s.icw_lcd line = 0x9 ∧
          (s.icw_pcf line ≠ 0xC ∨ s.icw_pcf_prev line ≠ 0xC)) →
        s'.icw_lne_stat line = RX) ∧
      (¬ (s.icw_pcf line ≠ s.icw_pcf_nxt line ∧ s.icw_pcf_nxt line = 0x0) →
        ¬ (s.icw_pcf_nxt line = 0x7 ∧ s.svc_req_L2 = OFF ∧ s.lvl ≠ 2 ∧ s.icw_lcd line = 0x9 ∧
          s.icw_pdf_reg line = EMPTY ∧
          s.BLU_rsp_buf (idx line (s.BLU_rsp_ptr line - 2)) = 0x47 ∧
          s.BLU_rsp_buf (idx line (s.BLU_rsp_ptr line - 1)) = 0x0F ∧
          s.BLU_rsp_buf (idx line (s.BLU_rsp_ptr line)) = 0x7E) →
        ¬ (s.icw_pcf_nxt line = 0xC ∧ s.icw_lcd line = 0x9 ∧
          (s.icw_pcf line ≠ 0xC ∨ s.icw_pcf_prev line ≠ 0xC)) →
        s'.icw_lne_stat line = s.icw_lne_stat line) := by
  have f14 : (scanned line s).icw_lne_stat = (phaseB line (phaseA line s)).icw_lne_stat :=
    (scanned_frame line s).2.2.2.2.2.2.2.2.2.2.2.2.2.1
  obtain ⟨_, _, _, _, a5, a6, _, _, _, a10, a11, _⟩ := phaseA_frame line s
  have hp : (phaseA line s).icw_pcf line = s.icw_pcf_nxt line := phaseA_pcf line s
  have hg : L2_active (phaseA line s) = L2_active s := by
    unfold L2_active
    rw [phaseA_svc, phaseA_lvl]
  obtain ⟨hO, hB⟩ := phaseB_lne_stat line (phaseA line s)
  rw [hp, hg, a5, a6, a10, a11, L2_active_false_iff] at hB
  have hAo : ∀ j, j ≠ line → (phaseA line s).icw_lne_stat j = s.icw_lne_stat j := by
    intro j hj
    unfold phaseA
    simp only
    split_ifs <;> simp [upd, hj]
  refine ⟨scanned line s, scanLine_of_ends ccu fuel line s hret, ?_, ?_, ?_, ?_, ?_⟩
  · intro j hj
    rw [f14, hO j hj, hAo j hj]
  · rintro ⟨h1, h2⟩
    have h0 : s.icw_pcf line ≠ 0x0 := by rw [h2] at h1; exact h1
    have hA : (phaseA line s).icw_lne_stat line = RESET := by
      unfold phaseA
      simp [h0, h2]
    rw [f14]
    rcases hB with h | ⟨h7, _⟩ | ⟨hC, _⟩
    · rw [h, hA]
    · rw [h2] at h7; exact absurd h7 (by decide)
    · rw [h2] at hC; exact absurd hC (by decide)
  · rintro ⟨h7, hsvc, hlvl, hlcd, hreg, b1, b2, b3⟩
    by_cases hc : s.icw_pcf line = 0x7 <;>
      simp [scanned, phaseB, phaseA, case_7, L2_active, commit, raiseL2, h7, hc, hsvc, hlvl,
        hlcd, hreg, b1, b2, b3]
  · rintro ⟨hC, hlcd, hf⟩
    by_cases hc : s.icw_pcf line = 0xC
    · have hf2 : s.icw_pcf_prev line ≠ 0xC := by
        rcases hf with h | h
        · exact absurd hc h
        · exact h
      simp [scanned, phaseB, phaseA, case_C, commit, raiseL2, hC, hc, hlcd, hf2]
    · simp [scanned, phaseB, phaseA, case_C, commit, raiseL2, hC, hc, hlcd, Ne.symm hc]
  · intro n1 n2 n3
    have hA : (phaseA line s).icw_lne_stat line = s.icw_lne_stat line := by
      unfold phaseA
      simp only
      split_ifs with c1 c2
      · exact absurd ⟨c1, c2⟩ n1
      · rfl
      · rfl
    have hprev : (phaseA line s).icw_pcf_prev line ≠ s.icw_pcf_nxt line →
        s.icw_pcf_nxt line = 0xC → (s.icw_pcf line ≠ 0xC ∨ s.icw_pcf_prev line ≠ 0xC) := by
      intro hne hC
      by_cases hc : s.icw_pcf line = 0xC
      · right
        have e : phaseA line s =
            { s with icw_scf := upd s.icw_scf line (s.icw_scf line ||| 0x08) } := by
          unfold phaseA
          simp [hc, hC]
        rw [e, hC] at hne
        exact hne
      · exact Or.inl hc
    rw [f14]
    rcases hB with h | ⟨h7, hg7, hl, hr, b1, b2, b3, _⟩ | ⟨hC, hl, hf, _⟩
    · rw [h, hA]
    · exact absurd ⟨h7, hg7.1, hg7.2, hl, hr, b1, b2, b3⟩ n2
    · exact absurd ⟨hC, hl, hprev hf hC⟩ n3

set_option maxRecDepth 100000 in
/-- C35 at a concrete input: line 1 in PCF 7 with `47 0F 7E` at response
pointer 5; the scan turns the line to TX. -/
theorem C35_line_direction_witness :
    (scanEnds ccuStuck 0 1 ex7 ∧ ex7.icw_lne_stat 1 = RX) ∧
    ∃ s', scanLine ccuStuck 0 1 ex7 = some s' ∧
      (∀ j, j ≠ 1 → s'.icw_lne_stat j = ex7.icw_lne_stat j) ∧
      ((ex7.icw_pcf 1 ≠ ex7.icw_pcf_nxt 1 ∧ ex7.icw_pcf_nxt 1 = 0x0) →
        s'.icw_lne_stat 1 = RESET) ∧
      ((ex7.icw_pcf_nxt 1 = 0x7 ∧ ex7.svc_req_L2 = OFF ∧ ex7.lvl ≠ 2 ∧ ex7.icw_lcd 1 = 0x9 ∧
          ex7.icw_pdf_reg 1 = EMPTY ∧
          ex7.BLU_rsp_buf (idx 1 (ex7.BLU_rsp_ptr 1 - 2)) = 0x47 ∧
          ex7.BLU_rsp_buf (idx 1 (ex7.BLU_rsp_ptr 1 - 1)) = 0x0F ∧
          ex7.BLU_rsp_buf (idx 1 (ex7.BLU_rsp_ptr 1)) = 0x7E) →
        s'.icw_lne_stat 1 = TX) ∧
      ((ex7.icw_pcf_nxt 1 = 0xC ∧ ex7.icw_lcd 1 = 0x9 ∧
          (ex7.icw_pcf 1 ≠ 0xC ∨ ex7.icw_pcf_prev 1 ≠ 0xC)) →
        s'.icw_lne_stat 1 = RX) ∧
      (¬ (ex7.icw_pcf 1 ≠ ex7.icw_pcf_nxt 1 ∧ ex7.icw_pcf_nxt 1 = 0x0) →
        ¬ (ex7.icw_pcf_nxt 1 = 0x7 ∧ ex7.svc_req_L2 = OFF ∧ ex7.lvl ≠ 2 ∧ ex7.icw_lcd 1 = 0x9 ∧
          ex7.icw_pdf_reg 1 = EMPTY ∧
          ex7.BLU_rsp_buf (idx 1 (ex7.BLU_rsp_ptr 1 - 2)) = 0x47 ∧
          ex7.BLU_rsp_buf (idx 1 (ex7.BLU_rsp_ptr 1 - 1)) = 0x0F ∧
          ex7.BLU_rsp_buf (idx 1 (ex7.BLU_rsp_ptr 1)) = 0x7E) →
        ¬ (ex7.icw_pcf_nxt 1 = 0xC ∧ ex7.icw_lcd 1 = 0x9 ∧
          (ex7.icw_pcf 1 ≠ 0xC ∨ ex7.icw_pcf_prev 1 ≠ 0xC)) →
        s'.icw_lne_stat 1 = ex7.icw_lne_stat 1) :=
  ⟨⟨Or.inr (Or.inl (by decide)), by decide⟩,
    C35_line_direction ccuStuck 0 1 ex7 (Or.inr (Or.inl (by decide)))⟩

set_option maxRecDepth 100000 in
/-- Counterexample to C32 as stated: line 1 right after the scan of PCF 5 that
found the opening flag (`pcf = pcf_nxt = 6`, response pointer 0,
`rsp[0] = 7E`); the L2 interrupt raised by that scan is still pending.  The
next scan of the line is a PCF 6 step (`pcf_prev = 6` afterwards) that the
L2 gate stops: after this first PCF 6 step the response pointer is still 0,
not at least 1. -/
theorem C32_counterexample :
    exRx.icw_pcf_nxt 1 = 0x5 ∧ L2_requested 1 exRx = true ∧
    exFlag.icw_pcf 1 = 0x6 ∧ exFlag.icw_pcf_nxt 1 = 0x6 ∧ exFlag.BLU_rsp_ptr 1 = 0 ∧
    exFlag.BLU_rsp_buf (idx 1 0) = 0x7E ∧ exFlag.svc_req_L2 = ON ∧
    scanLine ccuStuck 0 1 exFlag = some (scanned 1 exFlag) ∧
    (scanned 1 exFlag).icw_pcf_prev 1 = 0x6 ∧ (scanned 1 exFlag).icw_pcf 1 = 0x6 ∧
    (scanned 1 exFlag).BLU_rsp_ptr 1 = 0 :=
  ⟨by decide, by decide, by decide, by decide, by decide, by decide, by decide,
    scanLine_of_quiet ccuStuck 0 1 exFlag (by decide), by decide, by decide, by decide⟩

/-- C32, amended. Receive index safety: from a state left by the flag
detection of PCF 4/5 (`pcf_nxt = 6`, response pointer 0, `rsp[0] = 7E`), along
every run of scans of the line between which the other actors write no PCF and
leave the response pointer and the response memory alone (the CCU ending every
wait), the scans return and before each scan the PCF to handle is 6 or 7, the
response pointer is non-negative, and it is at least 2 whenever the PCF to
handle is 7, so that `rsp[p-2]` is never read below the buffer.  No scan
lowers the pointer.  While the pointer is 0, a PCF 6 step stopped by the L2
gate leaves it 0; the first PCF 6 step that passes the gate sets it to 1 and
stays in PCF 6. -/
theorem C32_rx_index_safety (ccu : Nat → Bool) (fuel line : Nat)
    (acts : List (State → State)) (s0 : State)
    (hccu : ∃ n, n < fuel ∧ ccu n = true) (henv : ∀ a ∈ acts, rxEnv line a)
    (h6 : s0.icw_pcf_nxt line = 0x6) (hp : s0.BLU_rsp_ptr line = 0)
    (hb : s0.BLU_rsp_buf (idx line 0) = 0x7E) :
    runScans ccu fuel line acts s0 = some ((runTrace line acts s0).map Prod.snd) ∧
    (runTrace line acts s0).length = acts.length ∧
    ∀ p ∈ runTrace line acts s0,
      p.2 = scanned line p.1 ∧
      (p.1.icw_pcf_nxt line = 0x6 ∨ p.1.icw_pcf_nxt line = 0x7) ∧
      0 ≤ p.1.BLU_rsp_ptr line ∧
      (p.1.icw_pcf_nxt line = 0x7 → 2 ≤ p.1.BLU_rsp_ptr line) ∧
      p.1.BLU_rsp_ptr line ≤ p.2.BLU_rsp_ptr line ∧
      (p.1.BLU_rsp_ptr line = 0 → (p.1.svc_req_L2 = ON ∨ p.1.lvl = 2) →
        p.2.BLU_rsp_ptr line = 0) ∧
      (p.1.BLU_rsp_ptr line = 0 → p.1.svc_req_L2 = OFF → p.1.lvl ≠ 2 →
        p.2.BLU_rsp_ptr line = 1 ∧ p.2.icw_pcf_nxt line = 0x6) := by
  refine ⟨runScans_trace ccu fuel line hccu acts s0, runTrace_length line acts s0, ?_⟩
  have h0 : rxInv line s0 := Or.inl ⟨h6, Or.inl ⟨hp, hb⟩⟩
  have hinv := runTrace_inv line (rxInv line) (fun _ => True)
    (fun s hs _ => (scanned_rxInv line s hs).1) acts s0
    (by
      intro a ha s hs
      obtain ⟨e1, e2, e3⟩ := henv a ha s
      unfold rxInv
      rw [e1, e2, e3]
      exact hs)
    h0 (fun _ _ => trivial)
  intro p hpm
  obtain ⟨i1, _, e⟩ := hinv p hpm
  have hmono := (scanned_rxInv line p.1 i1).2
  rw [← e] at hmono
  refine ⟨e, ?_, ?_, ?_, hmono, ?_, ?_⟩
  · rcases i1 with ⟨c6, _⟩ | ⟨c7, _⟩
    · exact Or.inl c6
    · exact Or.inr c7
  · rcases i1 with ⟨_, ⟨c0, _⟩ | c1⟩ | ⟨_, c2⟩ <;> omega
  · intro c7
    rcases i1 with ⟨c6, _⟩ | ⟨_, c2⟩
    · rw [c6] at c7; exact absurd c7 (by decide)
    · exact c2
  · intro c0 hgate
    rcases i1 with ⟨c6, _⟩ | ⟨_, c2⟩
    · obtain ⟨_, hcase⟩ := scanned_rx6 line p.1 c6
      rw [← e] at hcase
      rcases hcase with ⟨_, e1, _⟩ | ⟨⟨g1, g2⟩, _⟩
      · rw [e1, c0]
      · rcases hgate with g | g
        · rw [g] at g1; exact absurd g1 (by decide)
        · exact absurd g g2
    · omega
  · intro c0 hsvc hlvl
    rcases i1 with ⟨c6, ⟨_, cb⟩ | c1⟩ | ⟨_, c2⟩
    · obtain ⟨_, hcase⟩ := scanned_rx6 line p.1 c6
      rw [← e] at hcase
      rcases hcase with ⟨g, _⟩ | ⟨_, e1, e3⟩
      · rcases g with g | g
        · rw [g] at hsvc; exact absurd hsvc (by decide)
        · exact absurd g hlvl
      · rw [c0] at e1 e3
        rcases e3 with ⟨_, e2⟩ | ⟨nb, _⟩
        · exact ⟨by rw [e1]; norm_num, e2⟩
        · exact absurd cb nb
    · omega
    · omega

set_option maxRecDepth 100000 in
/-- C32 at a concrete input: four scans of line 1 after the flag detection;
the first is stopped by the L2 gate, the second skips the flag, the third
delivers `C1` and goes to PCF 7, the fourth runs the handler of PCF 7 at
response pointer 2. -/
theorem C32_rx_index_safety_witness :
    ((∃ n, n < 1 ∧ ccuPrompt n = true) ∧ (∀ a ∈ actsRx, rxEnv 1 a) ∧
      exFlag.icw_pcf_nxt 1 = 0x6 ∧ exFlag.BLU_rsp_ptr 1 = 0 ∧
      exFlag.BLU_rsp_buf (idx 1 0) = 0x7E) ∧
    (runScans ccuPrompt 1 1 actsRx exFlag = some ((runTrace 1 actsRx exFlag).map Prod.snd) ∧
      (runTrace 1 actsRx exFlag).length = actsRx.length ∧
      ∀ p ∈ runTrace 1 actsRx exFlag,
        p.2 = scanned 1 p.1 ∧
        (p.1.icw_pcf_nxt 1 = 0x6 ∨ p.1.icw_pcf_nxt 1 = 0x7) ∧
        0 ≤ p.1.BLU_rsp_ptr 1 ∧
        (p.1.icw_pcf_nxt 1 = 0x7 → 2 ≤ p.1.BLU_rsp_ptr 1) ∧
        p.1.BLU_rsp_ptr 1 ≤ p.2.BLU_rsp_ptr 1 ∧
        (p.1.BLU_rsp_ptr 1 = 0 → (p.1.svc_req_L2 = ON ∨ p.1.lvl = 2) →
          p.2.BLU_rsp_ptr 1 = 0) ∧
        (p.1.BLU_rsp_ptr 1 = 0 → p.1.svc_req_L2 = OFF → p.1.lvl ≠ 2 →
          p.2.BLU_rsp_ptr 1 = 1 ∧ p.2.icw_pcf_nxt 1 = 0x6)) ∧
    (runTrace 1 actsRx exFlag).map
        (fun p => (p.1.icw_pcf_nxt 1, p.1.BLU_rsp_ptr 1, p.2.BLU_rsp_ptr 1)) =
      [(0x6, 0, 0), (0x6, 0, 1), (0x6, 1, 2), (0x7, 2, 3)] :=
  ⟨⟨⟨0, by decide, rfl⟩,
      by
        intro a ha x
        simp only [actsRx, List.mem_cons, List.mem_singleton, List.not_mem_nil, or_false] at ha
        rcases ha with rfl | rfl | rfl | rfl <;> simp [ccu_done, ncp_read],
      by decide, by decide, by decide⟩,
    C32_rx_index_safety ccuPrompt 1 1 actsRx exFlag ⟨0, by decide, rfl⟩
      (by
        intro a ha x
        simp only [actsRx, List.mem_cons, List.mem_singleton, List.not_mem_nil, or_false] at ha
        rcases ha with rfl | rfl | rfl | rfl <;> simp [ccu_done, ncp_read])
      (by decide) (by decide) (by decide),
    by decide⟩

set_option maxRecDepth 100000 in
/-- C34, the code at the failing input: line 0, reached from `Init_ICW` by
scans and NCP writes.  The NCP has started an outbound frame (PCF 8, then the
byte `7E` stored at `req[0]` by PCF 9) and abandoned it by writing PCF 0; the
scan of PCF 0 has set both buffer states EMPTY and left the request pointer at
1; the NCP has written PCF 8 again.  The scan that moves the line from PCF 8
to PCF 9 to begin the next frame finds and leaves the request pointer at 1,
not 0: the first byte the NCP feeds, `7E`, is stored at `req[1]`, the second,
`C1`, at `req[2]`; at the turnaround the length is 3 and the line handler
sends `7E 7E C1`, the two bytes of the frame behind the stale one. -/
theorem C34_abandoned_frame_offset :
    exAbort.icw_pcf 0 = 0x0 ∧ exAbort.icw_pcf_nxt 0 = 0x8 ∧ exAbort.icw_lcd 0 = 0x9 ∧
    exAbort.svc_req_L2 = OFF ∧ exAbort.lvl = 0 ∧
    exAbort.BLU_req_stat 0 = EMPTY ∧ exAbort.BLU_req_ptr 0 = 1 ∧
    scanLine ccuStuck 0 0 exAbort = some (scanned 0 exAbort) ∧
    (scanned 0 exAbort).icw_pcf_prev 0 = 0x8 ∧ (scanned 0 exAbort).icw_pcf 0 = 0x9 ∧
    (scanned 0 exAbort).BLU_req_ptr 0 = 1 ∧
    scanLine ccuStuck 0 0 (ncp_pdf 0 0x7E (scanned 0 exAbort)) =
      some (scanned 0 (ncp_pdf 0 0x7E (scanned 0 exAbort))) ∧
    (scanned 0 (ncp_pdf 0 0x7E (scanned 0 exAbort))).BLU_req_buf (idx 0 0) = 0x7E ∧
    (scanned 0 (ncp_pdf 0 0x7E (scanned 0 exAbort))).BLU_req_buf (idx 0 1) = 0x7E ∧
    (scanned 0 (ncp_pdf 0 0x7E (scanned 0 exAbort))).BLU_req_ptr 0 = 2 ∧
    exAbortFrame.BLU_req_stat 0 = FILLED ∧ exAbortFrame.BLU_req_len 0 = 3 ∧
    exAbortFrame.BLU_req_ptr 0 = 0 ∧
    Option.map (fun c : SendCall => (c.Fptr, c.len, sendBytes exAbortFrame 0 c))
        (SDLC_line sysOk 0 exAbortFrame).2 =
      some (0, 3, [0x7E, 0x7E, 0xC1]) :=
  ⟨by decide, by decide, by decide, by decide, by decide, by decide, by decide,
    scanLine_of_clears ccuStuck 0 0 exAbort (Or.inl (by decide)), by decide, by decide,
    by decide,
    scanLine_of_clears ccuStuck 0 0 (ncp_pdf 0 0x7E (scanned 0 exAbort)) (Or.inl (by decide)),
    by decide, by decide, by decide, by decide, by decide, by decide, by decide⟩

end I3705
